import Mathlib

/-!
# Index query adapters of `arangod/V8Server/v8-query.cpp`

A shallow embedding of the skip/limit windowing, of the index-operator builders
(`SetupConditionsSkiplist`, `SetupExampleSkiplist`, `SetupBitarrayAttributeValuesHelper`,
`SetupConditionsBitarrayHelper`), of the query adapters that use them, of the
fulltext and geo queries (`FulltextQuery`, `StoreGeoResult`, `NearQuery`, `WithinQuery`),
of the collection checksum (`ChecksumCalculator`, `JS_ChecksumCollection`) and of the
access types declared in `arangod/Ahuacatl/ahuacatl-access-optimiser.h`.

Conventions of the embedding:

* `size_t` and `TRI_voc_size_t` are `Nat` values below `2^64`, `TRI_voc_ssize_t` and
  `int64_t` are `Int` values in `[-2^63, 2^63)`; every conversion and every arithmetic
  operation of the source that can leave its range is written with an explicit wrap
  (`toSizeT`, `toInt64`, `wrapInt64`). Counters that are incremented once for each element
  of an in-memory sequence are exact.
* A `NULL` pointer result is `none`.
* Allocation never fails (`TRI_CreateListJson`, `TRI_CopyJson`, `TRI_CreateIndexOperator`,
  `TRI_CreateQueryFulltextIndex` and `TRI_Allocate` always return an object).
-/

namespace ArangoQuery

/-! ## Machine integers -/

/-- Number of values of a 64-bit word. -/
def WORD : Nat := 18446744073709551616

/-- Number of non-negative values of `int64_t`. -/
def HALF : Nat := 9223372036854775808

/-- Conversion of a signed value to `size_t`: reduction modulo `2^64`. -/
def toSizeT (x : Int) : Nat := (x % (WORD : Int)).toNat

/-- Conversion `(int64_t) n` of an unsigned 64-bit value: two's complement. -/
def toInt64 (n : Nat) : Int :=
  if n % WORD < HALF then ((n % WORD : Nat) : Int) else ((n % WORD : Nat) : Int) - (WORD : Int)

/-- Result of a signed 64-bit operation whose exact value is `x`, with wrap-around. -/
def wrapInt64 (x : Int) : Int := (x + (HALF : Int)) % (WORD : Int) - (HALF : Int)

/-! ## Skip / limit slice -/

/-- Source: `CalculateSkipLimitSlice` (v8-query.cpp 133-171). The constant
`TRI_QRY_NO_LIMIT` is declared in a header that is not part of the sources and is the
first parameter. Returns the pair `(s, e)`. -/
def CalculateSkipLimitSlice (TRI_QRY_NO_LIMIT : Nat) (length : Nat) (skip : Int) (limit : Nat) :
    Nat × Nat :=
  let e := length
  -- skip from the beginning / skip from the end
  let s : Nat :=
    if 0 < skip then
      (if e < toSizeT skip then e else toSizeT skip)
    else if skip < 0 then
      (if toSizeT (wrapInt64 (-skip)) < e then (e + WORD - toSizeT (wrapInt64 (-skip))) % WORD
        else 0)
    else 0
  -- apply limit
  let e : Nat :=
    if (s + limit) % WORD < e then
      (if wrapInt64 (toInt64 s + toInt64 limit) < toInt64 e then
        (if wrapInt64 (toInt64 s + toInt64 limit) ≥ toInt64 TRI_QRY_NO_LIMIT
          then TRI_QRY_NO_LIMIT
          else toSizeT (wrapInt64 (toInt64 s + toInt64 limit)))
        else e)
    else e
  (s, e)

/-! ## V8 values

The values handed over by the JavaScript side. `v8::Value::IsObject` holds for arrays as
well as for plain objects. The own properties looked up by the builders are attribute
names (index fields, operator symbols); the index and `length` properties of an array are
not modelled, so an array has no own property here. -/

/-- A JavaScript value as seen through the `v8::Value` interface. -/
inductive JSVal where
  | undefined
  | null
  | bool (b : Bool)
  | num (n : Int)
  | str (s : String)
  | array (elems : List JSVal)
  | object (props : List (String × JSVal))

namespace JSVal

/-- `v8::Value::IsObject`. -/
def IsObject : JSVal → Bool
  | array _ => true
  | object _ => true
  | _ => false

/-- `v8::Value::IsArray`. -/
def IsArray : JSVal → Bool
  | array _ => true
  | _ => false

/-- `v8::Value::IsNull`. -/
def IsNull : JSVal → Bool
  | null => true
  | _ => false

/-- `v8::Value::IsUndefined`. -/
def IsUndefined : JSVal → Bool
  | undefined => true
  | _ => false

/-- `obj->HasOwnProperty(key)` followed by `obj->Get(key)`: the value of the own property
`key`, `none` when there is no such own property. -/
def getOwn : JSVal → String → Option JSVal
  | object props, key => props.lookup key
  | _, _ => none

/-- `obj->GetOwnPropertyNames()`. -/
def GetOwnPropertyNames : JSVal → List String
  | object props => (props.map Prod.fst).eraseDups
  | _ => []

end JSVal

/-! ## JSON values and index operators -/

/-- A `TRI_json_t` value; `array` is the JSON object (`TRI_JSON_ARRAY`), `list` the JSON
list (`TRI_JSON_LIST`), `unused` is `TRI_JSON_UNUSED`. -/
inductive TRI_json_t where
  | unused
  | null
  | boolean (b : Bool)
  | number (n : Int)
  | string (s : String)
  | array (props : List (String × TRI_json_t))
  | list (elems : List TRI_json_t)

/-- The operator tags of `TRI_index_operator_type_e` used by the builders. -/
inductive TRI_index_operator_type_e where
  | TRI_AND_INDEX_OPERATOR
  | TRI_NOT_INDEX_OPERATOR
  | TRI_OR_INDEX_OPERATOR
  | TRI_EQ_INDEX_OPERATOR
  | TRI_GE_INDEX_OPERATOR
  | TRI_GT_INDEX_OPERATOR
  | TRI_NE_INDEX_OPERATOR
  | TRI_LE_INDEX_OPERATOR
  | TRI_LT_INDEX_OPERATOR
  deriving DecidableEq, Repr

open TRI_index_operator_type_e

/-- An index operator as built by `TRI_CreateIndexOperator (type, left, right, parameters,
shaper, collection, numFields, ...)`: the record of the tag, the two child pointers, the
parameter list and the number of fields handed to the constructor. -/
inductive TRI_index_operator_t where
  | mk (type : TRI_index_operator_type_e) (left right : Option TRI_index_operator_t)
      (parameters : Option TRI_json_t) (numFields : Nat)

/-- `TRI_CreateIndexOperator`; the shaper and collection arguments are not recorded. -/
def TRI_CreateIndexOperator (type : TRI_index_operator_type_e)
    (left right : Option TRI_index_operator_t) (parameters : Option TRI_json_t)
    (numFields : Nat) : TRI_index_operator_t :=
  .mk type left right parameters numFields

/-- Index kinds of `TRI_idx_type_e`. -/
inductive TRI_idx_type_e where
  | TRI_IDX_TYPE_PRIMARY_INDEX
  | TRI_IDX_TYPE_GEO1_INDEX
  | TRI_IDX_TYPE_GEO2_INDEX
  | TRI_IDX_TYPE_HASH_INDEX
  | TRI_IDX_TYPE_EDGE_INDEX
  | TRI_IDX_TYPE_FULLTEXT_INDEX
  | TRI_IDX_TYPE_SKIPLIST_INDEX
  | TRI_IDX_TYPE_BITARRAY_INDEX
  | TRI_IDX_TYPE_CAP_CONSTRAINT
  deriving DecidableEq, Repr

/-- The part of `TRI_index_t` read by the builders and adapters: the kind tag and the
ordered list of field names (`_fields._buffer[0 .. _fields._length - 1]`). -/
structure TRI_index_t where
  _type : TRI_idx_type_e
  _fields : List String

/-! ## Skiplist condition builder -/

/-- The local variables of `SetupConditionsSkiplist`; `parameters` holds the elements of
the JSON list `parameters`. -/
structure SkiplistState where
  parameters : List TRI_json_t
  numEq : Nat
  lastNonEq : Nat
  lastOperator : Option TRI_index_operator_t

/-- The operator tag of a range condition (v8-query.cpp 356-373); `none` is the
"wrong operator type" branch. -/
def rangeOperatorType (opValue : String) : Option TRI_index_operator_type_e :=
  if opValue = ">" then some TRI_GT_INDEX_OPERATOR
  else if opValue = ">=" then some TRI_GE_INDEX_OPERATOR
  else if opValue = "<" then some TRI_LT_INDEX_OPERATOR
  else if opValue = "<=" then some TRI_LE_INDEX_OPERATOR
  else none

/-- The loop over the conditions of index field number `i` (1-based) in
`SetupConditionsSkiplist` (v8-query.cpp 303-424). `none` is a jump to `MEM_ERROR`;
`some st` is the state with which the loop over the index fields goes on, reached when
the conditions are exhausted or by the `break` after an accepted `==`. -/
def conditionLoop (TRI_ObjectToJson : JSVal → Option TRI_json_t) (i : Nat) :
    List JSVal → SkiplistState → Option SkiplistState
  | [], st => some st
  | fieldCondition :: rest, st =>
    match fieldCondition with
    | .array [op, value] =>
      match op with
      | .str opValue =>
        match TRI_ObjectToJson value with
        | none => none
        | some json =>
          if opValue = "==" then
            -- equality comparison
            if st.lastNonEq > 0 then none
            else some { st with parameters := st.parameters ++ [json], numEq := st.numEq + 1 }
          else
            if st.lastNonEq > 0 ∧ st.lastNonEq ≠ i then none
            else
              match rangeOperatorType opValue with
              | none => none
              | some opType =>
                let cloned := st.parameters ++ [json]
                -- create equality operator if one is in queue
                let lastOperator :=
                  if st.numEq ≠ 0 then
                    some (TRI_CreateIndexOperator TRI_EQ_INDEX_OPERATOR none none
                      (some (.list st.parameters)) st.parameters.length)
                  else st.lastOperator
                let numEq := if st.numEq ≠ 0 then 0 else st.numEq
                -- create the operator for the current condition
                let current := TRI_CreateIndexOperator opType none none
                  (some (.list cloned)) cloned.length
                let lastOperator :=
                  match lastOperator with
                  | none => current
                  | some l => TRI_CreateIndexOperator TRI_AND_INDEX_OPERATOR (some l)
                      (some current) none 2
                conditionLoop TRI_ObjectToJson i rest
                  { parameters := st.parameters, numEq := numEq, lastNonEq := i,
                    lastOperator := some lastOperator }
      | _ => none
    | _ => none

/-- The loop over the index fields in `SetupConditionsSkiplist` (v8-query.cpp 289-426),
started at field number `i`. `none` is a jump to `MEM_ERROR`; the loop stops (`break`)
at the first field that the conditions object does not have or whose value is not an
array. -/
def fieldLoop (TRI_ObjectToJson : JSVal → Option TRI_json_t) (conditions : JSVal) :
    Nat → List String → SkiplistState → Option SkiplistState
  | _, [], st => some st
  | i, key :: rest, st =>
    match conditions.getOwn key with
    | none => some st
    | some fieldConditions =>
      match fieldConditions with
      | .array values =>
        match conditionLoop TRI_ObjectToJson i values st with
        | none => none
        | some st' => fieldLoop TRI_ObjectToJson conditions (i + 1) rest st'
      | _ => some st

/-- Source: `SetupConditionsSkiplist` (v8-query.cpp 276-453). `none` is the null pointer
returned for "no operator". The conversion `TRI_ObjectToJson` is defined outside the
sources and is a parameter. -/
def SetupConditionsSkiplist (TRI_ObjectToJson : JSVal → Option TRI_json_t) (idx : TRI_index_t)
    (conditions : JSVal) : Option TRI_index_operator_t :=
  match fieldLoop TRI_ObjectToJson conditions 1 idx._fields
      { parameters := [], numEq := 0, lastNonEq := 0, lastOperator := none } with
  | none => none
  | some st =>
    if st.numEq ≠ 0 then
      -- create equality operator if one is in queue
      some (TRI_CreateIndexOperator TRI_EQ_INDEX_OPERATOR none none
        (some (.list st.parameters)) st.parameters.length)
    else st.lastOperator

/-! ## Skiplist example builder -/

/-- The loop over the index fields in `SetupExampleSkiplist` (v8-query.cpp 859-877);
`none` is the `return 0` after a failed conversion. -/
def exampleLoop (TRI_ObjectToJson : JSVal → Option TRI_json_t) (example_ : JSVal) :
    List String → List TRI_json_t → Option (List TRI_json_t)
  | [], parameters => some parameters
  | key :: rest, parameters =>
    match example_.getOwn key with
    | none => some parameters
    | some value =>
      match TRI_ObjectToJson value with
      | none => none
      | some json => exampleLoop TRI_ObjectToJson example_ rest (parameters ++ [json])

/-- Source: `SetupExampleSkiplist` (v8-query.cpp 850-886). -/
def SetupExampleSkiplist (TRI_ObjectToJson : JSVal → Option TRI_json_t) (idx : TRI_index_t)
    (example_ : JSVal) : Option TRI_index_operator_t :=
  match exampleLoop TRI_ObjectToJson example_ idx._fields [] with
  | none => none
  | some parameters =>
    if parameters.length > 0 then
      -- example means equality comparisons only
      some (TRI_CreateIndexOperator TRI_EQ_INDEX_OPERATOR none none
        (some (.list parameters)) parameters.length)
    else none

/-! ## Bitarray builders -/

/-- The special case of v8-query.cpp 529-536: an empty JSON list `[]` is wrapped up as
`[ [] ]`. -/
def wrapEmptyList : TRI_json_t → TRI_json_t
  | .list [] => .list [.list []]
  | json => json

/-- The loop over the index fields in `SetupBitarrayAttributeValuesHelper`
(v8-query.cpp 492-569). -/
def attributeValuesLoop (TRI_ObjectToJson : JSVal → Option TRI_json_t)
    (attributeValues : JSVal) : List String → List TRI_json_t → Option (List TRI_json_t)
  | [], parameters => some parameters
  | key :: rest, parameters =>
    match attributeValues.getOwn key with
    | some value =>
      match TRI_ObjectToJson value with
      | none => none
      | some json =>
        attributeValuesLoop TRI_ObjectToJson attributeValues rest
          (parameters ++ [wrapEmptyList json])
    | none =>
      attributeValuesLoop TRI_ObjectToJson attributeValues rest (parameters ++ [.unused])

/-- Source: `SetupBitarrayAttributeValuesHelper` (v8-query.cpp 463-573); the result is
the list of elements of the returned JSON list. -/
def SetupBitarrayAttributeValuesHelper (TRI_ObjectToJson : JSVal → Option TRI_json_t)
    (idx : TRI_index_t) (attributeValues : JSVal) : Option (List TRI_json_t) :=
  if ! attributeValues.IsObject then none
  else attributeValuesLoop TRI_ObjectToJson attributeValues idx._fields []

/-- The chain of `HasOwnProperty` tests at the head of `SetupConditionsBitarrayHelper`
(v8-query.cpp 588-709): the operator type and the value of the first key present, in
the order of the source; `none` is the final `else` (invalid operator index condition). -/
def selectOperator (condition : JSVal) : Option (TRI_index_operator_type_e × JSVal) :=
  if let some value := condition.getOwn "&" then some (TRI_AND_INDEX_OPERATOR, value)
  else if let some value := condition.getOwn "&&" then some (TRI_AND_INDEX_OPERATOR, value)
  else if let some value := condition.getOwn "and" then some (TRI_AND_INDEX_OPERATOR, value)
  else if let some value := condition.getOwn "|" then some (TRI_OR_INDEX_OPERATOR, value)
  else if let some value := condition.getOwn "||" then some (TRI_OR_INDEX_OPERATOR, value)
  else if let some value := condition.getOwn "or" then some (TRI_OR_INDEX_OPERATOR, value)
  else if let some value := condition.getOwn "!" then some (TRI_NOT_INDEX_OPERATOR, value)
  else if let some value := condition.getOwn "not" then some (TRI_NOT_INDEX_OPERATOR, value)
  else if let some value := condition.getOwn "==" then some (TRI_EQ_INDEX_OPERATOR, value)
  else if let some value := condition.getOwn "=" then some (TRI_EQ_INDEX_OPERATOR, value)
  else if let some value := condition.getOwn "eq" then some (TRI_EQ_INDEX_OPERATOR, value)
  else if let some value := condition.getOwn "!=" then some (TRI_NE_INDEX_OPERATOR, value)
  else if let some value := condition.getOwn "<>" then some (TRI_NE_INDEX_OPERATOR, value)
  else if let some value := condition.getOwn "ne" then some (TRI_NE_INDEX_OPERATOR, value)
  else if let some value := condition.getOwn "<=" then some (TRI_LE_INDEX_OPERATOR, value)
  else if let some value := condition.getOwn "le" then some (TRI_LE_INDEX_OPERATOR, value)
  else if let some value := condition.getOwn "<" then some (TRI_LT_INDEX_OPERATOR, value)
  else if let some value := condition.getOwn "lt" then some (TRI_LT_INDEX_OPERATOR, value)
  else if let some value := condition.getOwn ">=" then some (TRI_GE_INDEX_OPERATOR, value)
  else if let some value := condition.getOwn "ge" then some (TRI_GE_INDEX_OPERATOR, value)
  else if let some value := condition.getOwn ">" then some (TRI_GT_INDEX_OPERATOR, value)
  else if let some value := condition.getOwn "gt" then some (TRI_GT_INDEX_OPERATOR, value)
  else none

/-- A property value is a proper part of the object that holds it. -/
theorem JSVal.sizeOf_getOwn {c : JSVal} {key : String} {v : JSVal}
    (h : c.getOwn key = some v) : sizeOf v < sizeOf c := by
  cases c with
  | object props =>
    simp only [JSVal.getOwn] at h
    have hl : sizeOf v < sizeOf props := by
      induction props with
      | nil => simp [List.lookup] at h
      | cons p ps ih =>
        obtain ⟨a, b⟩ := p
        simp only [List.lookup] at h
        split at h
        · cases h; simp; omega
        · have := ih h; simp; omega
    simp; omega
  | _ => simp [JSVal.getOwn] at h

/-- The value picked by `selectOperator` is a proper part of the condition. -/
theorem sizeOf_selectOperator {c : JSVal} {ty : TRI_index_operator_type_e} {v : JSVal}
    (h : selectOperator c = some (ty, v)) : sizeOf v < sizeOf c := by
  unfold selectOperator at h
  repeat' split at h
  all_goals first
    | (cases h; exact JSVal.sizeOf_getOwn (by assumption))
    | cases h

/-- Source: `SetupConditionsBitarrayHelper` (v8-query.cpp 576-833). `none` is the null
pointer returned for "no operator". -/
def SetupConditionsBitarrayHelper (TRI_ObjectToJson : JSVal → Option TRI_json_t)
    (idx : TRI_index_t) (condition : JSVal) : Option TRI_index_operator_t :=
  match h : selectOperator condition with
  | none => none
  | some (operatorType, value) =>
    match operatorType with
    | TRI_AND_INDEX_OPERATOR | TRI_OR_INDEX_OPERATOR =>
      match hv : value with
      | .array [leftValue, rightValue] =>
        if ! leftValue.IsObject || ! rightValue.IsObject then none
        else
          -- recurse the left and right operators
          match SetupConditionsBitarrayHelper TRI_ObjectToJson idx leftValue,
              SetupConditionsBitarrayHelper TRI_ObjectToJson idx rightValue with
          | some leftOp, some rightOp =>
            some (TRI_CreateIndexOperator operatorType (some leftOp) (some rightOp) none 0)
          | _, _ => none
      | _ => none
    | TRI_NOT_INDEX_OPERATOR =>
      if ! value.IsObject then none
      else
        -- recurse the left and only operator
        match SetupConditionsBitarrayHelper TRI_ObjectToJson idx value with
        | none => none
        | some leftOp => some (TRI_CreateIndexOperator operatorType (some leftOp) none none 0)
    | _ =>
      match SetupBitarrayAttributeValuesHelper TRI_ObjectToJson idx value with
      | none => none
      | some parameters =>
        some (TRI_CreateIndexOperator operatorType none none (some (.list parameters))
          parameters.length)
termination_by sizeOf condition
decreasing_by
  all_goals
    have := sizeOf_selectOperator h
    subst_vars
    simp at this ⊢
    omega

/-- Source: `SetupConditionsBitarray` (v8-query.cpp 836-841). -/
def SetupConditionsBitarray (TRI_ObjectToJson : JSVal → Option TRI_json_t)
    (idx : TRI_index_t) (condition : JSVal) : Option TRI_index_operator_t :=
  SetupConditionsBitarrayHelper TRI_ObjectToJson idx condition

/-- Source: `SetupExampleBitarray` (v8-query.cpp 896-905). -/
def SetupExampleBitarray (TRI_ObjectToJson : JSVal → Option TRI_json_t)
    (idx : TRI_index_t) (example_ : JSVal) : Option TRI_index_operator_t :=
  match SetupBitarrayAttributeValuesHelper TRI_ObjectToJson idx example_ with
  | none => none
  | some parameters =>
    -- for an example query, we can only assume equality operator is required.
    some (TRI_CreateIndexOperator TRI_EQ_INDEX_OPERATOR none none (some (.list parameters))
      parameters.length)

/-! ## Query adapters

The collaborators of the adapters (transaction, index lookup, shaper, wrapping of a
document into a V8 object) are defined outside the sources; they are the fields of `Env`.
An index iterator is the finite list of the elements its `_next` yields before `NULL`.
The numbers stored under `total` and `count` are the values of the C++ variables; their
conversion to a V8 number is not modelled, and `documents->Set (count, doc)` appends to
the list of documents. -/

/-- A document master pointer, identified by a number. -/
abbrev TRI_doc_mptr_t := Nat

/-- An opaque shaped JSON value (`_sid` and the data blob). -/
structure TRI_shaped_json_t where
  _sid : Nat
  _data : List Nat

/-- The error codes used by the adapters. -/
inductive TRI_errno where
  | TRI_ERROR_NO_ERROR
  | TRI_ERROR_INTERNAL
  | TRI_ERROR_OUT_OF_MEMORY
  | TRI_ERROR_BAD_PARAMETER
  | TRI_ERROR_NOT_IMPLEMENTED
  | TRI_ERROR_ARANGO_NO_INDEX
  | TRI_ERROR_CLUSTER_UNSUPPORTED
  | TRI_RESULT_ELEMENT_NOT_FOUND
  | other (code : Nat)
  deriving DecidableEq, Repr

open TRI_errno

/-- An error object made by `TRI_CreateErrorObject (file, line, code, message)`. -/
structure ErrorObject where
  code : TRI_errno
  message : String

/-- The exception raised by an adapter, one constructor for each of the `TRI_V8_*`
macros and for `v8::ThrowException (err)`. -/
inductive V8Exception where
  | TRI_V8_EXCEPTION_USAGE (signature : String)
  | TRI_V8_TYPE_ERROR (message : String)
  | TRI_V8_EXCEPTION_PARAMETER (message : String)
  | TRI_V8_EXCEPTION_INTERNAL (message : String)
  | TRI_V8_EXCEPTION (code : TRI_errno)
  | TRI_V8_EXCEPTION_MEMORY
  | ThrowException (err : Option ErrorObject)

open V8Exception

/-- The result object `{ documents, total, count }`. -/
structure QueryResult where
  documents : List JSVal
  total : Int
  count : Nat

/-- A call made to an index or to the document store. -/
inductive IndexCall where
  | TRI_LookupSkiplistIndex (idx : TRI_index_t) (op : TRI_index_operator_t)
  | TRI_LookupBitarrayIndex (idx : TRI_index_t) (op : TRI_index_operator_t)
  | TRI_LookupHashIndex (idx : TRI_index_t) (searchValue : List TRI_shaped_json_t)
  | TRI_SelectByExample (pids : List Nat) (values : List TRI_shaped_json_t)

/-- How a call of an adapter ends. -/
inductive Outcome where
  /-- The result object is returned. -/
  | ok (result : QueryResult)
  /-- An exception is raised. -/
  | exception (e : V8Exception)
  /-- An element outside the bounds of an array is read (undefined behaviour). -/
  | fault

/-- What a call of an adapter does: how it ends, and the lookups executed on the way. -/
structure Run where
  outcome : Outcome
  calls : List IndexCall

/-- Query types (`query_t`). -/
inductive query_t where
  | QUERY_EXAMPLE
  | QUERY_CONDITION
  deriving DecidableEq, Repr

open query_t

/-- The collaborators and constants that are not part of the sources. -/
structure Env where
  /-- The constant `TRI_QRY_NO_SKIP`. -/
  TRI_QRY_NO_SKIP : Int
  /-- The constant `TRI_QRY_NO_LIMIT`. -/
  TRI_QRY_NO_LIMIT : Nat
  /-- `TRI_ObjectToJson`; `none` is the null pointer. -/
  TRI_ObjectToJson : JSVal → Option TRI_json_t
  /-- The value that `skip = (TRI_voc_size_t) TRI_ObjectToDouble (v)` stores in `skip`. -/
  skipOfObject : JSVal → Int
  /-- The value that `limit = (TRI_voc_ssize_t) TRI_ObjectToDouble (v)` stores in `limit`. -/
  limitOfObject : JSVal → Nat
  /-- Whether `TRI_UnwrapClass` yields a collection. -/
  col : Bool
  /-- The exception raised by `TRI_SHARDING_COLLECTION_NOT_YET_IMPLEMENTED`, if any. -/
  sharding : Option V8Exception
  /-- The result of `trx.begin ()`. -/
  trxBegin : TRI_errno
  /-- `TRI_LookupIndexByHandle`; an error carries the error object `err`. -/
  TRI_LookupIndexByHandle : JSVal → Except ErrorObject TRI_index_t
  /-- Whether `trx.orderBarrier` yields a barrier. -/
  orderBarrier : Bool
  /-- `TRI_LookupSkiplistIndex`; an error is a null iterator with that `TRI_errno ()`. -/
  TRI_LookupSkiplistIndex : TRI_index_t → TRI_index_operator_t →
    Except TRI_errno (List TRI_doc_mptr_t)
  /-- `TRI_LookupBitarrayIndex`; `none` is a null iterator. -/
  TRI_LookupBitarrayIndex : TRI_index_t → TRI_index_operator_t → Option (List TRI_doc_mptr_t)
  /-- `WRAP_SHAPED_JSON`; `none` is an empty handle. -/
  WRAP_SHAPED_JSON : TRI_doc_mptr_t → Option JSVal
  /-- `TRI_Utf8ValueNFC` of a property name; `none` is a failed conversion. -/
  TRI_Utf8ValueNFC : String → Option String
  /-- `shaper->lookupAttributePathByName`; 0 is "no attribute path found". -/
  lookupAttributePathByName : String → Nat
  /-- `TRI_ShapedJsonV8Object`; `none` is the null pointer. -/
  TRI_ShapedJsonV8Object : JSVal → Option TRI_shaped_json_t
  /-- `TRI_SelectByExample`. -/
  TRI_SelectByExample : List Nat → List TRI_shaped_json_t → List TRI_doc_mptr_t
  /-- The attribute paths `_paths` of a hash index. -/
  hashPaths : TRI_index_t → List Nat
  /-- `TRI_AttributeNameShapePid`; `none` is `NULL`. -/
  TRI_AttributeNameShapePid : Nat → Option String
  /-- `TRI_FillShapedJsonV8Object`; an error is a result code other than
  `TRI_ERROR_NO_ERROR`. -/
  TRI_FillShapedJsonV8Object : JSVal → Except TRI_errno TRI_shaped_json_t
  /-- `TRI_LookupHashIndex`. -/
  TRI_LookupHashIndex : TRI_index_t → List TRI_shaped_json_t → List TRI_doc_mptr_t

/-- Source: `EmptyResult` (v8-query.cpp 97-106). -/
def EmptyResult : QueryResult :=
  { documents := [], total := 0, count := 0 }

/-- The test `pos < argv.Length () && ! argv[pos]->IsNull () && ! argv[pos]->IsUndefined ()`
of `ExtractSkipAndLimit`. -/
def argGiven (argv : List JSVal) (pos : Nat) : Option JSVal :=
  match argv.get? pos with
  | some v => if ! v.IsNull && ! v.IsUndefined then some v else none
  | none => none

/-- Source: `ExtractSkipAndLimit` (v8-query.cpp 112-127); returns `(skip, limit)`. -/
def ExtractSkipAndLimit (env : Env) (argv : List JSVal) (pos : Nat) : Int × Nat :=
  let skip := env.TRI_QRY_NO_SKIP
  let limit := env.TRI_QRY_NO_LIMIT
  let skip := match argGiven argv pos with
    | some v => env.skipOfObject v
    | none => skip
  let limit := match argGiven argv (pos + 1) with
    | some v => env.limitOfObject v
    | none => limit
  (skip, limit)

/-- The local variables of the windowing loop of `ExecuteSkiplistQuery` and
`ExecuteBitarrayQuery`. -/
structure WindowState where
  documents : List JSVal
  total : Int
  count : Nat
  error : Bool

/-- The windowing loop `while (limit > 0) { ... }` of `ExecuteSkiplistQuery`
(v8-query.cpp 1101-1128) and of `ExecuteBitarrayQuery` (v8-query.cpp 1308-1331), run on
the elements that the iterator still has to yield. `total` (a `TRI_voc_ssize_t`) and
`count` (a `TRI_voc_size_t`) are incremented at most once for each element that the
in-memory index yields, which cannot leave their range; the increments are exact. -/
def windowLoop (WRAP_SHAPED_JSON : TRI_doc_mptr_t → Option JSVal) (skip : Int) (limit : Nat) :
    List TRI_doc_mptr_t → WindowState → WindowState
  | iterator, st =>
    if limit > 0 then
      match iterator with
      | [] => st
      | indexElement :: rest =>
        let total := st.total + 1
        if total > skip ∧ st.count < limit then
          match WRAP_SHAPED_JSON indexElement with
          | none => { st with total := total, error := true }
          | some doc =>
            let count := st.count + 1
            let st' : WindowState :=
              { documents := st.documents ++ [doc], total := total, count := count,
                error := st.error }
            if count ≥ limit then st' else windowLoop WRAP_SHAPED_JSON skip limit rest st'
        else windowLoop WRAP_SHAPED_JSON skip limit rest { st with total := total }
    else st

/-- The start of the windowing loop: `total = 0`, `count = 0`, `error = false` and an
empty `documents` array. -/
def windowInit : WindowState :=
  { documents := [], total := 0, count := 0, error := false }

/-- The end of `ExecuteSkiplistQuery` and `ExecuteBitarrayQuery`: `total` and `count` are
stored in the result, which is returned unless `error` is set. -/
def windowOutcome (st : WindowState) : Outcome :=
  if st.error then .exception TRI_V8_EXCEPTION_MEMORY
  else .ok { documents := st.documents, total := st.total, count := st.count }

/-- Source: `ExecuteSkiplistQuery` (v8-query.cpp 992-1147). -/
def ExecuteSkiplistQuery (env : Env) (argv : List JSVal) (signature : String)
    (type : query_t) : Run :=
  -- expecting index, example, skip, and limit
  if argv.length < 2 then ⟨.exception (TRI_V8_EXCEPTION_USAGE signature), []⟩
  else if ! (argv.getD 1 .undefined).IsObject then
    ⟨.exception (TRI_V8_TYPE_ERROR
      (if type = QUERY_EXAMPLE then "<example> must be an object"
        else "<conditions> must be an object")), []⟩
  else if ! env.col then ⟨.exception (TRI_V8_EXCEPTION_INTERNAL "cannot extract collection"), []⟩
  else match env.sharding with
  | some e => ⟨.exception e, []⟩
  | none =>
  if env.trxBegin ≠ TRI_ERROR_NO_ERROR then ⟨.exception (TRI_V8_EXCEPTION env.trxBegin), []⟩
  else
  -- extract skip and limit
  let (skip, limit) := ExtractSkipAndLimit env argv 2
  -- extract the index
  match env.TRI_LookupIndexByHandle (argv.getD 0 .undefined) with
  | .error err => ⟨.exception (ThrowException (some err)), []⟩
  | .ok idx =>
  if idx._type ≠ .TRI_IDX_TYPE_SKIPLIST_INDEX then
    ⟨.exception (TRI_V8_EXCEPTION TRI_ERROR_ARANGO_NO_INDEX), []⟩
  else
  let values := argv.getD 1 .undefined
  let skiplistOperator :=
    if type = QUERY_EXAMPLE then SetupExampleSkiplist env.TRI_ObjectToJson idx values
    else SetupConditionsSkiplist env.TRI_ObjectToJson idx values
  match skiplistOperator with
  | none => ⟨.exception (TRI_V8_EXCEPTION TRI_ERROR_BAD_PARAMETER), []⟩
  | some skiplistOperator =>
  let calls := [IndexCall.TRI_LookupSkiplistIndex idx skiplistOperator]
  match env.TRI_LookupSkiplistIndex idx skiplistOperator with
  | .error res =>
    if res = TRI_RESULT_ELEMENT_NOT_FOUND then ⟨.ok EmptyResult, calls⟩
    else ⟨.exception (TRI_V8_EXCEPTION TRI_ERROR_ARANGO_NO_INDEX), calls⟩
  | .ok skiplistIterator =>
  if ! env.orderBarrier then ⟨.exception (TRI_V8_EXCEPTION TRI_ERROR_OUT_OF_MEMORY), calls⟩
  else
  ⟨windowOutcome (windowLoop env.WRAP_SHAPED_JSON skip limit skiplistIterator windowInit),
    calls⟩

/-- Source: `ExecuteBitarrayQuery` (v8-query.cpp 1177-1357). -/
def ExecuteBitarrayQuery (env : Env) (argv : List JSVal) (signature : String)
    (type : query_t) : Run :=
  -- Check the parameters, expecting index, example, skip, and limit
  if argv.length < 2 then ⟨.exception (TRI_V8_EXCEPTION_USAGE signature), []⟩
  else if ! (argv.getD 1 .undefined).IsObject then
    ⟨.exception (TRI_V8_EXCEPTION_PARAMETER
      (if type = QUERY_EXAMPLE then "<example> must be an object"
        else "<conditions> must be an object")), []⟩
  else
  -- extract skip and limit
  let (skip, limit) := ExtractSkipAndLimit env argv 2
  if ! env.col then ⟨.exception (TRI_V8_EXCEPTION_INTERNAL "cannot extract collection"), []⟩
  else match env.sharding with
  | some e => ⟨.exception e, []⟩
  | none =>
  if env.trxBegin ≠ TRI_ERROR_NO_ERROR then ⟨.exception (TRI_V8_EXCEPTION env.trxBegin), []⟩
  else
  -- extract the index
  match env.TRI_LookupIndexByHandle (argv.getD 0 .undefined) with
  | .error err => ⟨.exception (ThrowException (some err)), []⟩
  | .ok idx =>
  if idx._type ≠ .TRI_IDX_TYPE_BITARRAY_INDEX then
    ⟨.exception (TRI_V8_EXCEPTION TRI_ERROR_ARANGO_NO_INDEX), []⟩
  else if ! env.orderBarrier then ⟨.exception (TRI_V8_EXCEPTION TRI_ERROR_OUT_OF_MEMORY), []⟩
  else
  let values := argv.getD 1 .undefined
  let indexOperator :=
    if type = QUERY_EXAMPLE then SetupExampleBitarray env.TRI_ObjectToJson idx values
    else SetupConditionsBitarray env.TRI_ObjectToJson idx values
  match indexOperator with
  | none => ⟨.exception (TRI_V8_EXCEPTION TRI_ERROR_BAD_PARAMETER), []⟩
  | some indexOperator =>
  -- attempt to locate the documents
  let calls := [IndexCall.TRI_LookupBitarrayIndex idx indexOperator]
  match env.TRI_LookupBitarrayIndex idx indexOperator with
  | some indexIterator =>
    ⟨windowOutcome (windowLoop env.WRAP_SHAPED_JSON skip limit indexIterator windowInit),
      calls⟩
  | none =>
    -- index iterator returned with a NULL value: return an empty list
    ⟨windowOutcome windowInit, calls⟩

/-! ## By-example queries -/

/-- The local variables of the copy loop of `JS_ByExampleQuery` and
`ByExampleHashIndexQuery`; `fault` records a read outside the match list. -/
structure SliceState where
  documents : List JSVal
  count : Nat
  error : Bool
  fault : Bool

/-- The loop `for (j = s; j < e; ++j)` of `JS_ByExampleQuery` (v8-query.cpp 1905-1917)
and of `ByExampleHashIndexQuery` (v8-query.cpp 2018-2028), run on the positions
`j, j + 1, ...` that are still to be visited; `count` is incremented once for each
document stored, which cannot leave the range of `size_t`. -/
def copySlice (WRAP_SHAPED_JSON : TRI_doc_mptr_t → Option JSVal)
    (filtered : List TRI_doc_mptr_t) : List Nat → SliceState → SliceState
  | [], st => st
  | j :: rest, st =>
    match filtered.get? j with
    | none => { st with fault := true }
    | some mptr =>
      match WRAP_SHAPED_JSON mptr with
      | none => { st with error := true }
      | some doc =>
        copySlice WRAP_SHAPED_JSON filtered rest
          { st with documents := st.documents ++ [doc], count := st.count + 1 }

/-- The conversion of the match list into the result object, common to
`JS_ByExampleQuery` (v8-query.cpp 1893-1931) and `ByExampleHashIndexQuery`
(v8-query.cpp 2006-2042). -/
def convertResult (env : Env) (filtered : List TRI_doc_mptr_t) (skip : Int) (limit : Nat) :
    Outcome :=
  let total := filtered.length
  let st : SliceState := { documents := [], count := 0, error := false, fault := false }
  let st :=
    if 0 < total then
      let (s, e) := CalculateSkipLimitSlice env.TRI_QRY_NO_LIMIT total skip limit
      if s < e then copySlice env.WRAP_SHAPED_JSON filtered (List.range' s (e - s)) st
      else st
    else st
  if st.fault then .fault
  else if st.error then .exception TRI_V8_EXCEPTION_MEMORY
  else .ok { documents := st.documents, total := (total : Int), count := st.count }

/-- The loop over the own properties in `SetupExampleObject` (v8-query.cpp 233-267). An
error is the result code together with the error object stored in `err`, if any. -/
def exampleObjectLoop (env : Env) (example_ : JSVal) :
    List String → List Nat → List TRI_shaped_json_t →
      Except (TRI_errno × Option ErrorObject) (List Nat × List TRI_shaped_json_t)
  | [], pids, values => .ok (pids, values)
  | key :: rest, pids, values =>
    match env.TRI_Utf8ValueNFC key with
    | some keyStr =>
      let pid := env.lookupAttributePathByName keyStr
      if pid = 0 then
        -- no attribute path found. this means the result will be empty
        .error (TRI_RESULT_ELEMENT_NOT_FOUND, none)
      else
        match env.TRI_ShapedJsonV8Object ((example_.getOwn key).getD .undefined) with
        | none => .error (TRI_RESULT_ELEMENT_NOT_FOUND, none)
        | some value => exampleObjectLoop env example_ rest (pids ++ [pid]) (values ++ [value])
    | none =>
      .error (TRI_ERROR_BAD_PARAMETER,
        some ⟨TRI_ERROR_BAD_PARAMETER, "cannot convert attribute path to UTF8"⟩)

/-- Source: `SetupExampleObject` (v8-query.cpp 200-270). -/
def SetupExampleObject (env : Env) (example_ : JSVal) :
    Except (TRI_errno × Option ErrorObject) (List Nat × List TRI_shaped_json_t) :=
  exampleObjectLoop env example_ example_.GetOwnPropertyNames [] []

/-- Source: `JS_ByExampleQuery` (v8-query.cpp 1811-1932). -/
def JS_ByExampleQuery (env : Env) (argv : List JSVal) : Run :=
  -- expecting example, skip, limit
  if argv.length < 1 then
    ⟨.exception (TRI_V8_EXCEPTION_USAGE "BY_EXAMPLE(<example>, <skip>, <limit>)"), []⟩
  else if ! (argv.getD 0 .undefined).IsObject then
    ⟨.exception (TRI_V8_TYPE_ERROR "<example> must be an object"), []⟩
  else if ! env.col then
    ⟨.exception (TRI_V8_EXCEPTION_INTERNAL "cannot extract collection"), []⟩
  else match env.sharding with
  | some e => ⟨.exception e, []⟩
  | none =>
  if env.trxBegin ≠ TRI_ERROR_NO_ERROR then ⟨.exception (TRI_V8_EXCEPTION env.trxBegin), []⟩
  else
  let example_ := argv.getD 0 .undefined
  -- extract skip and limit
  let (skip, limit) := ExtractSkipAndLimit env argv 1
  if ! env.orderBarrier then ⟨.exception (TRI_V8_EXCEPTION TRI_ERROR_OUT_OF_MEMORY), []⟩
  else
  match SetupExampleObject env example_ with
  | .error (res, err) =>
    if res = TRI_RESULT_ELEMENT_NOT_FOUND then ⟨.ok EmptyResult, []⟩
    else ⟨.exception (ThrowException err), []⟩
  | .ok (pids, values) =>
  -- find documents by example
  let filtered := env.TRI_SelectByExample pids values
  ⟨convertResult env filtered skip limit, [IndexCall.TRI_SelectByExample pids values]⟩

/-- The loop over the attribute paths in `SetupSearchValue` (v8-query.cpp 945-983). -/
def searchValueLoop (env : Env) (example_ : JSVal) :
    List Nat → List TRI_shaped_json_t →
      Except (TRI_errno × Option ErrorObject) (List TRI_shaped_json_t)
  | [], values => .ok values
  | pid :: rest, values =>
    match env.TRI_AttributeNameShapePid pid with
    | none => .error (TRI_ERROR_BAD_PARAMETER, some ⟨TRI_ERROR_INTERNAL, "shaper failed"⟩)
    | some name =>
      let res :=
        match example_.getOwn name with
        | some val => env.TRI_FillShapedJsonV8Object val
        | none => env.TRI_FillShapedJsonV8Object .null
      match res with
      | .error res =>
        if res ≠ TRI_RESULT_ELEMENT_NOT_FOUND then
          .error (res, some ⟨res, "cannot convert value to JSON"⟩)
        else .error (res, none)
      | .ok value => searchValueLoop env example_ rest (values ++ [value])

/-- Source: `SetupSearchValue` (v8-query.cpp 928-986). -/
def SetupSearchValue (env : Env) (paths : List Nat) (example_ : JSVal) :
    Except (TRI_errno × Option ErrorObject) (List TRI_shaped_json_t) :=
  searchValueLoop env example_ paths []

/-- Source: `ByExampleHashIndexQuery` (v8-query.cpp 1940-2043). -/
def ByExampleHashIndexQuery (env : Env) (argv : List JSVal) : Run :=
  -- expecting index, example, skip, and limit
  if argv.length < 2 then
    ⟨.exception (TRI_V8_EXCEPTION_USAGE "EXAMPLE_HASH(<index>, <example>, <skip>, <limit>)"),
      []⟩
  else if ! (argv.getD 1 .undefined).IsObject then
    ⟨.exception (TRI_V8_TYPE_ERROR "<example> must be an object"), []⟩
  else
  let example_ := argv.getD 1 .undefined
  if ! env.orderBarrier then ⟨.exception TRI_V8_EXCEPTION_MEMORY, []⟩
  else
  -- extract skip and limit
  let (skip, limit) := ExtractSkipAndLimit env argv 2
  -- extract the index
  match env.TRI_LookupIndexByHandle (argv.getD 0 .undefined) with
  | .error err => ⟨.exception (ThrowException (some err)), []⟩
  | .ok idx =>
  if idx._type ≠ .TRI_IDX_TYPE_HASH_INDEX then
    ⟨.exception (TRI_V8_EXCEPTION TRI_ERROR_ARANGO_NO_INDEX), []⟩
  else
  -- convert the example (index is locked by lockRead)
  match SetupSearchValue env (env.hashPaths idx) example_ with
  | .error (res, err) =>
    if res = TRI_RESULT_ELEMENT_NOT_FOUND then ⟨.ok EmptyResult, []⟩
    else ⟨.exception (ThrowException err), []⟩
  | .ok searchValue =>
  -- find the matches
  let list := env.TRI_LookupHashIndex idx searchValue
  ⟨convertResult env list skip limit, [IndexCall.TRI_LookupHashIndex idx searchValue]⟩


/-! ## A concrete environment

An instance of the collaborators, used to run the adapters on concrete inputs. -/

mutual
/-- A conversion of V8 values to JSON: structural, `undefined` has no JSON value. -/
def sampleObjectToJson : JSVal → Option TRI_json_t
  | .undefined => none
  | .null => some .null
  | .bool b => some (.boolean b)
  | .num n => some (.number n)
  | .str s => some (.string s)
  | .array elems => (sampleListToJson elems).map .list
  | .object props => (samplePropsToJson props).map .array
/-- The conversion of the elements of an array. -/
def sampleListToJson : List JSVal → Option (List TRI_json_t)
  | [] => some []
  | v :: rest =>
    match sampleObjectToJson v, sampleListToJson rest with
    | some j, some js => some (j :: js)
    | _, _ => none
/-- The conversion of the properties of an object. -/
def samplePropsToJson : List (String × JSVal) → Option (List (String × TRI_json_t))
  | [] => some []
  | (k, v) :: rest =>
    match sampleObjectToJson v, samplePropsToJson rest with
    | some j, some js => some ((k, j) :: js)
    | _, _ => none
end

/-- A conversion of V8 values to JSON that always succeeds: as `sampleObjectToJson`, with
arrays and objects converted to the empty list and the empty object. -/
def totalObjectToJson : JSVal → Option TRI_json_t
  | .undefined => some .null
  | .null => some .null
  | .bool b => some (.boolean b)
  | .num n => some (.number n)
  | .str s => some (.string s)
  | .array _ => some (.list [])
  | .object _ => some (.array [])

/-- The index handles known to `sampleEnv`. -/
def sampleIndexes : JSVal → Except ErrorObject TRI_index_t
  | .str "skiplist" => .ok ⟨.TRI_IDX_TYPE_SKIPLIST_INDEX, ["a", "b", "c"]⟩
  | .str "bitarray" => .ok ⟨.TRI_IDX_TYPE_BITARRAY_INDEX, ["a", "b"]⟩
  | .str "hash" => .ok ⟨.TRI_IDX_TYPE_HASH_INDEX, ["a"]⟩
  | _ => .error ⟨.other 1212, "index not found"⟩

/-- Ten documents, numbered 0 to 9. -/
def tenDocuments : List TRI_doc_mptr_t := [0, 1, 2, 3, 4, 5, 6, 7, 8, 9]

/-- An environment in which every lookup yields the ten documents `tenDocuments`, in that
order, and document number `d` is wrapped as the V8 number `d`. -/
def sampleEnv : Env where
  TRI_QRY_NO_SKIP := 0
  TRI_QRY_NO_LIMIT := 4294967295
  TRI_ObjectToJson := sampleObjectToJson
  skipOfObject := fun v => match v with
    | .num n => wrapInt64 n
    | _ => 0
  limitOfObject := fun v => match v with
    | .num n => toSizeT n
    | _ => 0
  col := true
  sharding := none
  trxBegin := .TRI_ERROR_NO_ERROR
  TRI_LookupIndexByHandle := sampleIndexes
  orderBarrier := true
  TRI_LookupSkiplistIndex := fun _ _ => .ok tenDocuments
  TRI_LookupBitarrayIndex := fun _ _ => some tenDocuments
  WRAP_SHAPED_JSON := fun d => some (.num d)
  TRI_Utf8ValueNFC := fun s => some s
  lookupAttributePathByName := fun s => s.length
  TRI_ShapedJsonV8Object := fun _ => some ⟨1, []⟩
  TRI_SelectByExample := fun _ _ => tenDocuments
  hashPaths := fun _ => [1]
  TRI_AttributeNameShapePid := fun _ => some "a"
  TRI_FillShapedJsonV8Object := fun _ => .ok ⟨1, []⟩
  TRI_LookupHashIndex := fun _ _ => tenDocuments

/-! ## Statements of the windowing contract -/

/-- The result `r` is the window `[s, e)` of the match list `filtered`, with
`(s, e) = CalculateSkipLimitSlice (N, skip, limit)`: `total` is the number `N` of matches,
`documents` are the wrapped matches at the positions `s .. e-1` in match order, and `count`
is the number of documents returned, `e - s` when `s < e` and 0 otherwise. -/
def IsWindowOf (env : Env) (filtered : List TRI_doc_mptr_t) (skip : Int) (limit : Nat)
    (r : QueryResult) : Prop :=
  let s := (CalculateSkipLimitSlice env.TRI_QRY_NO_LIMIT filtered.length skip limit).1
  let e := (CalculateSkipLimitSlice env.TRI_QRY_NO_LIMIT filtered.length skip limit).2
  r.total = (filtered.length : Int) ∧
  r.documents.map some = ((filtered.drop s).take (e - s)).map env.WRAP_SHAPED_JSON ∧
  r.count = r.documents.length ∧
  r.count = (if s < e then e - s else 0) ∧
  (r.count : Int) ≤ r.total


/-! ## Shapes of skiplist operators -/

/-- Whether an operator tag is one of the range comparisons `Lt`, `Le`, `Gt`, `Ge`. -/
def isRangeType : TRI_index_operator_type_e → Bool
  | TRI_LT_INDEX_OPERATOR => true
  | TRI_LE_INDEX_OPERATOR => true
  | TRI_GT_INDEX_OPERATOR => true
  | TRI_GE_INDEX_OPERATOR => true
  | _ => false

/-- Whether an operator tag is a comparison (`Eq`, `Ne`, `Lt`, `Le`, `Gt`, `Ge`). -/
def isRelationType : TRI_index_operator_type_e → Bool
  | TRI_AND_INDEX_OPERATOR => false
  | TRI_NOT_INDEX_OPERATOR => false
  | TRI_OR_INDEX_OPERATOR => false
  | _ => true

/-- The `Eq` leaf over the equality values `eqs`. -/
def eqLeaf (eqs : List TRI_json_t) : TRI_index_operator_t :=
  .mk TRI_EQ_INDEX_OPERATOR none none (some (.list eqs)) eqs.length

/-- The range leaf with tag `r.1` that begins with the equality values `eqs` and carries
its bound `r.2` in the last position. -/
def rangeLeaf (eqs : List TRI_json_t) (r : TRI_index_operator_type_e × TRI_json_t) :
    TRI_index_operator_t :=
  .mk r.1 none none (some (.list (eqs ++ [r.2]))) (eqs.length + 1)

/-- The left-nested `And` chain `(((first AND r1) AND r2) ...)`. -/
def andChain (first : TRI_index_operator_t) (rest : List TRI_index_operator_t) :
    TRI_index_operator_t :=
  rest.foldl (fun acc r => .mk TRI_AND_INDEX_OPERATOR (some acc) (some r) none 2) first

/-- The operator made of the `Eq` leaf over `eqs`, present exactly when `eqs` is not
empty, followed by the range leaves for `r0 :: rs`, chained by `And`. -/
def prefixRangeOperator (eqs : List TRI_json_t)
    (r0 : TRI_index_operator_type_e × TRI_json_t)
    (rs : List (TRI_index_operator_type_e × TRI_json_t)) : TRI_index_operator_t :=
  match eqs with
  | [] => andChain (rangeLeaf eqs r0) (rs.map (rangeLeaf eqs))
  | _ :: _ => andChain (eqLeaf eqs) ((r0 :: rs).map (rangeLeaf eqs))

/-- The invariant of the loops of `SetupConditionsSkiplist`: as long as no range
condition was accepted, `numEq` counts the equality values collected in `parameters`
(at most `a` of them) and no operator exists; afterwards `lastNonEq` is the number of
the field with the range conditions (at most `b`), fewer than `lastNonEq` equality
values were collected, none is pending, and `lastOperator` is the chain built from
them. -/
def SkiplistInv (a b : Nat) (st : SkiplistState) : Prop :=
  (st.lastNonEq = 0 ∧ st.numEq = st.parameters.length ∧ st.lastOperator = none ∧
    st.parameters.length ≤ a) ∨
  (0 < st.lastNonEq ∧ st.lastNonEq ≤ b ∧ st.numEq = 0 ∧
    st.parameters.length < st.lastNonEq ∧
    ∃ r0 rs, (∀ r ∈ r0 :: rs, isRangeType r.1 = true) ∧
      st.lastOperator = some (prefixRangeOperator st.parameters r0 rs))


/-- The parameter lists of the comparison nodes (`Eq`, `Ne`, `Lt`, `Le`, `Gt`, `Ge`) of an
operator tree, from left to right. -/
def relationNodes : TRI_index_operator_t → List (Option TRI_json_t)
  | .mk type left right parameters _ =>
    (if isRelationType type then [parameters] else []) ++
    (match left with
      | some l => relationNodes l
      | none => []) ++
    (match right with
      | some r => relationNodes r
      | none => [])

/-- Every comparison node of `op` carries a list of values, and the length of the list
satisfies `P`. -/
def LeafLengths (P : Nat → Prop) (op : TRI_index_operator_t) : Prop :=
  ∀ p ∈ relationNodes op, ∃ xs : List TRI_json_t, p = some (.list xs) ∧ P xs.length


/-! ## Statements about bitarray conditions -/

/-- The recognised keys of a bitarray condition with the operator each one stands for,
in the order in which they are looked for. -/
def recognisedKeys : List (String × TRI_index_operator_type_e) :=
  [("&", TRI_AND_INDEX_OPERATOR), ("&&", TRI_AND_INDEX_OPERATOR),
    ("and", TRI_AND_INDEX_OPERATOR),
    ("|", TRI_OR_INDEX_OPERATOR), ("||", TRI_OR_INDEX_OPERATOR), ("or", TRI_OR_INDEX_OPERATOR),
    ("!", TRI_NOT_INDEX_OPERATOR), ("not", TRI_NOT_INDEX_OPERATOR),
    ("==", TRI_EQ_INDEX_OPERATOR), ("=", TRI_EQ_INDEX_OPERATOR), ("eq", TRI_EQ_INDEX_OPERATOR),
    ("!=", TRI_NE_INDEX_OPERATOR), ("<>", TRI_NE_INDEX_OPERATOR), ("ne", TRI_NE_INDEX_OPERATOR),
    ("<=", TRI_LE_INDEX_OPERATOR), ("le", TRI_LE_INDEX_OPERATOR),
    ("<", TRI_LT_INDEX_OPERATOR), ("lt", TRI_LT_INDEX_OPERATOR),
    (">=", TRI_GE_INDEX_OPERATOR), ("ge", TRI_GE_INDEX_OPERATOR),
    (">", TRI_GT_INDEX_OPERATOR), ("gt", TRI_GT_INDEX_OPERATOR)]

/-- The operator and the value of the first recognised key that the condition has. -/
def firstRecognised (condition : JSVal) : Option (TRI_index_operator_type_e × JSVal) :=
  recognisedKeys.findSome? (fun p => (condition.getOwn p.1).map (fun value => (p.2, value)))

/-- The condition has the recognised key `key`, with value `value`, and no other
recognised key. -/
def OnlyRecognisedKey (condition : JSVal) (key : String) (value : JSVal) : Prop :=
  condition.getOwn key = some value ∧
  ∀ other ∈ recognisedKeys.map Prod.fst, other ≠ key → condition.getOwn other = none

/-- Two conditions that differ only in the choice among synonymous keys, at any depth:
each one has exactly one recognised key, the two keys stand for the same operator, and
the operands are synonymous in turn (the attribute values of a comparison are equal). -/
inductive Synonymous : JSVal → JSVal → Prop where
  | refl (c : JSVal) : Synonymous c c
  | connective {c c' : JSVal} {key key' : String} {type : TRI_index_operator_type_e}
      {l r l' r' : JSVal} :
      (key, type) ∈ recognisedKeys → (key', type) ∈ recognisedKeys →
      type = TRI_AND_INDEX_OPERATOR ∨ type = TRI_OR_INDEX_OPERATOR →
      OnlyRecognisedKey c key (.array [l, r]) → OnlyRecognisedKey c' key' (.array [l', r']) →
      Synonymous l l' → Synonymous r r' → Synonymous c c'
  | negation {c c' : JSVal} {key key' : String} {v v' : JSVal} :
      (key, TRI_NOT_INDEX_OPERATOR) ∈ recognisedKeys →
      (key', TRI_NOT_INDEX_OPERATOR) ∈ recognisedKeys →
      OnlyRecognisedKey c key v → OnlyRecognisedKey c' key' v' →
      Synonymous v v' → Synonymous c c'
  | sameValue {c c' : JSVal} {key key' : String} {type : TRI_index_operator_type_e}
      {v : JSVal} :
      (key, type) ∈ recognisedKeys → (key', type) ∈ recognisedKeys →
      OnlyRecognisedKey c key v → OnlyRecognisedKey c' key' v → Synonymous c c'

/-- In the operator tree `And` and `Or` nodes have exactly two children, `Not` nodes
exactly one child (the left one) and comparison nodes none. -/
def arityOk : TRI_index_operator_t → Bool
  | .mk type left right _ _ =>
    (match type with
      | TRI_AND_INDEX_OPERATOR => left.isSome && right.isSome
      | TRI_OR_INDEX_OPERATOR => left.isSome && right.isSome
      | TRI_NOT_INDEX_OPERATOR => left.isSome && right.isNone
      | _ => left.isNone && right.isNone) &&
    (match left with
      | some l => arityOk l
      | none => true) &&
    (match right with
      | some r => arityOk r
      | none => true)

/-- The tag of the root of an operator tree. -/
def TRI_index_operator_t.type : TRI_index_operator_t → TRI_index_operator_type_e
  | .mk type _ _ _ _ => type

/-- A well-formed bitarray condition: it has a recognised key; for `And` and `Or` the
value is an array of exactly two objects that are both well-formed; for `Not` the value is
a well-formed object; for a comparison the value is an object. -/
inductive WellFormed : JSVal → Prop where
  | connective {c l r : JSVal} {type : TRI_index_operator_type_e} :
      firstRecognised c = some (type, .array [l, r]) →
      type = TRI_AND_INDEX_OPERATOR ∨ type = TRI_OR_INDEX_OPERATOR →
      l.IsObject = true → r.IsObject = true → WellFormed l → WellFormed r → WellFormed c
  | negation {c v : JSVal} :
      firstRecognised c = some (TRI_NOT_INDEX_OPERATOR, v) →
      v.IsObject = true → WellFormed v → WellFormed c
  | comparison {c v : JSVal} {type : TRI_index_operator_type_e} :
      firstRecognised c = some (type, v) → isRelationType type = true →
      v.IsObject = true → WellFormed c

/-- The environment `sampleEnv` with a conversion to JSON that always succeeds. -/
def totalEnv : Env :=
  { sampleEnv with TRI_ObjectToJson := totalObjectToJson }


/-! ## Positional alignment of skiplist leaves -/

/-- The JSON value `json` is the conversion of a comparison value that the conditions
object gives for the field at position `k` (0-based) of the field list. -/
def GivenFor (TRI_ObjectToJson : JSVal → Option TRI_json_t) (conditions : JSVal)
    (fields : List String) (k : Nat) (json : TRI_json_t) : Prop :=
  ∃ (key : String) (values : List JSVal) (op : String) (value : JSVal),
    fields.get? k = some key ∧ conditions.getOwn key = some (.array values) ∧
    JSVal.array [.str op, value] ∈ values ∧ TRI_ObjectToJson value = some json

/-- Every value of the list `xs` is given for the field at its own position. -/
def AlignedValues (TRI_ObjectToJson : JSVal → Option TRI_json_t) (conditions : JSVal)
    (fields : List String) (xs : List TRI_json_t) : Prop :=
  ∀ k json, xs.get? k = some json → GivenFor TRI_ObjectToJson conditions fields k json

/-- Every comparison leaf of `op` carries a list of values that are matched positionally
against the field list. -/
def AlignedLeaves (TRI_ObjectToJson : JSVal → Option TRI_json_t) (conditions : JSVal)
    (fields : List String) (op : TRI_index_operator_t) : Prop :=
  ∀ p ∈ relationNodes op, ∃ xs : List TRI_json_t,
    p = some (.list xs) ∧ AlignedValues TRI_ObjectToJson conditions fields xs

/-- The state of `SetupConditionsSkiplist` after `k` fields that each gave one equality
value. -/
def StartPhase (TRI_ObjectToJson : JSVal → Option TRI_json_t) (conditions : JSVal)
    (fields : List String) (k : Nat) (st : SkiplistState) : Prop :=
  st.lastNonEq = 0 ∧ st.numEq = st.parameters.length ∧ st.lastOperator = none ∧
  st.parameters.length = k ∧ AlignedValues TRI_ObjectToJson conditions fields st.parameters

/-- The state of `SetupConditionsSkiplist` once field number `m` (1-based) gave range
conditions, after `m - 1` fields that each gave one equality value. -/
def RangePhase (TRI_ObjectToJson : JSVal → Option TRI_json_t) (conditions : JSVal)
    (fields : List String) (m : Nat) (st : SkiplistState) : Prop :=
  st.lastNonEq = m ∧ st.parameters.length + 1 = m ∧ st.numEq = 0 ∧
  AlignedValues TRI_ObjectToJson conditions fields st.parameters ∧
  ∃ r0 rs, (∀ r ∈ r0 :: rs, isRangeType r.1 = true ∧
      GivenFor TRI_ObjectToJson conditions fields st.parameters.length r.2) ∧
    st.lastOperator = some (prefixRangeOperator st.parameters r0 rs)

/-! ## Malformed skiplist conditions -/

/-- The operator symbols that `SetupConditionsSkiplist` accepts in a condition. -/
def skiplistOperators : List String := ["==", "<", "<=", ">", ">="]

/-- A single condition is well formed: a two-element array whose first element is a
string that names one of the five operators. -/
def ConditionWellFormed (c : JSVal) : Prop :=
  ∃ op value, c = .array [.str op, value] ∧ op ∈ skiplistOperators

/-- The value listed for an index field is malformed: it is not an array, or one of its
conditions is not well formed. -/
def FieldValueMalformed (v : JSVal) : Prop :=
  (∀ values, v ≠ .array values) ∨
    ∃ values c, v = .array values ∧ c ∈ values ∧ ¬ ConditionWellFormed c

/-- A condition with the operator `==`. -/
def IsEqCondition (c : JSVal) : Prop :=
  ∃ value, c = .array [.str "==", value]


/-! ## Example objects -/

/-- The entry that an example object gives for the index field `key`: the JSON value of
the example's attribute `key`, and `TRI_JSON_UNUSED` when the example has no such
attribute. `none` when the attribute has no JSON value. -/
def exampleEntry (TRI_ObjectToJson : JSVal → Option TRI_json_t) (example_ : JSVal)
    (key : String) : Option TRI_json_t :=
  match example_.getOwn key with
  | some value => TRI_ObjectToJson value
  | none => some .unused

/-- The leading index fields that the example provides: the fields that come before the
first index field that is not an attribute of the example. -/
def providedPrefix (example_ : JSVal) (fields : List String) : List String :=
  fields.takeWhile (fun key => (example_.getOwn key).isSome)


/-! ## Fulltext and geo queries

`FulltextQuery`, `StoreGeoResult`, `NearQuery` and `WithinQuery`. The type `double` of the
coordinates and distances is a parameter, together with its comparison `<`; the parsing
and execution of a fulltext query, the geo index and `std::sort` are defined outside the
sources and are the fields of `FulltextEnv` and `GeoEnv`. The arrays `documents` and
`distances` are created empty by the callers, and `documents->Set (i, doc)` with
`i = 0, 1, ...` appends to them. -/

/-- How a call of `FulltextQuery`, `NearQuery` or `WithinQuery` ends; `ρ` is the type of
the result object. -/
inductive Completion (ρ : Type) where
  /-- The result object is returned. -/
  | ok (result : ρ)
  /-- An exception is raised. -/
  | exception (e : V8Exception)
  /-- An element outside the bounds of an array is read (undefined behaviour). -/
  | fault

/-- What a call does: how it ends, and the lookups (of type `κ`) executed on the way. -/
structure Trace (ρ κ : Type) where
  outcome : Completion ρ
  calls : List κ

/-- The result object `{ documents }` of `FulltextQuery`. -/
structure FulltextResult where
  documents : List JSVal

/-- A call made to a fulltext index: the index and the query string that the query object
was parsed from. -/
inductive FulltextCall where
  | TRI_QueryFulltextIndex (idx : TRI_index_t) (queryString : String)

/-- The collaborators of `FulltextQuery` that are not part of the sources. -/
structure FulltextEnv where
  /-- `TRI_ObjectToString`. -/
  TRI_ObjectToString : JSVal → String
  /-- `TRI_ParseQueryFulltextIndex (query, queryString, &isSubstringQuery)`: the result
  code and the value left in `isSubstringQuery`. -/
  TRI_ParseQueryFulltextIndex : String → TRI_errno × Bool
  /-- The member `_indexSubstrings` of the fulltext index. -/
  _indexSubstrings : TRI_index_t → Bool
  /-- `TRI_QueryFulltextIndex` on the query parsed from the query string; `none` is the
  null pointer, otherwise the documents `_documents[0 .. _numDocuments - 1]`. -/
  TRI_QueryFulltextIndex : TRI_index_t → String → Option (List TRI_doc_mptr_t)

/-- The loop over the documents of a fulltext result (v8-query.cpp 2503-2512): the
documents stored and the value of `error`. -/
def fulltextLoop (WRAP_SHAPED_JSON : TRI_doc_mptr_t → Option JSVal) :
    List TRI_doc_mptr_t → List JSVal → List JSVal × Bool
  | [], documents => (documents, false)
  | mptr :: rest, documents =>
    match WRAP_SHAPED_JSON mptr with
    | none => (documents, true)
    | some doc => fulltextLoop WRAP_SHAPED_JSON rest (documents ++ [doc])

/-- Source: `FulltextQuery` (v8-query.cpp 2438-2521). The allocation of the query object
(`TRI_CreateQueryFulltextIndex`) does not fail. -/
def FulltextQuery (env : Env) (ft : FulltextEnv) (argv : List JSVal) :
    Trace FulltextResult FulltextCall :=
  -- expect: FULLTEXT(<index-handle>, <query>)
  if argv.length ≠ 2 then
    ⟨.exception (TRI_V8_EXCEPTION_USAGE "FULLTEXT(<index-handle>, <query>)"), []⟩
  else
  -- extract the index
  match env.TRI_LookupIndexByHandle (argv.getD 0 .undefined) with
  | .error err => ⟨.exception (ThrowException (some err)), []⟩
  | .ok idx =>
  if idx._type ≠ .TRI_IDX_TYPE_FULLTEXT_INDEX then
    ⟨.exception (TRI_V8_EXCEPTION TRI_ERROR_ARANGO_NO_INDEX), []⟩
  else
  let queryString := ft.TRI_ObjectToString (argv.getD 1 .undefined)
  let res := (ft.TRI_ParseQueryFulltextIndex queryString).1
  let isSubstringQuery := (ft.TRI_ParseQueryFulltextIndex queryString).2
  if res ≠ TRI_ERROR_NO_ERROR then ⟨.exception (TRI_V8_EXCEPTION res), []⟩
  else if isSubstringQuery && ! ft._indexSubstrings idx then
    ⟨.exception (TRI_V8_EXCEPTION TRI_ERROR_NOT_IMPLEMENTED), []⟩
  else
  let calls := [FulltextCall.TRI_QueryFulltextIndex idx queryString]
  match ft.TRI_QueryFulltextIndex idx queryString with
  | none =>
    ⟨.exception (TRI_V8_EXCEPTION_INTERNAL "internal error in fulltext index query"), calls⟩
  | some queryResult =>
  if ! env.orderBarrier then ⟨.exception (TRI_V8_EXCEPTION TRI_ERROR_OUT_OF_MEMORY), calls⟩
  else
  -- setup result
  let loop := fulltextLoop env.WRAP_SHAPED_JSON queryResult []
  if loop.2 then ⟨.exception TRI_V8_EXCEPTION_MEMORY, calls⟩
  else ⟨.ok { documents := loop.1 }, calls⟩

/-- A coordinate of a geo result (`GeoCoordinate`): the position and the payload, a
document master pointer. -/
structure GeoCoordinate (double : Type) where
  latitude : double
  longitude : double
  data : TRI_doc_mptr_t

/-- A geo result (`GeoCoordinates`): `length`, the array `coordinates` and the array
`distances`. -/
structure GeoCoordinates (double : Type) where
  length : Nat
  coordinates : List (GeoCoordinate double)
  distances : List double

/-- Source: `geo_coordinate_distance_t` (v8-query.cpp 73-77). -/
structure geo_coordinate_distance_t (double : Type) where
  _distance : double
  _data : TRI_doc_mptr_t

/-- The result object `{ documents, distances }` of `NearQuery` and `WithinQuery`. -/
structure GeoResult (double : Type) where
  documents : List JSVal
  distances : List double

/-- A call made to a geo index. -/
inductive GeoCall (double : Type) where
  | TRI_NearestGeoIndex (idx : TRI_index_t) (latitude longitude : double) (limit : Int)
  | TRI_WithinGeoIndex (idx : TRI_index_t) (latitude longitude radius : double)

/-- The collaborators of the geo queries that are not part of the sources. -/
structure GeoEnv (double : Type) where
  /-- The comparison `<` of two `double` values. -/
  lt : double → double → Bool
  /-- `TRI_ObjectToDouble`. -/
  TRI_ObjectToDouble : JSVal → double
  /-- The conversion `(TRI_voc_ssize_t) d` of a `double`. -/
  toSsize : double → Int
  /-- `TRI_NearestGeoIndex`; `none` is the null pointer. -/
  TRI_NearestGeoIndex : TRI_index_t → double → double → Int → Option (GeoCoordinates double)
  /-- `TRI_WithinGeoIndex`; `none` is the null pointer. -/
  TRI_WithinGeoIndex : TRI_index_t → double → double → double →
    Option (GeoCoordinates double)
  /-- `std::sort (first, last, comp)`, as the content of the range after the call. -/
  std_sort : (geo_coordinate_distance_t double → geo_coordinate_distance_t double → Bool) →
    List (geo_coordinate_distance_t double) → List (geo_coordinate_distance_t double)

/-- The lambda `compareSort` of `StoreGeoResult` (v8-query.cpp 1411-1413). -/
def compareSort {double : Type} (lt : double → double → Bool)
    (left right : geo_coordinate_distance_t double) : Bool :=
  lt left._distance right._distance

/-- The loop that fills the array `tmp` (v8-query.cpp 1403-1406), run for the `n` entries
that are still to be copied from the rest of `coordinates` and of `distances`; `none` is
a read behind the end of one of the two arrays. -/
def collectLoop {double : Type} :
    Nat → List (GeoCoordinate double) → List double →
      Option (List (geo_coordinate_distance_t double))
  | 0, _, _ => some []
  | n + 1, ptr :: coordinates, dtr :: distances =>
    match collectLoop n coordinates distances with
    | none => none
    | some gtr => some ({ _distance := dtr, _data := ptr.data } :: gtr)
  | _ + 1, _, _ => none

/-- The local variables of the copy loop of `StoreGeoResult`. -/
structure GeoStoreState (double : Type) where
  documents : List JSVal
  distances : List double
  error : Bool

/-- The loop that copies the documents (v8-query.cpp 1418-1428). -/
def storeLoop {double : Type} (WRAP_SHAPED_JSON : TRI_doc_mptr_t → Option JSVal) :
    List (geo_coordinate_distance_t double) → GeoStoreState double → GeoStoreState double
  | [], st => st
  | gtr :: rest, st =>
    match WRAP_SHAPED_JSON gtr._data with
    | none => { st with error := true }
    | some doc =>
      storeLoop WRAP_SHAPED_JSON rest
        { st with documents := st.documents ++ [doc],
                  distances := st.distances ++ [gtr._distance] }

/-- What `StoreGeoResult` leaves behind: the result code and the arrays `documents` and
`distances`. -/
structure GeoStore (double : Type) where
  res : TRI_errno
  documents : List JSVal
  distances : List double

/-- Source: `StoreGeoResult` (v8-query.cpp 1363-1437), called with empty arrays
`documents` and `distances`. `none` is a read outside the arrays of `cors`. The
allocation of `tmp` does not fail. -/
def StoreGeoResult {double : Type} (env : Env) (geo : GeoEnv double)
    (cors : GeoCoordinates double) : Option (GeoStore double) :=
  if ! env.orderBarrier then
    some { res := TRI_ERROR_OUT_OF_MEMORY, documents := [], distances := [] }
  else
  -- sort the result
  let n := cors.length
  if n = 0 then some { res := TRI_ERROR_NO_ERROR, documents := [], distances := [] }
  else
  match collectLoop n cors.coordinates cors.distances with
  | none => none
  | some tmp =>
  -- sort result by distance
  let tmp := geo.std_sort (compareSort geo.lt) tmp
  -- copy the documents
  let st := storeLoop env.WRAP_SHAPED_JSON tmp
    { documents := [], distances := [], error := false }
  if st.error then
    some { res := TRI_ERROR_OUT_OF_MEMORY, documents := st.documents,
           distances := st.distances }
  else
    some { res := TRI_ERROR_NO_ERROR, documents := st.documents, distances := st.distances }

/-- The end of `NearQuery` and `WithinQuery` (v8-query.cpp 2713-2721, 2836-2844): the
geo result, when there is one, is stored in the arrays of the result object. -/
def geoOutcome {double : Type} (env : Env) (geo : GeoEnv double)
    (cors : Option (GeoCoordinates double)) : Completion (GeoResult double) :=
  match cors with
  | none => .ok { documents := [], distances := [] }
  | some cors =>
    match StoreGeoResult env geo cors with
    | none => .fault
    | some store =>
      if store.res ≠ TRI_ERROR_NO_ERROR then .exception (TRI_V8_EXCEPTION store.res)
      else .ok { documents := store.documents, distances := store.distances }

/-- Source: `NearQuery` (v8-query.cpp 2672-2722). -/
def NearQuery {double : Type} (env : Env) (geo : GeoEnv double) (argv : List JSVal) :
    Trace (GeoResult double) (GeoCall double) :=
  -- expect: NEAR(<index-id>, <latitude>, <longitude>, <limit>)
  if argv.length ≠ 4 then
    ⟨.exception (TRI_V8_EXCEPTION_USAGE
      "NEAR(<index-handle>, <latitude>, <longitude>, <limit>)"), []⟩
  else
  -- extract the index
  match env.TRI_LookupIndexByHandle (argv.getD 0 .undefined) with
  | .error err => ⟨.exception (ThrowException (some err)), []⟩
  | .ok idx =>
  if idx._type ≠ .TRI_IDX_TYPE_GEO1_INDEX ∧ idx._type ≠ .TRI_IDX_TYPE_GEO2_INDEX then
    ⟨.exception (TRI_V8_EXCEPTION TRI_ERROR_ARANGO_NO_INDEX), []⟩
  else
  -- extract latitude and longitude
  let latitude := geo.TRI_ObjectToDouble (argv.getD 1 .undefined)
  let longitude := geo.TRI_ObjectToDouble (argv.getD 2 .undefined)
  -- extract the limit
  let limit := geo.toSsize (geo.TRI_ObjectToDouble (argv.getD 3 .undefined))
  ⟨geoOutcome env geo (geo.TRI_NearestGeoIndex idx latitude longitude limit),
    [GeoCall.TRI_NearestGeoIndex idx latitude longitude limit]⟩

/-- Source: `WithinQuery` (v8-query.cpp 2795-2845). -/
def WithinQuery {double : Type} (env : Env) (geo : GeoEnv double) (argv : List JSVal) :
    Trace (GeoResult double) (GeoCall double) :=
  -- expect: WITHIN(<index-handle>, <latitude>, <longitude>, <radius>)
  if argv.length ≠ 4 then
    ⟨.exception (TRI_V8_EXCEPTION_USAGE
      "WITHIN(<index-handle>, <latitude>, <longitude>, <radius>)"), []⟩
  else
  -- extract the index
  match env.TRI_LookupIndexByHandle (argv.getD 0 .undefined) with
  | .error err => ⟨.exception (ThrowException (some err)), []⟩
  | .ok idx =>
  if idx._type ≠ .TRI_IDX_TYPE_GEO1_INDEX ∧ idx._type ≠ .TRI_IDX_TYPE_GEO2_INDEX then
    ⟨.exception (TRI_V8_EXCEPTION TRI_ERROR_ARANGO_NO_INDEX), []⟩
  else
  -- extract latitude and longitude
  let latitude := geo.TRI_ObjectToDouble (argv.getD 1 .undefined)
  let longitude := geo.TRI_ObjectToDouble (argv.getD 2 .undefined)
  -- extract the radius
  let radius := geo.TRI_ObjectToDouble (argv.getD 3 .undefined)
  ⟨geoOutcome env geo (geo.TRI_WithinGeoIndex idx latitude longitude radius),
    [GeoCall.TRI_WithinGeoIndex idx latitude longitude radius]⟩

/-! ## A concrete environment for fulltext and geo queries -/

/-- The index handles known to `geoSampleEnv`. -/
def geoSampleIndexes : JSVal → Except ErrorObject TRI_index_t
  | .str "geo" => .ok ⟨.TRI_IDX_TYPE_GEO2_INDEX, ["lat", "lon"]⟩
  | .str "fulltext" => .ok ⟨.TRI_IDX_TYPE_FULLTEXT_INDEX, ["text"]⟩
  | .str "skiplist" => .ok ⟨.TRI_IDX_TYPE_SKIPLIST_INDEX, ["a", "b", "c"]⟩
  | _ => .error ⟨.other 1212, "index not found"⟩

/-- The environment `sampleEnv` with a geo index and a fulltext index. -/
def geoSampleEnv : Env :=
  { sampleEnv with TRI_LookupIndexByHandle := geoSampleIndexes }

/-- A fulltext environment: every query string parses, `substring:ab` is the one substring
query, the index has no substring support, and every query yields the documents 4 and 2. -/
def sampleFulltextEnv : FulltextEnv where
  TRI_ObjectToString := fun v => match v with
    | .str s => s
    | _ => ""
  TRI_ParseQueryFulltextIndex := fun s => (.TRI_ERROR_NO_ERROR, decide (s = "substring:ab"))
  _indexSubstrings := fun _ => false
  TRI_QueryFulltextIndex := fun _ _ => some [4, 2]

/-- Three coordinates with the payloads 7, 8, 9 at the distances 30, 10, 20. -/
def sampleCoordinates : GeoCoordinates Int :=
  { length := 3,
    coordinates := [⟨0, 0, 7⟩, ⟨1, 1, 8⟩, ⟨2, 2, 9⟩],
    distances := [30, 10, 20] }

/-- A geo environment in which a `double` is an integer, `std::sort` is an insertion
sort, and every geo lookup yields `sampleCoordinates`. -/
def sampleGeoEnv : GeoEnv Int where
  lt := fun a b => decide (a < b)
  TRI_ObjectToDouble := fun v => match v with
    | .num n => n
    | _ => 0
  toSsize := fun d => d
  TRI_NearestGeoIndex := fun _ _ _ _ => some sampleCoordinates
  TRI_WithinGeoIndex := fun _ _ _ _ => some sampleCoordinates
  std_sort := fun comp l => List.insertionSort (fun a b => comp b a = false) l


/-- The environment `geoSampleEnv` with indexes that match no document: every lookup
yields an empty list of documents. -/
def emptyEnv : Env :=
  { geoSampleEnv with
    TRI_LookupIndexByHandle := fun v => match v with
      | .str "hash" => .ok ⟨.TRI_IDX_TYPE_HASH_INDEX, ["a"]⟩
      | .str "bitarray" => .ok ⟨.TRI_IDX_TYPE_BITARRAY_INDEX, ["a", "b"]⟩
      | v => geoSampleIndexes v
    TRI_LookupSkiplistIndex := fun _ _ => .ok []
    TRI_LookupBitarrayIndex := fun _ _ => some []
    TRI_SelectByExample := fun _ _ => []
    TRI_LookupHashIndex := fun _ _ => [] }

/-- The geo environment `sampleGeoEnv` with a geo index that yields a result of length 0. -/
def emptyGeoEnv : GeoEnv Int :=
  { sampleGeoEnv with
    TRI_NearestGeoIndex := fun _ _ _ _ => some { length := 0, coordinates := [], distances := [] }
    TRI_WithinGeoIndex := fun _ _ _ _ => some { length := 0, coordinates := [], distances := [] } }


/-- The environment `sampleEnv` with a shaper that knows the attribute path `a` only, and
with a hash index and a skiplist index that report element-not-found. -/
def notFoundEnv : Env :=
  { sampleEnv with
    lookupAttributePathByName := fun s => if s = "a" then 1 else 0
    TRI_FillShapedJsonV8Object := fun _ => .error .TRI_RESULT_ELEMENT_NOT_FOUND
    TRI_LookupSkiplistIndex := fun _ _ => .error .TRI_RESULT_ELEMENT_NOT_FOUND }



/-- Whether an exception is an internal error: `TRI_V8_EXCEPTION_INTERNAL`, or an
exception made from the error code `TRI_ERROR_INTERNAL`. -/
def isInternalError : V8Exception → Bool
  | .TRI_V8_EXCEPTION_INTERNAL _ => true
  | .TRI_V8_EXCEPTION code => decide (code = .TRI_ERROR_INTERNAL)
  | .ThrowException (some err) => decide (err.code = .TRI_ERROR_INTERNAL)
  | _ => false

/-- The environment `emptyEnv` with a skiplist lookup that fails with
`TRI_ERROR_OUT_OF_MEMORY` and a bitarray lookup that returns no iterator. -/
def nullEnv : Env :=
  { emptyEnv with
    TRI_LookupSkiplistIndex := fun _ _ => .error .TRI_ERROR_OUT_OF_MEMORY
    TRI_LookupBitarrayIndex := fun _ _ => none }

/-- The fulltext environment `sampleFulltextEnv` with an index whose execution returns no
result. -/
def nullFulltextEnv : FulltextEnv :=
  { sampleFulltextEnv with TRI_QueryFulltextIndex := fun _ _ => none }



/-! ## Statements about the order and the pairing of geo results -/

/-- The comparison `lt` is a strict weak ordering on the elements of `xs`: it is
irreflexive and transitive, and so is the relation "neither is less than the other"
(written here as: `lt a c` fails when `lt a b` and `lt b c` fail). The comparison `<` of
`double` values has these properties on values that are not NaN. -/
def StrictWeakOrder {α : Type} (lt : α → α → Bool) (xs : List α) : Prop :=
  (∀ a ∈ xs, lt a a = false) ∧
  (∀ a ∈ xs, ∀ b ∈ xs, ∀ c ∈ xs, lt a b = true → lt b c = true → lt a c = true) ∧
  (∀ a ∈ xs, ∀ b ∈ xs, ∀ c ∈ xs, lt a b = false → lt b c = false → lt a c = false)

/-- The list `xs` is in ascending (non-decreasing) order: no element is less than an
element that comes before it. -/
def Ascending {α : Type} (lt : α → α → Bool) (xs : List α) : Prop :=
  xs.Pairwise (fun a b => lt b a = false)

/-- The contract of `std::sort` on the order of its result: when the comparison is a
strict weak ordering on the elements of the range, the range is in ascending order
after the call. -/
def SortsAscending {α : Type} (std_sort : (α → α → Bool) → List α → List α)
    (comp : α → α → Bool) : Prop :=
  ∀ l, StrictWeakOrder comp l → Ascending comp (std_sort comp l)

/-- The contract of `std::sort` on the content of its result: the elements of the range
are rearranged, none is lost, added or changed. -/
def Permutes {α : Type} (std_sort : (α → α → Bool) → List α → List α)
    (comp : α → α → Bool) : Prop :=
  ∀ l, (std_sort comp l).Perm l

/-- The (payload, distance) pairs of a geo result: entry `k` pairs the payload of
`coordinates[k]` with `distances[k]`, for `k < length`. -/
def geoPairs {double : Type} (cors : GeoCoordinates double) :
    List (TRI_doc_mptr_t × double) :=
  ((cors.coordinates.take cors.length).zip (cors.distances.take cors.length)).map
    (fun p => (p.1.data, p.2))




/-! ## Access types of the optimiser

The header `ahuacatl-access-optimiser.h` declares the access types and the functions of
the access optimiser; the bodies of the functions are not part of the sources. -/

/-- Source: `TRI_aql_access_e` (ahuacatl-access-optimiser.h 70-80), the enumerators in
the order of the declaration. -/
inductive TRI_aql_access_e where
  | TRI_AQL_ACCESS_IMPOSSIBLE
  | TRI_AQL_ACCESS_EXACT
  | TRI_AQL_ACCESS_LIST
  | TRI_AQL_ACCESS_RANGE_SINGLE
  | TRI_AQL_ACCESS_RANGE_DOUBLE
  | TRI_AQL_ACCESS_REFERENCE
  | TRI_AQL_ACCESS_ALL
  deriving DecidableEq, Repr

/-- The value of an enumerator: the enumerators of a C `enum` that has no initialisers
are numbered 0, 1, 2, ... in the order of the declaration. -/
def TRI_aql_access_e.value : TRI_aql_access_e → Nat
  | .TRI_AQL_ACCESS_IMPOSSIBLE => 0
  | .TRI_AQL_ACCESS_EXACT => 1
  | .TRI_AQL_ACCESS_LIST => 2
  | .TRI_AQL_ACCESS_RANGE_SINGLE => 3
  | .TRI_AQL_ACCESS_RANGE_DOUBLE => 4
  | .TRI_AQL_ACCESS_REFERENCE => 5
  | .TRI_AQL_ACCESS_ALL => 6

/-- The access kinds of the specification. -/
inductive AccessKind where
  | Impossible
  | Exact
  | List
  | RangeSingle
  | RangeDouble
  | Reference
  | FullScan
  deriving DecidableEq, Repr

/-- The ranking of the access kinds in the specification, best first. -/
def specRanking : List AccessKind :=
  [.Impossible, .Exact, .List, .RangeSingle, .RangeDouble, .Reference, .FullScan]

/-- The rank of an access kind: its position in `specRanking`. -/
def AccessKind.rank (k : AccessKind) : Nat :=
  specRanking.indexOf k

/-- The access kind that an enumerator of `TRI_aql_access_e` stands for, as its comment
in the header says (`TRI_AQL_ACCESS_ALL`: "all values must be accessed (full scan)"). -/
def TRI_aql_access_e.kind : TRI_aql_access_e → AccessKind
  | .TRI_AQL_ACCESS_IMPOSSIBLE => .Impossible
  | .TRI_AQL_ACCESS_EXACT => .Exact
  | .TRI_AQL_ACCESS_LIST => .List
  | .TRI_AQL_ACCESS_RANGE_SINGLE => .RangeSingle
  | .TRI_AQL_ACCESS_RANGE_DOUBLE => .RangeDouble
  | .TRI_AQL_ACCESS_REFERENCE => .Reference
  | .TRI_AQL_ACCESS_ALL => .FullScan

/-- Source: `TRI_aql_range_e` (ahuacatl-access-optimiser.h 86-92). -/
inductive TRI_aql_range_e where
  | TRI_AQL_RANGE_LOWER_EXCLUDED
  | TRI_AQL_RANGE_LOWER_INCLUDED
  | TRI_AQL_RANGE_UPPER_EXCLUDED
  | TRI_AQL_RANGE_UPPER_INCLUDED
  deriving DecidableEq, Repr

/-- Source: `TRI_aql_range_t` (ahuacatl-access-optimiser.h 108-112): a bound value and the
type of the bound. The bound value is a comparable scalar of type `V`. -/
structure TRI_aql_range_t (V : Type) where
  _value : V
  _type : TRI_aql_range_e

/-- Source: `TRI_aql_field_access_t` (ahuacatl-access-optimiser.h 118-148): the access
type together with the member of the union `_value` that the type selects. The name of
the field is left out: two accesses that are merged are accesses on the same field. -/
inductive TRI_aql_field_access_t (V : Type) where
  | impossible
  | exact (value : V)
  | list (values : List V)
  | rangeSingle (singleRange : TRI_aql_range_t V)
  | rangeDouble (lower upper : TRI_aql_range_t V)
  | reference (name : String) (operator : String)
  | all

/-- The member `_type` of an access. -/
def TRI_aql_field_access_t._type {V : Type} : TRI_aql_field_access_t V → TRI_aql_access_e
  | .impossible => .TRI_AQL_ACCESS_IMPOSSIBLE
  | .exact _ => .TRI_AQL_ACCESS_EXACT
  | .list _ => .TRI_AQL_ACCESS_LIST
  | .rangeSingle _ => .TRI_AQL_ACCESS_RANGE_SINGLE
  | .rangeDouble _ _ => .TRI_AQL_ACCESS_RANGE_DOUBLE
  | .reference _ _ => .TRI_AQL_ACCESS_REFERENCE
  | .all => .TRI_AQL_ACCESS_ALL

/-- Modelled from the spec: `createImpossible(ctx)` of §4.1, declared in the header as
`TRI_CreateImpossibleAccessAql` ("create an access structure of type impossible"); its
body is in `ahuacatl-access-optimiser.c`, which is not part of the sources. It always
succeeds and represents "no row can satisfy this". -/
def TRI_CreateImpossibleAccessAql {V : Type} : TRI_aql_field_access_t V :=
  .impossible

/-- Whether a bound restricts the lower side. -/
def TRI_aql_range_t.isLower {V : Type} (r : TRI_aql_range_t V) : Bool :=
  match r._type with
  | .TRI_AQL_RANGE_LOWER_EXCLUDED | .TRI_AQL_RANGE_LOWER_INCLUDED => true
  | _ => false

/-- Whether a bound excludes its value. -/
def TRI_aql_range_t.isExcluded {V : Type} (r : TRI_aql_range_t V) : Bool :=
  match r._type with
  | .TRI_AQL_RANGE_LOWER_EXCLUDED | .TRI_AQL_RANGE_UPPER_EXCLUDED => true
  | _ => false

/-- Whether the scalar `a` satisfies the bound `r`. -/
def TRI_aql_range_t.admits {V : Type} (cmp : V → V → Ordering) (r : TRI_aql_range_t V)
    (a : V) : Bool :=
  match r._type with
  | .TRI_AQL_RANGE_LOWER_EXCLUDED => cmp a r._value == .gt
  | .TRI_AQL_RANGE_LOWER_INCLUDED => cmp a r._value != .lt
  | .TRI_AQL_RANGE_UPPER_EXCLUDED => cmp a r._value == .lt
  | .TRI_AQL_RANGE_UPPER_INCLUDED => cmp a r._value != .gt

/-- Modelled from the spec: "keeping, per side (lower/upper), the tighter of any existing
and incoming bound (inclusive vs exclusive at equal value: exclusive wins, i.e. is
tighter)" (§4.1), for two bounds of the same side. -/
def tighterBound {V : Type} (cmp : V → V → Ordering) (lower : Bool)
    (a b : TRI_aql_range_t V) : TRI_aql_range_t V :=
  match cmp a._value b._value with
  | .eq => if a.isExcluded then a else b
  | .lt => if lower then b else a
  | .gt => if lower then a else b

/-- The tighter of two optional bounds of the same side. -/
def tighterOption {V : Type} (cmp : V → V → Ordering) (lower : Bool) :
    Option (TRI_aql_range_t V) → Option (TRI_aql_range_t V) → Option (TRI_aql_range_t V)
  | some a, some b => some (tighterBound cmp lower a b)
  | some a, none => some a
  | none, b => b

/-- The lower and the upper bound of a range access. -/
def rangeBounds {V : Type} :
    TRI_aql_field_access_t V → Option (TRI_aql_range_t V) × Option (TRI_aql_range_t V)
  | .rangeSingle r => if r.isLower then (some r, none) else (none, some r)
  | .rangeDouble lower upper => (some lower, some upper)
  | _ => (none, none)

/-- Modelled from the spec: the rule `Range*` ∧ `Range*` of `merge` (§4.1): "if
resulting lower > upper (or lower == upper with either side exclusive) → `Impossible`; if
exactly one side is bounded → `RangeSingle`; if both → `RangeDouble`". -/
def mergeRanges {V : Type} (cmp : V → V → Ordering) (existing incoming : TRI_aql_field_access_t V) :
    TRI_aql_field_access_t V :=
  let lower := tighterOption cmp true (rangeBounds existing).1 (rangeBounds incoming).1
  let upper := tighterOption cmp false (rangeBounds existing).2 (rangeBounds incoming).2
  match lower, upper with
  | some l, some u =>
    match cmp l._value u._value with
    | .gt => .impossible
    | .eq => if l.isExcluded || u.isExcluded then .impossible else .rangeDouble l u
    | .lt => .rangeDouble l u
  | some l, none => .rangeSingle l
  | none, some u => .rangeSingle u
  | none, none => .impossible

/-- Whether the scalar `a` is within a list or range access. -/
def accessAdmits {V : Type} (cmp : V → V → Ordering) :
    TRI_aql_field_access_t V → V → Bool
  | .list values, a => values.any (fun v => cmp a v == .eq)
  | .rangeSingle r, a => r.admits cmp a
  | .rangeDouble lower upper, a => lower.admits cmp a && upper.admits cmp a
  | _, _ => false

/-- Modelled from the spec: `merge(existing, incoming)` of §4.1, the logical AND of two
accesses on the same field. The function that merges two accesses is defined in
`ahuacatl-access-optimiser.c`, which is not part of the sources. The rules are those of
the spec, in its order: if either is `Impossible`, the result is `Impossible`; anything ∧
`FullScan` is unchanged; `Exact` ∧ `Exact` keeps one of two equal values and is
`Impossible` for unequal ones; `Exact` ∧ `List`/`Range*` is `Impossible` when the exact
value is outside the list or range and narrows to `Exact` otherwise; `List` ∧ `List`
intersects the value sets (empty: `Impossible`, singleton: `Exact`); `Range*` ∧ `Range*`
combines the bounds (`mergeRanges`); `Reference` combines only with an access on the same
variable and operator. `none` stands for a pair that the spec keeps as separate entries
or gives no rule for. -/
def merge {V : Type} (cmp : V → V → Ordering) :
    TRI_aql_field_access_t V → TRI_aql_field_access_t V → Option (TRI_aql_field_access_t V)
  | .impossible, _ => some .impossible
  | _, .impossible => some .impossible
  | existing, .all => some existing
  | .all, incoming => some incoming
  | .exact a, .exact b => if cmp a b = .eq then some (.exact a) else some .impossible
  | .exact a, .reference _ _ => none
  | .exact a, incoming =>
    if accessAdmits cmp incoming a then some (.exact a) else some .impossible
  | .reference name operator, .reference name' operator' =>
    if name = name' ∧ operator = operator' then some (.reference name operator) else none
  | .reference _ _, _ => none
  | _, .reference _ _ => none
  | existing, .exact b =>
    if accessAdmits cmp existing b then some (.exact b) else some .impossible
  | .list xs, .list ys =>
    match xs.filter (fun x => ys.any (fun y => cmp x y == .eq)) with
    | [] => some .impossible
    | [z] => some (.exact z)
    | zs => some (.list zs)
  | .list _, _ => none
  | _, .list _ => none
  | existing, incoming => some (mergeRanges cmp existing incoming)


/-! ## Checksum of a collection

`ChecksumCalculator` and `JS_ChecksumCollection`. The CRC functions, the stringification
of the document data and the iteration over the documents of the collection are defined
outside the sources and are the fields of `ChecksumEnv`. The checksums are `uint32_t`
values: every addition is reduced modulo `2^32`. -/

/-- Number of values of a `uint32_t`. -/
def UINT32 : Nat := 4294967296

/-- The marker types that `ChecksumCalculator` tells apart. -/
inductive TRI_df_marker_type_e where
  | TRI_DOC_MARKER_KEY_DOCUMENT
  | TRI_WAL_MARKER_DOCUMENT
  | TRI_DOC_MARKER_KEY_EDGE
  | TRI_WAL_MARKER_EDGE
  | other (code : Nat)
  deriving DecidableEq, Repr

/-- What `ChecksumCalculator` reads of a master pointer and of the marker it points to:
the marker type, the document key (`TRI_EXTRACT_MARKER_KEY`), the revision id `_rid`, the
collection ids and keys of the two ends of an edge, and the shaped JSON of the document
data (`TRI_EXTRACT_SHAPED_JSON_MARKER`). -/
structure MasterPointer where
  _type : TRI_df_marker_type_e
  key : String
  _rid : Nat
  _toCid : Nat
  toKey : String
  _fromCid : Nat
  fromKey : String
  shaped : TRI_shaped_json_t

/-- The collaborators of the checksum calculation that are not part of the sources. -/
structure ChecksumEnv where
  /-- `ServerState::instance ()->isCoordinator ()`. -/
  isCoordinator : Bool
  /-- `TRI_ObjectToBoolean`. -/
  TRI_ObjectToBoolean : JSVal → Bool
  /-- `TRI_Crc32HashString`. -/
  TRI_Crc32HashString : String → Nat
  /-- `TRI_Crc32HashPointer` on the `sizeof (TRI_voc_rid_t)` bytes of a revision id. -/
  crc32OfRid : Nat → Nat
  /-- `TRI_Crc32HashPointer` on the bytes of a character buffer. -/
  TRI_Crc32HashPointer : String → Nat
  /-- `CollectionNameResolver::getCollectionNameCluster`. -/
  getCollectionNameCluster : Nat → String
  /-- The constant `TRI_DOCUMENT_HANDLE_SEPARATOR_CHR`. -/
  TRI_DOCUMENT_HANDLE_SEPARATOR_CHR : Char
  /-- The content of the string buffer after `TRI_StringifyArrayShapedJson`. -/
  TRI_StringifyArrayShapedJson : TRI_shaped_json_t → String
  /-- The master pointers that `TRI_DocumentIteratorDocumentCollection` hands to the
  callback, in the order of the iteration. -/
  documents : List MasterPointer
  /-- `StringUtils::itoa (document->_info._revision)`. -/
  revision : String

/-- Source: `ChecksumCalculator<WR, WD>` (v8-query.cpp 2143-2202): the value of
`helper->_checksum` after the callback, given its value before. The callback returns
`true` on every path. -/
def ChecksumCalculator (cenv : ChecksumEnv) (WR WD : Bool) (mptr : MasterPointer)
    (checksum : Nat) : Nat :=
  let localCrc : Option Nat :=
    if mptr._type = .TRI_DOC_MARKER_KEY_DOCUMENT ∨ mptr._type = .TRI_WAL_MARKER_DOCUMENT then
      let localCrc := cenv.TRI_Crc32HashString mptr.key % UINT32
      some (if WR then (localCrc + cenv.crc32OfRid mptr._rid) % UINT32 else localCrc)
    else if mptr._type = .TRI_DOC_MARKER_KEY_EDGE ∨ mptr._type = .TRI_WAL_MARKER_EDGE then
      -- must convert _rid, _fromCid, _toCid into strings for portability
      let localCrc := cenv.TRI_Crc32HashString mptr.key % UINT32
      let localCrc := if WR then (localCrc + cenv.crc32OfRid mptr._rid) % UINT32 else localCrc
      let extra := cenv.getCollectionNameCluster mptr._toCid ++
        String.singleton cenv.TRI_DOCUMENT_HANDLE_SEPARATOR_CHR ++ mptr.toKey ++
        cenv.getCollectionNameCluster mptr._fromCid ++
        String.singleton cenv.TRI_DOCUMENT_HANDLE_SEPARATOR_CHR ++ mptr.fromKey
      some ((localCrc + cenv.TRI_Crc32HashPointer extra) % UINT32)
    else none
  match localCrc with
  | none => checksum
  | some localCrc =>
    let localCrc :=
      if WD then
        -- with data
        (localCrc + cenv.TRI_Crc32HashPointer
          (cenv.TRI_StringifyArrayShapedJson mptr.shaped)) % UINT32
      else localCrc
    (checksum + localCrc) % UINT32

/-- `TRI_DocumentIteratorDocumentCollection` with the callback `ChecksumCalculator<WR, WD>`:
the callback is run on every document, starting from the given value of
`helper._checksum`. -/
def checksumLoop (cenv : ChecksumEnv) (WR WD : Bool) :
    List MasterPointer → Nat → Nat
  | [], checksum => checksum
  | mptr :: rest, checksum =>
    checksumLoop cenv WR WD rest (ChecksumCalculator cenv WR WD mptr checksum)

/-- The result object `{ checksum, revision }` of `JS_ChecksumCollection`. -/
structure ChecksumResult where
  checksum : Nat
  revision : String

/-- Source: `JS_ChecksumCollection` (v8-query.cpp 2223-2306). -/
def JS_ChecksumCollection (env : Env) (cenv : ChecksumEnv) (argv : List JSVal) :
    Completion ChecksumResult :=
  if cenv.isCoordinator then
    -- renaming a collection in a cluster is unsupported
    .exception (TRI_V8_EXCEPTION TRI_ERROR_CLUSTER_UNSUPPORTED)
  else if ! env.col then .exception (TRI_V8_EXCEPTION_INTERNAL "cannot extract collection")
  else match env.sharding with
  | some e => .exception e
  | none =>
  let withRevisions :=
    if argv.length > 0 then cenv.TRI_ObjectToBoolean (argv.getD 0 .undefined) else false
  let withData :=
    if argv.length > 1 then cenv.TRI_ObjectToBoolean (argv.getD 1 .undefined) else false
  if env.trxBegin ≠ TRI_ERROR_NO_ERROR then .exception (TRI_V8_EXCEPTION env.trxBegin)
  else if ! env.orderBarrier then .exception (TRI_V8_EXCEPTION TRI_ERROR_OUT_OF_MEMORY)
  else
  -- collection_checksum_t helper: _checksum (0)
  let checksum :=
    if withData then
      (if withRevisions then checksumLoop cenv true true cenv.documents 0
        else checksumLoop cenv false true cenv.documents 0)
    else
      (if withRevisions then checksumLoop cenv true false cenv.documents 0
        else checksumLoop cenv false false cenv.documents 0)
  .ok { checksum := checksum, revision := cenv.revision }

/-- A marker of a plain document. -/
def MasterPointer.isDocument (mptr : MasterPointer) : Prop :=
  mptr._type = .TRI_DOC_MARKER_KEY_DOCUMENT ∨ mptr._type = .TRI_WAL_MARKER_DOCUMENT

/-- A checksum environment: the CRC of a string is its length, the CRC of a revision id
is the revision id, and the data of a document is stringified as `{}`. The collection
holds the documents `ab` (revision 5) and `cde` (revision 7). -/
def sampleChecksumEnv : ChecksumEnv where
  isCoordinator := false
  TRI_ObjectToBoolean := fun v => match v with
    | .bool b => b
    | _ => false
  TRI_Crc32HashString := fun s => s.length
  crc32OfRid := fun rid => rid
  TRI_Crc32HashPointer := fun s => s.length
  getCollectionNameCluster := fun _ => "c"
  TRI_DOCUMENT_HANDLE_SEPARATOR_CHR := '/'
  TRI_StringifyArrayShapedJson := fun _ => "{}"
  documents :=
    [⟨.TRI_DOC_MARKER_KEY_DOCUMENT, "ab", 5, 0, "", 0, "", ⟨1, []⟩⟩,
      ⟨.TRI_WAL_MARKER_DOCUMENT, "cde", 7, 0, "", 0, "", ⟨2, [1]⟩⟩]
  revision := "7"


/-! ## Theorems -/

theorem WORD_eq : WORD = 18446744073709551616 := rfl

theorem HALF_eq : HALF = 9223372036854775808 := rfl

theorem toSizeT_of_nonneg (x : Int) (h0 : 0 ≤ x) (h1 : x < (HALF : Int)) :
    toSizeT x = x.toNat := by
  unfold toSizeT
  rw [HALF_eq] at h1
  rw [WORD_eq]
  omega

theorem toInt64_of_lt (n : Nat) (h : n < HALF) : toInt64 n = (n : Int) := by
  unfold toInt64
  rw [HALF_eq] at h
  rw [WORD_eq, HALF_eq]
  have hw : n % 18446744073709551616 = n := by omega
  rw [hw, if_pos h]

theorem wrapInt64_of_range (x : Int) (h0 : -(HALF : Int) ≤ x) (h1 : x < (HALF : Int)) :
    wrapInt64 x = x := by
  unfold wrapInt64
  rw [HALF_eq] at h0 h1
  rw [WORD_eq, HALF_eq]
  omega

/-- The start position computed by `CalculateSkipLimitSlice`. -/
theorem CalculateSkipLimitSlice_fst (noLimit length limit : Nat) (skip : Int) :
    (CalculateSkipLimitSlice noLimit length skip limit).1 =
      if 0 < skip then (if length < toSizeT skip then length else toSizeT skip)
      else if skip < 0 then
        (if toSizeT (wrapInt64 (-skip)) < length
          then (length + WORD - toSizeT (wrapInt64 (-skip))) % WORD else 0)
      else 0 := rfl

/-- The end position computed by `CalculateSkipLimitSlice`, in terms of the start. -/
theorem CalculateSkipLimitSlice_snd (noLimit length limit : Nat) (skip : Int) :
    (CalculateSkipLimitSlice noLimit length skip limit).2 =
      if ((CalculateSkipLimitSlice noLimit length skip limit).1 + limit) % WORD < length then
        (if wrapInt64 (toInt64 (CalculateSkipLimitSlice noLimit length skip limit).1
              + toInt64 limit) < toInt64 length then
          (if wrapInt64 (toInt64 (CalculateSkipLimitSlice noLimit length skip limit).1
              + toInt64 limit) ≥ toInt64 noLimit then noLimit
            else toSizeT (wrapInt64 (toInt64 (CalculateSkipLimitSlice noLimit length skip limit).1
              + toInt64 limit)))
          else length)
      else length := rfl

/-- Without wrap-around the start position is the one of the windowing contract. -/
theorem CalculateSkipLimitSlice_fst_nowrap (noLimit length limit : Nat) (skip : Int)
    (hLength : length < HALF)
    (hSkipLo : -(HALF : Int) < skip) (hSkipHi : skip < (HALF : Int)) :
    (CalculateSkipLimitSlice noLimit length skip limit).1 =
      if 0 < skip then min skip.toNat length
      else if skip < 0 then (if skip.natAbs < length then length - skip.natAbs else 0)
      else 0 := by
  rw [CalculateSkipLimitSlice_fst]
  by_cases h1 : 0 < skip
  · rw [if_pos h1, if_pos h1, toSizeT_of_nonneg skip (by omega) hSkipHi]
    split_ifs <;> omega
  · rw [if_neg h1, if_neg h1]
    by_cases h2 : skip < 0
    · rw [if_pos h2, wrapInt64_of_range (-skip) (by omega) (by omega),
        toSizeT_of_nonneg (-skip) (by omega) (by omega)]
      rw [HALF_eq] at hLength hSkipLo hSkipHi
      rw [WORD_eq]
      split_ifs <;> omega
    · rw [if_neg h2, if_neg h2]

/-- C1: for lengths, skips and limits for which no conversion or addition wraps and
`s + limit` stays below the `TRI_QRY_NO_LIMIT` sentinel, `CalculateSkipLimitSlice` returns
`s = min(skip, length)` for a positive skip, `s = 0` for skip 0, `s = length - |skip|` for
a negative skip with `|skip| < length`, `s = 0` for a negative skip with `|skip| >= length`,
and `e = min(length, s + limit)`. -/
theorem CalculateSkipLimitSlice_spec (noLimit length limit : Nat) (skip : Int)
    (hNoLimit : noLimit < HALF) (hLength : length < HALF)
    (hSkipLo : -(HALF : Int) < skip) (hSkipHi : skip < (HALF : Int))
    (hSum : (CalculateSkipLimitSlice noLimit length skip limit).1 + limit < noLimit) :
    (0 < skip → (CalculateSkipLimitSlice noLimit length skip limit).1 = min skip.toNat length) ∧
    (skip = 0 → (CalculateSkipLimitSlice noLimit length skip limit).1 = 0) ∧
    (skip < 0 → skip.natAbs < length →
      (CalculateSkipLimitSlice noLimit length skip limit).1 = length - skip.natAbs) ∧
    (skip < 0 → length ≤ skip.natAbs → (CalculateSkipLimitSlice noLimit length skip limit).1 = 0) ∧
    (CalculateSkipLimitSlice noLimit length skip limit).2 =
      min length ((CalculateSkipLimitSlice noLimit length skip limit).1 + limit) := by
  have hs := CalculateSkipLimitSlice_fst_nowrap noLimit length limit skip hLength hSkipLo hSkipHi
  have he := CalculateSkipLimitSlice_snd noLimit length limit skip
  generalize (CalculateSkipLimitSlice noLimit length skip limit).1 = s at *
  generalize (CalculateSkipLimitSlice noLimit length skip limit).2 = e at *
  have hsH : s < HALF := Nat.lt_of_le_of_lt (Nat.le_add_right s limit) (Nat.lt_trans hSum hNoLimit)
  have hlH : limit < HALF := Nat.lt_of_le_of_lt (Nat.le_add_left limit s) (Nat.lt_trans hSum hNoLimit)
  have hslH : s + limit < HALF := Nat.lt_trans hSum hNoLimit
  have e5 : wrapInt64 ((s : Int) + (limit : Int)) = (s : Int) + (limit : Int) :=
    wrapInt64_of_range _ (by clear hs he; omega) (by clear hs he; omega)
  have e6 : toSizeT ((s : Int) + (limit : Int)) = s + limit := by
    clear hs he
    rw [toSizeT_of_nonneg _ (by omega) (by omega)]; omega
  have e7 : (s + limit) % WORD = s + limit := by
    clear hs he
    rw [HALF_eq] at hslH
    rw [WORD_eq]
    omega
  rw [toInt64_of_lt s hsH, toInt64_of_lt limit hlH, toInt64_of_lt length hLength,
    toInt64_of_lt noLimit hNoLimit, e5, e6, e7] at he
  refine ⟨?_, ?_, ?_, ?_, ?_⟩
  · intro h; rw [hs, if_pos h]
  · intro h; subst h; rw [hs]; simp
  · intro h h2; rw [hs, if_neg (by clear hs he; omega), if_pos h, if_pos h2]
  · intro h h2; rw [hs, if_neg (by clear hs he; omega), if_pos h, if_neg (by clear hs he; omega)]
  · rw [he]
    clear hs he
    split_ifs <;> omega

/-- C1 at the input of the windowing example: length 10, skip -3, limit 2 gives the
slice `[7, 9)`, that is positions 7 and 8. -/
theorem CalculateSkipLimitSlice_spec_witness :
    CalculateSkipLimitSlice 4294967295 10 (-3) 2 = (7, 9) := by
  have h := CalculateSkipLimitSlice_spec 4294967295 10 2 (-3) (by decide) (by decide)
    (by decide) (by decide) (by decide)
  obtain ⟨-, -, h3, -, h5⟩ := h
  have h1 := h3 (by decide) (by decide)
  rw [h1] at h5
  exact Prod.ext h1 h5


/-! ### By-example windowing (C2) -/

/-- On an empty match list the slice is empty. -/
theorem CalculateSkipLimitSlice_zero (noLimit limit : Nat) (skip : Int) :
    CalculateSkipLimitSlice noLimit 0 skip limit = (0, 0) := by
  have h1 : (CalculateSkipLimitSlice noLimit 0 skip limit).1 = 0 := by
    rw [CalculateSkipLimitSlice_fst]
    split_ifs <;> omega
  have h2 : (CalculateSkipLimitSlice noLimit 0 skip limit).2 = 0 := by
    rw [CalculateSkipLimitSlice_snd, if_neg (Nat.not_lt_zero _)]
  exact Prod.ext h1 h2

/-- A copy loop that ends without a fault and without an error has stored the wrapped
documents of all the positions it was given, in order. -/
theorem copySlice_ok (WRAP : TRI_doc_mptr_t → Option JSVal) (filtered : List TRI_doc_mptr_t) :
    ∀ (n s : Nat) (st : SliceState),
      (copySlice WRAP filtered (List.range' s n) st).fault = false →
      (copySlice WRAP filtered (List.range' s n) st).error = false →
      ∃ docs : List JSVal,
        (copySlice WRAP filtered (List.range' s n) st).documents = st.documents ++ docs ∧
        docs.map some = ((filtered.drop s).take n).map WRAP ∧
        docs.length = n ∧
        (copySlice WRAP filtered (List.range' s n) st).count = st.count + n ∧
        (n = 0 ∨ s + n ≤ filtered.length) ∧
        st.fault = false ∧ st.error = false := by
  intro n
  induction n with
  | zero =>
    intro s st hf he
    simp only [List.range', copySlice] at hf he ⊢
    exact ⟨[], by simp, by simp, rfl, by simp, Or.inl trivial, hf, he⟩
  | succ n ih =>
    intro s st hf he
    rw [List.range'_succ] at hf he ⊢
    simp only [copySlice] at hf he ⊢
    cases hget : filtered.get? s with
    | none => rw [hget] at hf; simp at hf
    | some mptr =>
      rw [hget] at hf he
      simp only [] at hf he ⊢
      cases hw : WRAP mptr with
      | none => rw [hw] at he; simp at he
      | some doc =>
        rw [hw] at hf he
        simp only [] at hf he ⊢
        obtain ⟨docs, hd, hm, hl, hc, hb, hf0, he0⟩ := ih (s + 1) _ hf he
        rw [List.get?_eq_getElem?] at hget
        obtain ⟨hlt, hval⟩ := List.getElem?_eq_some.mp hget
        refine ⟨doc :: docs, ?_, ?_, ?_, ?_, ?_, hf0, he0⟩
        · rw [hd]; simp
        · rw [List.drop_eq_getElem_cons hlt, List.take_succ_cons, List.map_cons, List.map_cons,
            hval, hw, hm]
        · simp [hl]
        · rw [hc]; simp only []; omega
        · right
          rcases hb with hb | hb
          · omega
          · omega

/-- What `convertResult` returns when it returns a result. -/
theorem convertResult_ok (env : Env) (filtered : List TRI_doc_mptr_t) (skip : Int)
    (limit : Nat) (r : QueryResult) (h : convertResult env filtered skip limit = .ok r) :
    r.total = (filtered.length : Int) ∧
    r.documents.map some =
      ((filtered.drop (CalculateSkipLimitSlice env.TRI_QRY_NO_LIMIT filtered.length skip limit).1).take
        ((CalculateSkipLimitSlice env.TRI_QRY_NO_LIMIT filtered.length skip limit).2 -
          (CalculateSkipLimitSlice env.TRI_QRY_NO_LIMIT filtered.length skip limit).1)).map
        env.WRAP_SHAPED_JSON ∧
    r.count = r.documents.length ∧
    r.count = (CalculateSkipLimitSlice env.TRI_QRY_NO_LIMIT filtered.length skip limit).2 -
          (CalculateSkipLimitSlice env.TRI_QRY_NO_LIMIT filtered.length skip limit).1 ∧
    (r.count : Int) ≤ r.total := by
  unfold convertResult at h
  simp only [] at h
  by_cases h0 : 0 < filtered.length
  · rw [if_pos h0] at h
    generalize CalculateSkipLimitSlice env.TRI_QRY_NO_LIMIT filtered.length skip limit = se at h ⊢
    obtain ⟨s, e⟩ := se
    simp only [] at h ⊢
    by_cases hse : s < e
    · rw [if_pos hse] at h
      split_ifs at h with hf he
      simp only [Bool.not_eq_true] at hf he
      obtain ⟨docs, hd, hm, hl, hc, hb, -, -⟩ :=
        copySlice_ok env.WRAP_SHAPED_JSON filtered (e - s) s _ hf he
      injection h with h
      subst h
      simp only [List.nil_append] at hd hc ⊢
      rw [hd, hc]
      have hle : e - s ≤ filtered.length := by omega
      refine ⟨trivial, hm, by omega, by omega, ?_⟩
      omega
    · rw [if_neg hse] at h
      simp only [Bool.false_eq_true, if_false] at h
      injection h with h
      subst h
      have : e - s = 0 := by omega
      simp [this]
  · rw [if_neg h0] at h
    simp only [Bool.false_eq_true, if_false] at h
    injection h with h
    subst h
    have hz : filtered.length = 0 := by omega
    rw [hz, CalculateSkipLimitSlice_zero]
    simp [hz]

/-- A run of `JS_ByExampleQuery` that returns a result after the scan returns the
conversion of the match list. -/
theorem JS_ByExampleQuery_ok (env : Env) (argv : List JSVal) (r : QueryResult)
    (pids : List Nat) (values : List TRI_shaped_json_t)
    (h : JS_ByExampleQuery env argv = ⟨.ok r, [IndexCall.TRI_SelectByExample pids values]⟩) :
    convertResult env (env.TRI_SelectByExample pids values)
      (ExtractSkipAndLimit env argv 1).1 (ExtractSkipAndLimit env argv 1).2 = .ok r := by
  unfold JS_ByExampleQuery at h
  simp only [] at h
  repeat' split at h
  all_goals first
    | (injection h with h1 h2; injection h1; done)
    | (injection h with h1 h2; injection h2; done)
    | skip
  injection h with h1 h2
  injection h2 with h3
  injection h3 with h4 h5
  subst h4 h5
  exact h1

/-- A run of `ByExampleHashIndexQuery` that returns a result after the hash lookup
returns the conversion of the match list. -/
theorem ByExampleHashIndexQuery_ok (env : Env) (argv : List JSVal) (r : QueryResult)
    (idx : TRI_index_t) (searchValue : List TRI_shaped_json_t)
    (h : ByExampleHashIndexQuery env argv =
      ⟨.ok r, [IndexCall.TRI_LookupHashIndex idx searchValue]⟩) :
    convertResult env (env.TRI_LookupHashIndex idx searchValue)
      (ExtractSkipAndLimit env argv 2).1 (ExtractSkipAndLimit env argv 2).2 = .ok r := by
  unfold ByExampleHashIndexQuery at h
  simp only [] at h
  repeat' split at h
  all_goals first
    | (injection h with h1 h2; injection h1; done)
    | (injection h with h1 h2; injection h2; done)
    | skip
  injection h with h1 h2
  injection h2 with h3
  injection h3 with h4 h5
  subst h4 h5
  exact h1

/-- The result returned by `convertResult` is the window of the match list. -/
theorem convertResult_window (env : Env) (filtered : List TRI_doc_mptr_t) (skip : Int)
    (limit : Nat) (r : QueryResult) (h : convertResult env filtered skip limit = .ok r) :
    IsWindowOf env filtered skip limit r := by
  obtain ⟨h1, h2, h3, h4, h5⟩ := convertResult_ok env filtered skip limit r h
  refine ⟨h1, h2, h3, ?_, h5⟩
  rw [h4]
  split_ifs <;> omega

/-- C2: a successful result of `JS_ByExampleQuery` (after the by-example scan) and of
`ByExampleHashIndexQuery` (after the hash lookup) has `total` equal to the number of
matches, `documents` equal to the matches at the positions `s .. e-1` of
`CalculateSkipLimitSlice`, in match order, and `count` equal to the number of documents
returned, so that `count <= total`; for every skip and limit. -/
theorem byExample_result_window :
    (∀ (env : Env) (argv : List JSVal) (r : QueryResult) (pids : List Nat)
        (values : List TRI_shaped_json_t),
      JS_ByExampleQuery env argv = ⟨.ok r, [IndexCall.TRI_SelectByExample pids values]⟩ →
      IsWindowOf env (env.TRI_SelectByExample pids values)
        (ExtractSkipAndLimit env argv 1).1 (ExtractSkipAndLimit env argv 1).2 r) ∧
    (∀ (env : Env) (argv : List JSVal) (r : QueryResult) (idx : TRI_index_t)
        (searchValue : List TRI_shaped_json_t),
      ByExampleHashIndexQuery env argv =
        ⟨.ok r, [IndexCall.TRI_LookupHashIndex idx searchValue]⟩ →
      IsWindowOf env (env.TRI_LookupHashIndex idx searchValue)
        (ExtractSkipAndLimit env argv 2).1 (ExtractSkipAndLimit env argv 2).2 r) :=
  ⟨fun env argv r pids values h =>
      convertResult_window env _ _ _ r (JS_ByExampleQuery_ok env argv r pids values h),
    fun env argv r idx searchValue h =>
      convertResult_window env _ _ _ r (ByExampleHashIndexQuery_ok env argv r idx searchValue h)⟩

/-- C2 on ten matches with skip -3 and limit 2: both adapters return the documents at
positions 7 and 8, `total = 10` and `count = 2`. -/
theorem byExample_result_window_witness :
    IsWindowOf sampleEnv tenDocuments (-3) 2
      { documents := [.num 7, .num 8], total := 10, count := 2 } ∧
    IsWindowOf sampleEnv tenDocuments 4 3
      { documents := [.num 4, .num 5, .num 6], total := 10, count := 3 } := by
  have h1 := byExample_result_window.1 sampleEnv [.object [("a", .num 1)], .num (-3), .num 2]
      { documents := [.num 7, .num 8], total := 10, count := 2 } [1] [⟨1, []⟩] (by rfl)
  have h2 := byExample_result_window.2 sampleEnv
      [.str "hash", .object [("a", .num 1)], .num 4, .num 3]
      { documents := [.num 4, .num 5, .num 6], total := 10, count := 3 }
      ⟨.TRI_IDX_TYPE_HASH_INDEX, ["a"]⟩ [⟨1, []⟩] (by rfl)
  have e1 : ExtractSkipAndLimit sampleEnv [.object [("a", .num 1)], .num (-3), .num 2] 1
      = (-3, 2) := by rfl
  have e2 : ExtractSkipAndLimit sampleEnv
      [.str "hash", .object [("a", .num 1)], .num 4, .num 3] 2 = (4, 3) := by rfl
  rw [e1] at h1
  rw [e2] at h2
  exact ⟨h1, h2⟩


/-! ### Windowing loop of the skiplist and bitarray adapters (C3, C4) -/

/-- With `limit = 0` the windowing loop does not run. -/
theorem windowLoop_limit_zero (WRAP : TRI_doc_mptr_t → Option JSVal) (skip : Int)
    (it : List TRI_doc_mptr_t) (st : WindowState) :
    windowLoop WRAP skip 0 it st = st := by
  unfold windowLoop
  simp

/-- The windowing loop, started in a state in which `total` elements were taken from the
iterator and `count = max (0, total - skip)` documents, fewer than `limit`, have been
stored: if it ends without an error, `total` has advanced to the end of the iterator or
to `skip + limit`, whichever comes first, and the documents stored are the wrapped
elements that follow the ones still to be skipped, up to the limit. -/
theorem windowLoop_spec (WRAP : TRI_doc_mptr_t → Option JSVal) (skip : Int) (limit : Nat) :
    ∀ (it : List TRI_doc_mptr_t) (st : WindowState),
      0 ≤ st.total → st.count < limit → (st.count : Int) = max 0 (st.total - skip) →
      (windowLoop WRAP skip limit it st).error = false →
      (windowLoop WRAP skip limit it st).total = min (st.total + it.length) (skip + limit) ∧
      st.error = false ∧
      ∃ docs : List JSVal,
        (windowLoop WRAP skip limit it st).documents = st.documents ++ docs ∧
        docs.map some = ((it.drop (skip - st.total).toNat).take (limit - st.count)).map WRAP ∧
        (windowLoop WRAP skip limit it st).count = st.count + docs.length := by
  intro it
  induction it with
  | nil =>
    intro st ht hc hinv he
    have hl : limit > 0 := by omega
    unfold windowLoop at he ⊢
    simp only [if_pos hl] at he ⊢
    refine ⟨?_, he, [], by simp, by simp, by simp⟩
    simp only [List.length_nil, Nat.cast_zero, add_zero]
    omega
  | cons x rest ih =>
    intro st ht hc hinv he
    have hl : limit > 0 := by omega
    unfold windowLoop at he ⊢
    simp only [if_pos hl] at he ⊢
    by_cases hgt : st.total + 1 > skip
    · have hcond : st.total + 1 > skip ∧ st.count < limit := ⟨hgt, hc⟩
      rw [if_pos hcond] at he ⊢
      cases hw : WRAP x with
      | none => rw [hw] at he; simp at he
      | some doc =>
        rw [hw] at he
        simp only [] at he ⊢
        have hz : (skip - st.total).toNat = 0 := by omega
        by_cases hge : st.count + 1 ≥ limit
        · rw [if_pos hge] at he ⊢
          simp only [] at he ⊢
          refine ⟨?_, he, [doc], rfl, ?_, by simp⟩
          · simp only [List.length_cons, Nat.cast_add, Nat.cast_one]
            omega
          · have h1 : limit - st.count = 1 := by omega
            rw [hz, h1]
            simp [hw]
        · rw [if_neg hge] at he ⊢
          obtain ⟨h1, h2, docs, h3, h4, h5⟩ := ih _ (by simp only []; omega)
            (by simp only []; omega) (by simp only []; push_cast; omega) he
          simp only [] at h1 h2 h3 h4 h5
          refine ⟨?_, h2, doc :: docs, ?_, ?_, ?_⟩
          · rw [h1]; simp only [List.length_cons, Nat.cast_add, Nat.cast_one]; omega
          · rw [h3]; simp
          · have hz' : (skip - (st.total + 1)).toNat = 0 := by omega
            have hlim : limit - st.count = (limit - (st.count + 1)) + 1 := by omega
            rw [hz'] at h4
            rw [hz, hlim]
            simp only [List.drop_zero, List.take_succ_cons, List.map_cons] at h4 ⊢
            rw [hw, h4]
          · rw [h5]; simp only [List.length_cons]; omega
    · have hcond : ¬ (st.total + 1 > skip ∧ st.count < limit) := fun h => hgt h.1
      rw [if_neg hcond] at he ⊢
      obtain ⟨h1, h2, docs, h3, h4, h5⟩ := ih _ (by simp only []; omega)
        (by simp only []; omega) (by simp only []; omega) he
      simp only [] at h1 h2 h3 h4 h5
      refine ⟨?_, h2, docs, h3, ?_, h5⟩
      · rw [h1]; simp only [List.length_cons, Nat.cast_add, Nat.cast_one]; omega
      · have hd : (skip - st.total).toNat = (skip - (st.total + 1)).toNat + 1 := by omega
        rw [hd, List.drop_succ_cons]
        exact h4

/-- A run of `ExecuteSkiplistQuery` that returns a result after the skiplist lookup has
yielded an iterator returns what the windowing loop leaves. -/
theorem ExecuteSkiplistQuery_ok (env : Env) (argv : List JSVal) (signature : String)
    (type : query_t) (idx : TRI_index_t) (op : TRI_index_operator_t)
    (it : List TRI_doc_mptr_t) (r : QueryResult)
    (h : ExecuteSkiplistQuery env argv signature type =
      ⟨.ok r, [IndexCall.TRI_LookupSkiplistIndex idx op]⟩)
    (hit : env.TRI_LookupSkiplistIndex idx op = .ok it) :
    windowOutcome (windowLoop env.WRAP_SHAPED_JSON (ExtractSkipAndLimit env argv 2).1
      (ExtractSkipAndLimit env argv 2).2 it windowInit) = .ok r := by
  unfold ExecuteSkiplistQuery at h
  simp only [] at h
  repeat' split at h
  all_goals first
    | (injection h with h1 h2; injection h1; done)
    | (injection h with h1 h2; injection h2; done)
    | skip
  all_goals
    injection h with h1 h2
    injection h2 with h3
    injection h3 with h4 h5
    subst h4 h5
    simp_all

/-- A run of `ExecuteBitarrayQuery` that returns a result after the bitarray lookup has
yielded an iterator returns what the windowing loop leaves. -/
theorem ExecuteBitarrayQuery_ok (env : Env) (argv : List JSVal) (signature : String)
    (type : query_t) (idx : TRI_index_t) (op : TRI_index_operator_t)
    (it : List TRI_doc_mptr_t) (r : QueryResult)
    (h : ExecuteBitarrayQuery env argv signature type =
      ⟨.ok r, [IndexCall.TRI_LookupBitarrayIndex idx op]⟩)
    (hit : env.TRI_LookupBitarrayIndex idx op = some it) :
    windowOutcome (windowLoop env.WRAP_SHAPED_JSON (ExtractSkipAndLimit env argv 2).1
      (ExtractSkipAndLimit env argv 2).2 it windowInit) = .ok r := by
  unfold ExecuteBitarrayQuery at h
  simp only [] at h
  repeat' split at h
  all_goals first
    | (injection h with h1 h2; injection h1; done)
    | (injection h with h1 h2; injection h2; done)
    | skip
  all_goals
    injection h with h1 h2
    injection h2 with h3
    injection h3 with h4 h5
    subst h4 h5
    simp_all


/-- The `total` left by the windowing loop for a non-negative skip: the number of
elements taken from the iterator. -/
theorem windowOutcome_total (WRAP : TRI_doc_mptr_t → Option JSVal) (skip : Int) (limit : Nat)
    (it : List TRI_doc_mptr_t) (r : QueryResult) (hskip : 0 ≤ skip)
    (h : windowOutcome (windowLoop WRAP skip limit it windowInit) = .ok r) :
    r.total = if limit = 0 then 0 else min (it.length : Int) (skip + limit) := by
  unfold windowOutcome at h
  split at h
  · cases h
  · rename_i he
    simp only [Bool.not_eq_true] at he
    injection h with h
    subst h
    simp only []
    by_cases hl : limit = 0
    · subst hl
      rw [windowLoop_limit_zero]
      simp [windowInit]
    · rw [if_neg hl]
      have hs := windowLoop_spec WRAP skip limit it windowInit (by simp [windowInit])
        (by simp only [windowInit]; omega) (by simp only [windowInit]; omega) he
      rw [hs.1]
      simp [windowInit]

/-- C3 (amended): for a non-negative skip the `total` returned by `ExecuteSkiplistQuery`
and by `ExecuteBitarrayQuery` is the number of elements taken from the iterator before
the loop stops: 0 when `limit = 0`, and `min (N, skip + limit)` otherwise, where `N` is
the number of elements the iterator yields. -/
theorem window_total_scanned :
    (∀ (env : Env) (argv : List JSVal) (signature : String) (type : query_t)
        (idx : TRI_index_t) (op : TRI_index_operator_t) (it : List TRI_doc_mptr_t)
        (r : QueryResult),
      ExecuteSkiplistQuery env argv signature type =
        ⟨.ok r, [IndexCall.TRI_LookupSkiplistIndex idx op]⟩ →
      env.TRI_LookupSkiplistIndex idx op = .ok it →
      0 ≤ (ExtractSkipAndLimit env argv 2).1 →
      r.total = if (ExtractSkipAndLimit env argv 2).2 = 0 then 0
        else min (it.length : Int)
          ((ExtractSkipAndLimit env argv 2).1 + (ExtractSkipAndLimit env argv 2).2)) ∧
    (∀ (env : Env) (argv : List JSVal) (signature : String) (type : query_t)
        (idx : TRI_index_t) (op : TRI_index_operator_t) (it : List TRI_doc_mptr_t)
        (r : QueryResult),
      ExecuteBitarrayQuery env argv signature type =
        ⟨.ok r, [IndexCall.TRI_LookupBitarrayIndex idx op]⟩ →
      env.TRI_LookupBitarrayIndex idx op = some it →
      0 ≤ (ExtractSkipAndLimit env argv 2).1 →
      r.total = if (ExtractSkipAndLimit env argv 2).2 = 0 then 0
        else min (it.length : Int)
          ((ExtractSkipAndLimit env argv 2).1 + (ExtractSkipAndLimit env argv 2).2)) :=
  ⟨fun env argv signature type idx op it r h hit hskip =>
      windowOutcome_total _ _ _ it r hskip
        (ExecuteSkiplistQuery_ok env argv signature type idx op it r h hit),
    fun env argv signature type idx op it r h hit hskip =>
      windowOutcome_total _ _ _ it r hskip
        (ExecuteBitarrayQuery_ok env argv signature type idx op it r h hit)⟩

/-- C3 (amended) on ten matches with skip 4 and limit 3: both adapters return a result
whose `total` is `min (10, 4 + 3) = 7`. -/
theorem window_total_scanned_witness :
    (ExecuteSkiplistQuery sampleEnv [.str "skiplist", .object [("a", .num 1)], .num 4, .num 3]
        "BY_EXAMPLE_SKIPLIST" .QUERY_EXAMPLE =
        ⟨.ok { documents := [.num 4, .num 5, .num 6], total := 7, count := 3 },
          [IndexCall.TRI_LookupSkiplistIndex ⟨.TRI_IDX_TYPE_SKIPLIST_INDEX, ["a", "b", "c"]⟩
            (.mk .TRI_EQ_INDEX_OPERATOR none none (some (.list [.number 1])) 1)]⟩ ∧
      ((7 : Int) = if (3 : Nat) = 0 then 0 else min ((10 : Nat) : Int) (4 + (3 : Nat)))) ∧
    (ExecuteBitarrayQuery sampleEnv [.str "bitarray", .object [("a", .num 1)], .num 4, .num 3]
        "BY_EXAMPLE_BITARRAY" .QUERY_EXAMPLE =
        ⟨.ok { documents := [.num 4, .num 5, .num 6], total := 7, count := 3 },
          [IndexCall.TRI_LookupBitarrayIndex ⟨.TRI_IDX_TYPE_BITARRAY_INDEX, ["a", "b"]⟩
            (.mk .TRI_EQ_INDEX_OPERATOR none none (some (.list [.number 1, .unused])) 2)]⟩ ∧
      ((7 : Int) = if (3 : Nat) = 0 then 0 else min ((10 : Nat) : Int) (4 + (3 : Nat)))) := by
  have r1 : ExecuteSkiplistQuery sampleEnv
      [.str "skiplist", .object [("a", .num 1)], .num 4, .num 3]
      "BY_EXAMPLE_SKIPLIST" .QUERY_EXAMPLE =
      ⟨.ok { documents := [.num 4, .num 5, .num 6], total := 7, count := 3 },
        [IndexCall.TRI_LookupSkiplistIndex ⟨.TRI_IDX_TYPE_SKIPLIST_INDEX, ["a", "b", "c"]⟩
          (.mk .TRI_EQ_INDEX_OPERATOR none none (some (.list [.number 1])) 1)]⟩ := by rfl
  have r2 : ExecuteBitarrayQuery sampleEnv
      [.str "bitarray", .object [("a", .num 1)], .num 4, .num 3]
      "BY_EXAMPLE_BITARRAY" .QUERY_EXAMPLE =
      ⟨.ok { documents := [.num 4, .num 5, .num 6], total := 7, count := 3 },
        [IndexCall.TRI_LookupBitarrayIndex ⟨.TRI_IDX_TYPE_BITARRAY_INDEX, ["a", "b"]⟩
          (.mk .TRI_EQ_INDEX_OPERATOR none none (some (.list [.number 1, .unused])) 2)]⟩ := by
    rfl
  have h1 := window_total_scanned.1 sampleEnv _ _ _ _ _ tenDocuments _ r1 (by rfl) (by decide)
  have h2 := window_total_scanned.2 sampleEnv _ _ _ _ _ tenDocuments _ r2 (by rfl) (by decide)
  have e1 : ExtractSkipAndLimit sampleEnv
      [.str "skiplist", .object [("a", .num 1)], .num 4, .num 3] 2 = (4, 3) := by rfl
  have e2 : ExtractSkipAndLimit sampleEnv
      [.str "bitarray", .object [("a", .num 1)], .num 4, .num 3] 2 = (4, 3) := by rfl
  rw [e1] at h1
  rw [e2] at h2
  exact ⟨⟨r1, h1⟩, ⟨r2, h2⟩⟩

/-- C3 as stated fails: the skiplist iterator of `sampleEnv` yields ten documents, and
with skip 0 and limit 2 `ExecuteSkiplistQuery` returns `total = 2`. -/
theorem window_total_counterexample :
    sampleEnv.TRI_LookupSkiplistIndex ⟨.TRI_IDX_TYPE_SKIPLIST_INDEX, ["a", "b", "c"]⟩
      (.mk .TRI_EQ_INDEX_OPERATOR none none (some (.list [.number 1])) 1) = .ok tenDocuments ∧
    tenDocuments.length = 10 ∧
    ExecuteSkiplistQuery sampleEnv [.str "skiplist", .object [("a", .num 1)], .num 0, .num 2]
      "BY_EXAMPLE_SKIPLIST" .QUERY_EXAMPLE =
      ⟨.ok { documents := [.num 0, .num 1], total := 2, count := 2 },
        [IndexCall.TRI_LookupSkiplistIndex ⟨.TRI_IDX_TYPE_SKIPLIST_INDEX, ["a", "b", "c"]⟩
          (.mk .TRI_EQ_INDEX_OPERATOR none none (some (.list [.number 1])) 1)]⟩ :=
  ⟨rfl, rfl, by rfl⟩

/-- C4 at its failing input: on ten matches with skip -3 and limit 2 both
`ExecuteSkiplistQuery` and `ExecuteBitarrayQuery` return the documents at positions 0
and 1 (and `total = 2`), not the documents at positions 7 and 8. -/
theorem window_negative_skip_from_start :
    ExecuteSkiplistQuery sampleEnv
      [.str "skiplist", .object [("a", .num 1)], .num (-3), .num 2]
      "BY_EXAMPLE_SKIPLIST" .QUERY_EXAMPLE =
      ⟨.ok { documents := [.num 0, .num 1], total := 2, count := 2 },
        [IndexCall.TRI_LookupSkiplistIndex ⟨.TRI_IDX_TYPE_SKIPLIST_INDEX, ["a", "b", "c"]⟩
          (.mk .TRI_EQ_INDEX_OPERATOR none none (some (.list [.number 1])) 1)]⟩ ∧
    ExecuteBitarrayQuery sampleEnv
      [.str "bitarray", .object [("a", .num 1)], .num (-3), .num 2]
      "BY_EXAMPLE_BITARRAY" .QUERY_EXAMPLE =
      ⟨.ok { documents := [.num 0, .num 1], total := 2, count := 2 },
        [IndexCall.TRI_LookupBitarrayIndex ⟨.TRI_IDX_TYPE_BITARRAY_INDEX, ["a", "b"]⟩
          (.mk .TRI_EQ_INDEX_OPERATOR none none (some (.list [.number 1, .unused])) 2)]⟩ ∧
    ExtractSkipAndLimit sampleEnv
      [.str "skiplist", .object [("a", .num 1)], .num (-3), .num 2] 2 = (-3, 2) :=
  ⟨by rfl, by rfl, by rfl⟩


/-! ### Skiplist condition builder (C5, C6, C7, C8) -/

/-- The tags produced for a range condition are range tags. -/
theorem rangeOperatorType_isRange {opValue : String} {ty : TRI_index_operator_type_e}
    (h : rangeOperatorType opValue = some ty) : isRangeType ty = true := by
  unfold rangeOperatorType at h
  split_ifs at h <;> (cases h; rfl)

/-- Appending a range leaf to a chain. -/
theorem prefixRangeOperator_snoc (eqs : List TRI_json_t)
    (r0 r : TRI_index_operator_type_e × TRI_json_t)
    (rs : List (TRI_index_operator_type_e × TRI_json_t)) :
    TRI_index_operator_t.mk TRI_AND_INDEX_OPERATOR (some (prefixRangeOperator eqs r0 rs))
      (some (rangeLeaf eqs r)) none 2 = prefixRangeOperator eqs r0 (rs ++ [r]) := by
  cases eqs with
  | nil => simp [prefixRangeOperator, andChain, List.foldl_append]
  | cons e es => simp [prefixRangeOperator, andChain, List.foldl_append]

/-- The loop over the conditions of field `k + 1` keeps the invariant. -/
theorem conditionLoop_inv (conv : JSVal → Option TRI_json_t) (k : Nat) :
    ∀ (values : List JSVal) (st st' : SkiplistState),
      SkiplistInv k (k + 1) st → conditionLoop conv (k + 1) values st = some st' →
      SkiplistInv (k + 1) (k + 1) st' := by
  intro values
  induction values with
  | nil =>
    intro st st' hinv h
    simp only [conditionLoop] at h
    injection h with h
    subst h
    rcases hinv with ⟨h1, h2, h3, h4⟩ | h
    · exact Or.inl ⟨h1, h2, h3, by omega⟩
    · exact Or.inr h
  | cons fc rest ih =>
    intro st st' hinv h
    unfold conditionLoop at h
    split at h
    · split at h
      · split at h
        · cases h
        · rename_i opValue _ json hjson
          by_cases heq : opValue = "=="
          · -- an accepted equality
            rw [if_pos heq] at h
            by_cases hpos : st.lastNonEq > 0
            · rw [if_pos hpos] at h; cases h
            · rw [if_neg hpos] at h
              injection h with h
              subst h
              rcases hinv with ⟨h1, h2, h3, h4⟩ | ⟨h1, _⟩
              · exact Or.inl ⟨h1, by simp [h2], h3, by simp; omega⟩
              · omega
          · -- a range condition
            rw [if_neg heq] at h
            by_cases hbad : st.lastNonEq > 0 ∧ st.lastNonEq ≠ k + 1
            · rw [if_pos hbad] at h; cases h
            · rw [if_neg hbad] at h
              split at h
              · cases h
              · rename_i opType hty
                have hrange := rangeOperatorType_isRange hty
                simp only [] at h
                refine ih _ st' ?_ h
                rcases hinv with ⟨h1, h2, h3, h4⟩ | ⟨h1, h2, h3, h4, r0, rs, h5, h6⟩
                · refine Or.inr ⟨by simp, by simp, ?_, by simp only []; omega,
                    (opType, json), [], ?_, ?_⟩
                  · simp only []; split_ifs <;> omega
                  · intro r hr
                    simp only [List.mem_singleton] at hr
                    subst hr
                    exact hrange
                  · simp only [h3]
                    cases hp : st.parameters with
                    | nil =>
                      have hn : st.numEq = 0 := by rw [h2, hp]; rfl
                      simp [hn, prefixRangeOperator, andChain, rangeLeaf, TRI_CreateIndexOperator]
                    | cons e es =>
                      have hn : st.numEq ≠ 0 := by rw [h2, hp]; simp
                      simp [hn, prefixRangeOperator, andChain, rangeLeaf, eqLeaf,
                        TRI_CreateIndexOperator]
                · have hi : st.lastNonEq = k + 1 := by
                    by_contra hne
                    exact hbad ⟨h1, hne⟩
                  refine Or.inr ⟨by simp, by simp, ?_, by simp only []; omega,
                    r0, rs ++ [(opType, json)], ?_, ?_⟩
                  · simp only []; split_ifs <;> omega
                  · intro r hr
                    rw [← List.cons_append] at hr
                    rcases List.mem_append.mp hr with hr | hr
                    · exact h5 r hr
                    · simp only [List.mem_singleton] at hr
                      subst hr; exact hrange
                  · simp only [h3, h6, ne_eq, not_true_eq_false, if_false]
                    rw [← prefixRangeOperator_snoc]
                    simp [rangeLeaf, TRI_CreateIndexOperator]
      · cases h
    · cases h

/-- The invariant is monotone in its bounds. -/
theorem SkiplistInv_mono {a b a' b' : Nat} {st : SkiplistState} (ha : a ≤ a') (hb : b ≤ b')
    (h : SkiplistInv a b st) : SkiplistInv a' b' st := by
  rcases h with ⟨h1, h2, h3, h4⟩ | ⟨h1, h2, h3, h4, h5⟩
  · exact Or.inl ⟨h1, h2, h3, by omega⟩
  · exact Or.inr ⟨h1, by omega, h3, h4, h5⟩

/-- The loop over the index fields keeps the invariant: after the fields
`k + 1, ..., k + n` at most `k + n` equality values were collected, and the field with
the range conditions, if any, is one of the first `k + n`. -/
theorem fieldLoop_inv (conv : JSVal → Option TRI_json_t) (conditions : JSVal) :
    ∀ (fields : List String) (k : Nat) (st st' : SkiplistState),
      SkiplistInv k k st → fieldLoop conv conditions (k + 1) fields st = some st' →
      SkiplistInv (k + fields.length) (k + fields.length) st' := by
  intro fields
  induction fields with
  | nil =>
    intro k st st' hinv h
    simp only [fieldLoop] at h
    injection h with h
    subst h
    exact hinv
  | cons key rest ih =>
    intro k st st' hinv h
    have hmono : SkiplistInv (k + (key :: rest).length) (k + (key :: rest).length) st :=
      SkiplistInv_mono (by omega) (by omega) hinv
    unfold fieldLoop at h
    split at h
    · injection h with h; subst h; exact hmono
    · split at h
      · split at h
        · cases h
        · rename_i values _ _ st1 hst1
          have h1 := conditionLoop_inv conv k values st st1
            (SkiplistInv_mono (le_refl _) (by omega) hinv) hst1
          have h2 := ih (k + 1) st1 st' h1 h
          simp only [List.length_cons]
          have e : k + (rest.length + 1) = k + 1 + rest.length := by omega
          rw [e]
          exact h2
      · injection h with h; subst h; exact hmono

/-- The state in which the loop over the index fields of `SetupConditionsSkiplist` ends
satisfies the invariant for the number of fields of the index. -/
theorem SetupConditionsSkiplist_inv (conv : JSVal → Option TRI_json_t) (idx : TRI_index_t)
    (conditions : JSVal) (st : SkiplistState)
    (h : fieldLoop conv conditions 1 idx._fields
      { parameters := [], numEq := 0, lastNonEq := 0, lastOperator := none } = some st) :
    SkiplistInv idx._fields.length idx._fields.length st := by
  have h0 : SkiplistInv 0 0
      { parameters := [], numEq := 0, lastNonEq := 0, lastOperator := none } :=
    Or.inl ⟨rfl, rfl, rfl, by simp⟩
  have := fieldLoop_inv conv conditions idx._fields 0 _ st h0 h
  simpa using this

/-- What `SetupConditionsSkiplist` returns, in terms of the final state of the loop. -/
theorem SetupConditionsSkiplist_cases (conv : JSVal → Option TRI_json_t) (idx : TRI_index_t)
    (conditions : JSVal) (op : TRI_index_operator_t)
    (h : SetupConditionsSkiplist conv idx conditions = some op) :
    (∃ eqs, eqs ≠ [] ∧ eqs.length ≤ idx._fields.length ∧ op = eqLeaf eqs) ∨
    (∃ eqs r0 rs, (∀ r ∈ r0 :: rs, isRangeType r.1 = true) ∧
      eqs.length + 1 ≤ idx._fields.length ∧ op = prefixRangeOperator eqs r0 rs) := by
  unfold SetupConditionsSkiplist at h
  split at h
  · cases h
  · rename_i st hst
    have hinv := SetupConditionsSkiplist_inv conv idx conditions st hst
    by_cases hn : st.numEq ≠ 0
    · rw [if_pos hn] at h
      injection h with h
      subst h
      rcases hinv with ⟨h1, h2, h3, h4⟩ | ⟨h1, h2, h3, h4, h5⟩
      · refine Or.inl ⟨st.parameters, ?_, h4, rfl⟩
        intro he
        rw [he] at h2
        exact hn h2
      · exact absurd h3 hn
    · rw [if_neg hn] at h
      rcases hinv with ⟨h1, h2, h3, h4⟩ | ⟨h1, h2, h3, h4, r0, rs, h5, h6⟩
      · rw [h3] at h; cases h
      · rw [h6] at h
        injection h with h
        subst h
        exact Or.inr ⟨st.parameters, r0, rs, h5, by omega, rfl⟩

/-- C6: every operator returned by `SetupConditionsSkiplist` is either a single `Eq`
leaf, or a left-nested `And` chain made of at most one `Eq` leaf (over the `p` equality
values of the preceding fields, present exactly when `p > 0`) followed by one or more
range leaves (`Lt`, `Le`, `Gt`, `Ge`) that all have length `p + 1`, begin with the same
`p` equality values and carry their bound in the last position. -/
theorem SetupConditionsSkiplist_shape (conv : JSVal → Option TRI_json_t) (idx : TRI_index_t)
    (conditions : JSVal) (op : TRI_index_operator_t)
    (h : SetupConditionsSkiplist conv idx conditions = some op) :
    (∃ eqs, eqs ≠ [] ∧ op = eqLeaf eqs) ∨
    (∃ eqs r0 rs, (∀ r ∈ r0 :: rs, isRangeType r.1 = true) ∧
      op = prefixRangeOperator eqs r0 rs) := by
  rcases SetupConditionsSkiplist_cases conv idx conditions op h with
    ⟨eqs, h1, _, h3⟩ | ⟨eqs, r0, rs, h1, _, h3⟩
  · exact Or.inl ⟨eqs, h1, h3⟩
  · exact Or.inr ⟨eqs, r0, rs, h1, h3⟩


/-- The comparison nodes of an `And` chain. -/
theorem relationNodes_andChain (rest : List TRI_index_operator_t) :
    ∀ first : TRI_index_operator_t,
      relationNodes (andChain first rest) =
        relationNodes first ++ (rest.map relationNodes).flatten := by
  induction rest with
  | nil => intro first; simp [andChain]
  | cons r rs ih =>
    intro first
    have := ih (.mk TRI_AND_INDEX_OPERATOR (some first) (some r) none 2)
    simp only [andChain, List.foldl_cons] at this ⊢
    rw [this]
    simp [relationNodes, isRelationType]

/-- The only comparison node of a range leaf. -/
theorem relationNodes_rangeLeaf (eqs : List TRI_json_t)
    (r : TRI_index_operator_type_e × TRI_json_t) (h : isRangeType r.1 = true) :
    relationNodes (rangeLeaf eqs r) = [some (.list (eqs ++ [r.2]))] := by
  obtain ⟨ty, v⟩ := r
  cases ty <;> simp_all [isRangeType, relationNodes, rangeLeaf, isRelationType]

/-- The comparison nodes of the chain built by `SetupConditionsSkiplist`. -/
theorem LeafLengths_prefixRangeOperator (n : Nat) (eqs : List TRI_json_t)
    (r0 : TRI_index_operator_type_e × TRI_json_t)
    (rs : List (TRI_index_operator_type_e × TRI_json_t))
    (hr : ∀ r ∈ r0 :: rs, isRangeType r.1 = true) (hn : eqs.length + 1 ≤ n) :
    LeafLengths (· ≤ n) (prefixRangeOperator eqs r0 rs) := by
  have hleaves : ∀ l : List (TRI_index_operator_type_e × TRI_json_t),
      (∀ r ∈ l, isRangeType r.1 = true) →
      ∀ p ∈ ((l.map (rangeLeaf eqs)).map relationNodes).flatten,
        ∃ xs : List TRI_json_t, p = some (.list xs) ∧ xs.length ≤ n := by
    intro l hl p hp
    simp only [List.map_map, List.mem_flatten, List.mem_map, Function.comp] at hp
    obtain ⟨ns, ⟨r, hrl, rfl⟩, hp⟩ := hp
    rw [relationNodes_rangeLeaf eqs r (hl r hrl)] at hp
    simp only [List.mem_singleton] at hp
    exact ⟨eqs ++ [r.2], hp, by simp; omega⟩
  intro p hp
  cases eqs with
  | nil =>
    simp only [prefixRangeOperator] at hp
    rw [relationNodes_andChain] at hp
    rcases List.mem_append.mp hp with hp | hp
    · rw [relationNodes_rangeLeaf [] r0 (hr r0 (by simp))] at hp
      simp only [List.mem_singleton] at hp
      exact ⟨[] ++ [r0.2], hp, by simp; omega⟩
    · exact hleaves rs (fun r h => hr r (List.mem_cons_of_mem _ h)) p hp
  | cons e es =>
    simp only [prefixRangeOperator] at hp
    rw [relationNodes_andChain] at hp
    rcases List.mem_append.mp hp with hp | hp
    · simp only [eqLeaf, relationNodes, isRelationType, if_true, List.append_nil,
        List.mem_singleton] at hp
      exact ⟨e :: es, hp, by omega⟩
    · exact hleaves (r0 :: rs) hr p hp

/-- The leaves built by `SetupConditionsSkiplist` are not longer than the field list. -/
theorem SetupConditionsSkiplist_leaves (conv : JSVal → Option TRI_json_t) (idx : TRI_index_t)
    (conditions : JSVal) (op : TRI_index_operator_t)
    (h : SetupConditionsSkiplist conv idx conditions = some op) :
    LeafLengths (· ≤ idx._fields.length) op := by
  rcases SetupConditionsSkiplist_cases conv idx conditions op h with
    ⟨eqs, _, h2, h3⟩ | ⟨eqs, r0, rs, h1, h2, h3⟩
  · subst h3
    intro p hp
    simp only [eqLeaf, relationNodes, isRelationType, if_true, List.append_nil,
      List.mem_singleton] at hp
    exact ⟨eqs, hp, h2⟩
  · subst h3
    exact LeafLengths_prefixRangeOperator _ eqs r0 rs h1 h2

/-- The loop of `SetupExampleSkiplist` adds at most one value for each field. -/
theorem exampleLoop_length (conv : JSVal → Option TRI_json_t) (example_ : JSVal) :
    ∀ (fields : List String) (ps ps' : List TRI_json_t),
      exampleLoop conv example_ fields ps = some ps' →
      ps'.length ≤ ps.length + fields.length := by
  intro fields
  induction fields with
  | nil =>
    intro ps ps' h
    simp only [exampleLoop] at h
    injection h with h
    subst h
    simp
  | cons key rest ih =>
    intro ps ps' h
    unfold exampleLoop at h
    split at h
    · injection h with h; subst h; simp
    · split at h
      · cases h
      · have := ih _ _ h
        simp only [List.length_append, List.length_singleton, List.length_cons, List.length_nil] at this ⊢
        omega

/-- The leaf built by `SetupExampleSkiplist` is not longer than the field list. -/
theorem SetupExampleSkiplist_leaves (conv : JSVal → Option TRI_json_t) (idx : TRI_index_t)
    (example_ : JSVal) (op : TRI_index_operator_t)
    (h : SetupExampleSkiplist conv idx example_ = some op) :
    LeafLengths (· ≤ idx._fields.length) op := by
  unfold SetupExampleSkiplist at h
  split at h
  · cases h
  · rename_i ps hps
    split_ifs at h
    injection h with h
    subst h
    have hl := exampleLoop_length conv example_ idx._fields [] ps hps
    intro p hp
    simp only [TRI_CreateIndexOperator, relationNodes, isRelationType, if_true,
      List.append_nil, List.mem_singleton] at hp
    exact ⟨ps, hp, by simpa using hl⟩

/-- The loop of `SetupBitarrayAttributeValuesHelper` adds exactly one value for each
field. -/
theorem attributeValuesLoop_length (conv : JSVal → Option TRI_json_t) (attributeValues : JSVal) :
    ∀ (fields : List String) (ps ps' : List TRI_json_t),
      attributeValuesLoop conv attributeValues fields ps = some ps' →
      ps'.length = ps.length + fields.length := by
  intro fields
  induction fields with
  | nil =>
    intro ps ps' h
    simp only [attributeValuesLoop] at h
    injection h with h
    subst h
    simp
  | cons key rest ih =>
    intro ps ps' h
    unfold attributeValuesLoop at h
    split at h
    · split at h
      · cases h
      · have := ih _ _ h
        simp only [List.length_append, List.length_singleton, List.length_cons, List.length_nil] at this ⊢
        omega
    · have := ih _ _ h
      simp only [List.length_append, List.length_singleton, List.length_cons, List.length_nil] at this ⊢
      omega

/-- The list built by `SetupBitarrayAttributeValuesHelper` has one entry for each field. -/
theorem SetupBitarrayAttributeValuesHelper_length (conv : JSVal → Option TRI_json_t)
    (idx : TRI_index_t) (attributeValues : JSVal) (ps : List TRI_json_t)
    (h : SetupBitarrayAttributeValuesHelper conv idx attributeValues = some ps) :
    ps.length = idx._fields.length := by
  unfold SetupBitarrayAttributeValuesHelper at h
  split_ifs at h
  simpa using attributeValuesLoop_length conv attributeValues idx._fields [] ps h

/-- The leaf built by `SetupExampleBitarray` has one value for each field. -/
theorem SetupExampleBitarray_leaves (conv : JSVal → Option TRI_json_t) (idx : TRI_index_t)
    (example_ : JSVal) (op : TRI_index_operator_t)
    (h : SetupExampleBitarray conv idx example_ = some op) :
    LeafLengths (· = idx._fields.length) op := by
  unfold SetupExampleBitarray at h
  split at h
  · cases h
  · rename_i ps hps
    injection h with h
    subst h
    intro p hp
    simp only [TRI_CreateIndexOperator, relationNodes, isRelationType, if_true,
      List.append_nil, List.mem_singleton] at hp
    exact ⟨ps, hp, SetupBitarrayAttributeValuesHelper_length conv idx example_ ps hps⟩


/-! ### Bitarray condition builder (C7, C9, C10) -/

/-- The body of `SetupConditionsBitarrayHelper`, one step unfolded. -/
theorem SetupConditionsBitarrayHelper_unfold (conv : JSVal → Option TRI_json_t)
    (idx : TRI_index_t) (condition : JSVal) :
    SetupConditionsBitarrayHelper conv idx condition =
      match selectOperator condition with
      | none => none
      | some (operatorType, value) =>
        match operatorType with
        | TRI_AND_INDEX_OPERATOR | TRI_OR_INDEX_OPERATOR =>
          match value with
          | .array [leftValue, rightValue] =>
            if ! leftValue.IsObject || ! rightValue.IsObject then none
            else
              match SetupConditionsBitarrayHelper conv idx leftValue,
                  SetupConditionsBitarrayHelper conv idx rightValue with
              | some leftOp, some rightOp =>
                some (TRI_CreateIndexOperator operatorType (some leftOp) (some rightOp) none 0)
              | _, _ => none
          | _ => none
        | TRI_NOT_INDEX_OPERATOR =>
          if ! value.IsObject then none
          else
            match SetupConditionsBitarrayHelper conv idx value with
            | none => none
            | some leftOp => some (TRI_CreateIndexOperator operatorType (some leftOp) none none 0)
        | _ =>
          match SetupBitarrayAttributeValuesHelper conv idx value with
          | none => none
          | some parameters =>
            some (TRI_CreateIndexOperator operatorType none none (some (.list parameters))
              parameters.length) := by
  rw [SetupConditionsBitarrayHelper]
  split
  · rename_i h; rw [h]
  · rename_i ty v h
    simp only [h]
    cases ty <;> simp only [] <;> (try split) <;> first
      | rfl
      | (rename_i hx
         split
         · rename_i l r h'
           exact (hx l r h' rfl HEq.rfl).elim
         · rfl)

/-- The two operands of a connective are proper parts of the condition. -/
theorem sizeOf_operands {c : JSVal} {ty : TRI_index_operator_type_e} {l r : JSVal}
    (h : selectOperator c = some (ty, .array [l, r])) :
    sizeOf l < sizeOf c ∧ sizeOf r < sizeOf c := by
  have := sizeOf_selectOperator h
  simp at this
  constructor <;> omega

/-- The comparison nodes of a tree built by `SetupConditionsBitarrayHelper` carry one
value for each index field. -/
theorem SetupConditionsBitarrayHelper_leaves (conv : JSVal → Option TRI_json_t)
    (idx : TRI_index_t) :
    ∀ (n : Nat) (c : JSVal) (op : TRI_index_operator_t), sizeOf c = n →
      SetupConditionsBitarrayHelper conv idx c = some op →
      LeafLengths (· = idx._fields.length) op := by
  intro n
  induction n using Nat.strong_induction_on with
  | _ n ih =>
    intro c op hn h
    rw [SetupConditionsBitarrayHelper_unfold] at h
    split at h
    · cases h
    · rename_i ty value hsel
      have hsize : sizeOf value < n := by
        have := sizeOf_selectOperator hsel
        omega
      have hbin : ∀ (ty' : TRI_index_operator_type_e) (v : JSVal), sizeOf v < n →
          isRelationType ty' = false →
          (match v with
            | .array [leftValue, rightValue] =>
              if ! leftValue.IsObject || ! rightValue.IsObject then none
              else
                match SetupConditionsBitarrayHelper conv idx leftValue,
                    SetupConditionsBitarrayHelper conv idx rightValue with
                | some leftOp, some rightOp =>
                  some (TRI_CreateIndexOperator ty' (some leftOp) (some rightOp) none 0)
                | _, _ => none
            | _ => none) = some op → LeafLengths (· = idx._fields.length) op := by
        intro ty' v hv hty' h
        split at h
        · rename_i l r
          simp at hv
          split_ifs at h
          split at h
          · rename_i lo ro hlo hro
            injection h with h
            subst h
            have h1 := ih (sizeOf l) (by omega) l lo rfl hlo
            have h2 := ih (sizeOf r) (by omega) r ro rfl hro
            intro p hp
            simp only [TRI_CreateIndexOperator, relationNodes, hty', Bool.false_eq_true,
              if_false, List.nil_append, List.mem_append] at hp
            rcases hp with hp | hp
            · exact h1 p hp
            · exact h2 p hp
          · cases h
        · cases h
      have hrel : ∀ ty' : TRI_index_operator_type_e, isRelationType ty' = true →
          (match SetupBitarrayAttributeValuesHelper conv idx value with
            | none => none
            | some parameters =>
              some (TRI_CreateIndexOperator ty' none none (some (.list parameters))
                parameters.length)) = some op → LeafLengths (· = idx._fields.length) op := by
        intro ty' hty' h
        split at h
        · cases h
        · rename_i ps hps
          injection h with h
          subst h
          intro p hp
          simp only [TRI_CreateIndexOperator, relationNodes, hty', if_true,
            List.append_nil, List.mem_singleton] at hp
          exact ⟨ps, hp, SetupBitarrayAttributeValuesHelper_length conv idx value ps hps⟩
      cases ty
      case TRI_AND_INDEX_OPERATOR => exact hbin _ value hsize (by rfl) h
      case TRI_OR_INDEX_OPERATOR => exact hbin _ value hsize (by rfl) h
      case TRI_NOT_INDEX_OPERATOR =>
        simp only [] at h
        split_ifs at h
        split at h
        · cases h
        · rename_i lo hlo
          injection h with h
          subst h
          have h1 := ih (sizeOf value) hsize value lo rfl hlo
          intro p hp
          simp only [TRI_CreateIndexOperator, relationNodes, isRelationType,
            Bool.false_eq_true, if_false, List.nil_append, List.append_nil] at hp
          exact h1 p hp
      all_goals exact hrel _ (by rfl) h

/-- C7: each comparison leaf of an operator returned by `SetupConditionsSkiplist` or
`SetupExampleSkiplist` carries a value list that is not longer than the field list of the
index, and each comparison leaf of an operator returned by `SetupExampleBitarray` or
`SetupConditionsBitarray` carries exactly one value for each field of the index. -/
theorem builders_leaf_lengths (conv : JSVal → Option TRI_json_t) (idx : TRI_index_t)
    (input : JSVal) :
    (∀ op, SetupConditionsSkiplist conv idx input = some op →
      LeafLengths (· ≤ idx._fields.length) op) ∧
    (∀ op, SetupExampleSkiplist conv idx input = some op →
      LeafLengths (· ≤ idx._fields.length) op) ∧
    (∀ op, SetupExampleBitarray conv idx input = some op →
      LeafLengths (· = idx._fields.length) op) ∧
    (∀ op, SetupConditionsBitarray conv idx input = some op →
      LeafLengths (· = idx._fields.length) op) :=
  ⟨fun op h => SetupConditionsSkiplist_leaves conv idx input op h,
    fun op h => SetupExampleSkiplist_leaves conv idx input op h,
    fun op h => SetupExampleBitarray_leaves conv idx input op h,
    fun op h => SetupConditionsBitarrayHelper_leaves conv idx _ input op rfl h⟩

/-- C7 on an index with the fields `a`, `b`, `c`: the leaves built from the conditions
`a == 1`, `2 < b < 5` have at most three values. -/
theorem builders_leaf_lengths_witness :
    LeafLengths (· ≤ 3)
      (.mk TRI_AND_INDEX_OPERATOR
        (some (.mk TRI_AND_INDEX_OPERATOR
          (some (.mk TRI_EQ_INDEX_OPERATOR none none (some (.list [.number 1])) 1))
          (some (.mk TRI_GT_INDEX_OPERATOR none none (some (.list [.number 1, .number 2])) 2))
          none 2))
        (some (.mk TRI_LT_INDEX_OPERATOR none none (some (.list [.number 1, .number 5])) 2))
        none 2) :=
  (builders_leaf_lengths sampleObjectToJson ⟨.TRI_IDX_TYPE_SKIPLIST_INDEX, ["a", "b", "c"]⟩
    (.object [("a", .array [.array [.str "==", .num 1]]),
      ("b", .array [.array [.str ">", .num 2], .array [.str "<", .num 5]])])).1 _ (by rfl)

/-- C6 on the conditions `a == 1`, `2 < b < 5`: the operator is the chain of the `Eq` leaf
over `[1]` and the range leaves `Gt [1, 2]` and `Lt [1, 5]`. -/
theorem SetupConditionsSkiplist_shape_witness :
    SetupConditionsSkiplist sampleObjectToJson ⟨.TRI_IDX_TYPE_SKIPLIST_INDEX, ["a", "b", "c"]⟩
      (.object [("a", .array [.array [.str "==", .num 1]]),
        ("b", .array [.array [.str ">", .num 2], .array [.str "<", .num 5]])]) =
      some (prefixRangeOperator [.number 1] (TRI_GT_INDEX_OPERATOR, .number 2)
        [(TRI_LT_INDEX_OPERATOR, .number 5)]) ∧
    ((∃ eqs, eqs ≠ [] ∧
        prefixRangeOperator [.number 1] (TRI_GT_INDEX_OPERATOR, .number 2)
          [(TRI_LT_INDEX_OPERATOR, .number 5)] = eqLeaf eqs) ∨
      (∃ eqs r0 rs, (∀ r ∈ r0 :: rs, isRangeType r.1 = true) ∧
        prefixRangeOperator [.number 1] (TRI_GT_INDEX_OPERATOR, .number 2)
          [(TRI_LT_INDEX_OPERATOR, .number 5)] = prefixRangeOperator eqs r0 rs)) :=
  ⟨by rfl,
    SetupConditionsSkiplist_shape sampleObjectToJson
      ⟨.TRI_IDX_TYPE_SKIPLIST_INDEX, ["a", "b", "c"]⟩
      (.object [("a", .array [.array [.str "==", .num 1]]),
        ("b", .array [.array [.str ">", .num 2], .array [.str "<", .num 5]])]) _ (by rfl)⟩

/-! ### A condition after the range field (C5) and empty condition lists (C8) -/

/-- Once a range condition was accepted for an earlier field, any condition of another
field is a jump to `MEM_ERROR`. -/
theorem conditionLoop_blocked (conv : JSVal → Option TRI_json_t) (i : Nat) (x : JSVal)
    (xs : List JSVal) (st : SkiplistState) (hpos : 0 < st.lastNonEq)
    (hne : st.lastNonEq ≠ i) : conditionLoop conv i (x :: xs) st = none := by
  unfold conditionLoop
  split
  · split
    · split
      · rfl
      · rename_i opValue _ json hjson
        by_cases heq : opValue = "=="
        · rw [if_pos heq, if_pos hpos]
        · rw [if_neg heq, if_pos (show st.lastNonEq > 0 ∧ st.lastNonEq ≠ i from ⟨hpos, hne⟩)]
    · rfl
  · rfl

/-- A range field stays recorded. -/
theorem conditionLoop_lastNonEq_pos (conv : JSVal → Option TRI_json_t) (i : Nat) (hi : 0 < i) :
    ∀ (values : List JSVal) (st st' : SkiplistState), 0 < st.lastNonEq →
      conditionLoop conv i values st = some st' → 0 < st'.lastNonEq := by
  intro values
  induction values with
  | nil =>
    intro st st' hpos h
    simp only [conditionLoop] at h
    injection h with h
    subst h
    exact hpos
  | cons x xs ih =>
    intro st st' hpos h
    unfold conditionLoop at h
    split at h
    · split at h
      · split at h
        · cases h
        · rename_i opValue _ json hjson
          by_cases heq : opValue = "=="
          · rw [if_pos heq, if_pos hpos] at h
            cases h
          · rw [if_neg heq] at h
            by_cases hbad : st.lastNonEq > 0 ∧ st.lastNonEq ≠ i
            · rw [if_pos hbad] at h; cases h
            · rw [if_neg hbad] at h
              split at h
              · cases h
              · exact ih _ st' hi h
      · cases h
    · cases h

/-- A condition list that starts with a range condition leaves a range field recorded. -/
theorem conditionLoop_range_first (conv : JSVal → Option TRI_json_t) (i : Nat) (hi : 0 < i)
    (opValue : String) (value : JSVal) (rest : List JSVal) (st st' : SkiplistState)
    (hop : opValue = ">" ∨ opValue = ">=" ∨ opValue = "<" ∨ opValue = "<=")
    (h : conditionLoop conv i (.array [.str opValue, value] :: rest) st = some st') :
    0 < st'.lastNonEq := by
  have hne : opValue ≠ "==" := by
    rcases hop with h | h | h | h <;> (subst h; decide)
  unfold conditionLoop at h
  simp only [] at h
  split at h
  · cases h
  · rw [if_neg hne] at h
    by_cases hbad : st.lastNonEq > 0 ∧ st.lastNonEq ≠ i
    · rw [if_pos hbad] at h; cases h
    · rw [if_neg hbad] at h
      split at h
      · cases h
      · exact conditionLoop_lastNonEq_pos conv i hi rest _ st' hi h

/-- After a range field the loop over the index fields fails at the next field that has
a non-empty condition list, when every field before it has a condition list. -/
theorem fieldLoop_blocked (conv : JSVal → Option TRI_json_t) (conditions : JSVal)
    (g : String) (post : List String) (x : JSVal) (xs : List JSVal)
    (hg : conditions.getOwn g = some (.array (x :: xs))) :
    ∀ (mid : List String) (j : Nat) (st : SkiplistState),
      0 < st.lastNonEq → st.lastNonEq < j →
      (∀ k ∈ mid, ∃ l, conditions.getOwn k = some (.array l)) →
      fieldLoop conv conditions j (mid ++ g :: post) st = none := by
  intro mid
  induction mid with
  | nil =>
    intro j st hpos hlt _
    simp only [List.nil_append]
    unfold fieldLoop
    rw [hg]
    simp only []
    rw [conditionLoop_blocked conv j x xs st hpos (by omega)]
  | cons m ms ih =>
    intro j st hpos hlt hmid
    obtain ⟨l, hl⟩ := hmid m (by simp)
    simp only [List.cons_append]
    unfold fieldLoop
    rw [hl]
    simp only []
    cases l with
    | nil =>
      simp only [conditionLoop]
      exact ih (j + 1) st hpos (by omega) (fun k hk => hmid k (List.mem_cons_of_mem _ hk))
    | cons y ys =>
      rw [conditionLoop_blocked conv j y ys st hpos (by omega)]

/-- The loop over the index fields on a list of fields that starts with fields which all
have a condition list. -/
theorem fieldLoop_append (conv : JSVal → Option TRI_json_t) (conditions : JSVal)
    (rest : List String) :
    ∀ (pre : List String) (i : Nat) (st : SkiplistState),
      (∀ k ∈ pre, ∃ l, conditions.getOwn k = some (.array l)) →
      fieldLoop conv conditions i (pre ++ rest) st =
        (fieldLoop conv conditions i pre st).bind
          (fun st' => fieldLoop conv conditions (i + pre.length) rest st') := by
  intro pre
  induction pre with
  | nil =>
    intro i st _
    simp [fieldLoop]
  | cons p ps ih =>
    intro i st hpre
    obtain ⟨l, hl⟩ := hpre p (by simp)
    simp only [List.cons_append]
    rw [fieldLoop, fieldLoop, hl]
    simp only []
    cases hc : conditionLoop conv i l st with
    | none => simp
    | some st1 =>
      simp only []
      rw [ih (i + 1) st1 (fun k hk => hpre k (List.mem_cons_of_mem _ hk))]
      simp only [List.length_cons]
      have e : i + 1 + ps.length = i + (ps.length + 1) := by omega
      rw [e]

/-- C5 (amended): when the conditions object gives a condition list to every index field
up to a field `g`, the list of an earlier field `f` starts with a range condition
(`>`, `>=`, `<`, `<=`) and the list of `g` is not empty, `SetupConditionsSkiplist` returns
no operator: a condition on a field after the range field is rejected, not left out. -/
theorem SetupConditionsSkiplist_range_blocks (conv : JSVal → Option TRI_json_t)
    (idx : TRI_index_t) (conditions : JSVal) (pre mid post : List String) (f g : String)
    (opValue : String) (value : JSVal) (restF : List JSVal) (x : JSVal) (xs : List JSVal)
    (hfields : idx._fields = pre ++ f :: (mid ++ g :: post))
    (hpre : ∀ k ∈ pre, ∃ l, conditions.getOwn k = some (.array l))
    (hf : conditions.getOwn f = some (.array (.array [.str opValue, value] :: restF)))
    (hop : opValue = ">" ∨ opValue = ">=" ∨ opValue = "<" ∨ opValue = "<=")
    (hmid : ∀ k ∈ mid, ∃ l, conditions.getOwn k = some (.array l))
    (hg : conditions.getOwn g = some (.array (x :: xs))) :
    SetupConditionsSkiplist conv idx conditions = none := by
  have hloop : fieldLoop conv conditions 1 idx._fields
      { parameters := [], numEq := 0, lastNonEq := 0, lastOperator := none } = none := by
    rw [hfields, fieldLoop_append conv conditions _ pre 1 _ hpre]
    cases h1 : fieldLoop conv conditions 1 pre
        { parameters := [], numEq := 0, lastNonEq := 0, lastOperator := none } with
    | none => rfl
    | some s1 =>
      simp only [Option.bind]
      have hinv1 : SkiplistInv pre.length pre.length s1 := by
        have h0 : SkiplistInv 0 0
            { parameters := [], numEq := 0, lastNonEq := 0, lastOperator := none } :=
          Or.inl ⟨rfl, rfl, rfl, by simp⟩
        have := fieldLoop_inv conv conditions pre 0 _ s1 h0 h1
        simpa using this
      rw [fieldLoop, hf]
      simp only []
      have e1 : 1 + pre.length = pre.length + 1 := by omega
      rw [e1]
      cases h2 : conditionLoop conv (pre.length + 1)
          (.array [.str opValue, value] :: restF) s1 with
      | none => rfl
      | some s2 =>
        simp only []
        have hpos := conditionLoop_range_first conv (pre.length + 1) (by omega) opValue value
          restF s1 s2 hop h2
        have hinv2 := conditionLoop_inv conv pre.length _ s1 s2
          (SkiplistInv_mono (le_refl _) (by omega) hinv1) h2
        have hle : s2.lastNonEq ≤ pre.length + 1 := by
          rcases hinv2 with ⟨h0, _⟩ | ⟨_, hb, _⟩
          · omega
          · exact hb
        exact fieldLoop_blocked conv conditions g post x xs hg mid _ s2 hpos (by omega) hmid
  unfold SetupConditionsSkiplist
  rw [hloop]

/-- C5 (amended) on an index with the fields `a`, `b`, `c`, `d` and the conditions
`a == 1`, `2 < b < 9`, no condition for `c`, `d == 3`: no operator is returned. -/
theorem SetupConditionsSkiplist_range_blocks_witness :
    SetupConditionsSkiplist sampleObjectToJson
      ⟨.TRI_IDX_TYPE_SKIPLIST_INDEX, ["a", "b", "c", "d"]⟩
      (.object [("a", .array [.array [.str "==", .num 1]]),
        ("b", .array [.array [.str ">", .num 2], .array [.str "<", .num 9]]),
        ("c", .array []),
        ("d", .array [.array [.str "==", .num 3]])]) = none :=
  SetupConditionsSkiplist_range_blocks sampleObjectToJson
    ⟨.TRI_IDX_TYPE_SKIPLIST_INDEX, ["a", "b", "c", "d"]⟩ _ ["a"] ["c"] [] "b" "d" ">" (.num 2)
    [.array [.str "<", .num 9]] (.array [.str "==", .num 3]) [] (by rfl)
    (by intro k hk; simp only [List.mem_singleton] at hk; subst hk; exact ⟨_, by rfl⟩)
    (by rfl) (Or.inl rfl)
    (by intro k hk; simp only [List.mem_singleton] at hk; subst hk; exact ⟨_, by rfl⟩)
    (by rfl)

/-- C5 as stated fails: on an index with the fields `a`, `b`, `c` and the conditions
`a == 1`, `b > 2`, `c == 3`, `SetupConditionsSkiplist` returns no operator, and not an
operator built from `a` and `b`. -/
theorem SetupConditionsSkiplist_abc_counterexample :
    SetupConditionsSkiplist sampleObjectToJson ⟨.TRI_IDX_TYPE_SKIPLIST_INDEX, ["a", "b", "c"]⟩
      (.object [("a", .array [.array [.str "==", .num 1]]),
        ("b", .array [.array [.str ">", .num 2]]),
        ("c", .array [.array [.str "==", .num 3]])]) = none := by
  rfl

/-- C8 at its failing input: on an index with the fields `a`, `b` and the conditions
object `{ a: [], b: [["==", 5]] }`, `SetupConditionsSkiplist` returns the `Eq` leaf over
`[5]`: the value at position 0 is the comparison value given for `b`, the field at
position 1, and the conditions object gives no value for `a`. -/
theorem SetupConditionsSkiplist_empty_list_shifts :
    SetupConditionsSkiplist sampleObjectToJson ⟨.TRI_IDX_TYPE_SKIPLIST_INDEX, ["a", "b"]⟩
      (.object [("a", .array []), ("b", .array [.array [.str "==", .num 5]])]) =
      some (.mk TRI_EQ_INDEX_OPERATOR none none (some (.list [.number 5])) 1) := by
  rfl


/-! ### Keys of bitarray conditions (C9) and well-formed conditions (C10) -/

/-- One step of the search for the first recognised key. -/
theorem findSome_getOwn_cons (c : JSVal) (key : String) (type : TRI_index_operator_type_e)
    (rest : List (String × TRI_index_operator_type_e)) :
    List.findSome? (fun p => (c.getOwn p.1).map (fun value => (p.2, value)))
        ((key, type) :: rest) =
      match c.getOwn key with
      | some value => some (type, value)
      | none => List.findSome? (fun p => (c.getOwn p.1).map (fun value => (p.2, value))) rest := by
  simp only [List.findSome?]
  cases c.getOwn key <;> rfl

/-- The chain of tests of `SetupConditionsBitarrayHelper` picks the first recognised key
of the table `recognisedKeys`. -/
theorem selectOperator_eq_firstRecognised (c : JSVal) :
    selectOperator c = firstRecognised c := by
  unfold selectOperator firstRecognised recognisedKeys
  simp only [findSome_getOwn_cons, List.findSome?_nil]
  cases c.getOwn "&" with
  | some _ => rfl
  | none =>
  cases c.getOwn "&&" with
  | some _ => rfl
  | none =>
  cases c.getOwn "and" with
  | some _ => rfl
  | none =>
  cases c.getOwn "|" with
  | some _ => rfl
  | none =>
  cases c.getOwn "||" with
  | some _ => rfl
  | none =>
  cases c.getOwn "or" with
  | some _ => rfl
  | none =>
  cases c.getOwn "!" with
  | some _ => rfl
  | none =>
  cases c.getOwn "not" with
  | some _ => rfl
  | none =>
  cases c.getOwn "==" with
  | some _ => rfl
  | none =>
  cases c.getOwn "=" with
  | some _ => rfl
  | none =>
  cases c.getOwn "eq" with
  | some _ => rfl
  | none =>
  cases c.getOwn "!=" with
  | some _ => rfl
  | none =>
  cases c.getOwn "<>" with
  | some _ => rfl
  | none =>
  cases c.getOwn "ne" with
  | some _ => rfl
  | none =>
  cases c.getOwn "<=" with
  | some _ => rfl
  | none =>
  cases c.getOwn "le" with
  | some _ => rfl
  | none =>
  cases c.getOwn "<" with
  | some _ => rfl
  | none =>
  cases c.getOwn "lt" with
  | some _ => rfl
  | none =>
  cases c.getOwn ">=" with
  | some _ => rfl
  | none =>
  cases c.getOwn "ge" with
  | some _ => rfl
  | none =>
  cases c.getOwn ">" with
  | some _ => rfl
  | none =>
  cases c.getOwn "gt" with
  | some _ => rfl
  | none =>
  rfl


/-- In a table without repeated keys, the search finds the only key that the condition
has. -/
theorem findSome_only_key (c : JSVal) (key : String) (type : TRI_index_operator_type_e)
    (value : JSVal) (hget : c.getOwn key = some value) :
    ∀ (table : List (String × TRI_index_operator_type_e)),
      (table.map Prod.fst).Nodup → (key, type) ∈ table →
      (∀ other ∈ table.map Prod.fst, other ≠ key → c.getOwn other = none) →
      List.findSome? (fun p => (c.getOwn p.1).map (fun value => (p.2, value))) table =
        some (type, value) := by
  intro table
  induction table with
  | nil => intro _ hmem; simp at hmem
  | cons p rest ih =>
    intro hnodup hmem hothers
    obtain ⟨k0, t0⟩ := p
    rw [findSome_getOwn_cons]
    simp only [List.map_cons, List.nodup_cons] at hnodup
    by_cases hk : k0 = key
    · subst hk
      rw [hget]
      simp only [List.mem_cons, Prod.mk.injEq, true_and] at hmem
      rcases hmem with hmem | hmem
      · rw [hmem]
      · exact absurd (List.mem_map_of_mem Prod.fst hmem) hnodup.1
    · rw [hothers k0 (by simp) hk]
      simp only []
      refine ih hnodup.2 ?_ (fun other ho hne => hothers other ?_ hne)
      · simp only [List.mem_cons, Prod.mk.injEq] at hmem
        rcases hmem with ⟨h1, _⟩ | hmem
        · exact absurd h1.symm hk
        · exact hmem
      · simp only [List.map_cons, List.mem_cons]
        exact Or.inr ho

/-- A condition with exactly one recognised key selects the operator of that key. -/
theorem selectOperator_only_key (c : JSVal) (key : String) (type : TRI_index_operator_type_e)
    (value : JSVal) (hmem : (key, type) ∈ recognisedKeys)
    (honly : OnlyRecognisedKey c key value) : selectOperator c = some (type, value) := by
  rw [selectOperator_eq_firstRecognised]
  exact findSome_only_key c key type value honly.1 recognisedKeys (by decide) hmem honly.2

/-- The root of the tree returned by `SetupConditionsBitarrayHelper` has the operator
selected at the head of the function. -/
theorem SetupConditionsBitarrayHelper_type (conv : JSVal → Option TRI_json_t)
    (idx : TRI_index_t) (c : JSVal) (type : TRI_index_operator_type_e) (value : JSVal)
    (op : TRI_index_operator_t) (hsel : selectOperator c = some (type, value))
    (h : SetupConditionsBitarrayHelper conv idx c = some op) : op.type = type := by
  rw [SetupConditionsBitarrayHelper_unfold, hsel] at h
  simp only [] at h
  cases type <;> simp only [] at h <;>
    (repeat' split at h) <;> cases h <;> rfl

/-- The result of `SetupConditionsBitarrayHelper` on an operand pair depends only on the
results for the two operands. -/
theorem binary_congr (conv : JSVal → Option TRI_json_t) (idx : TRI_index_t)
    (type : TRI_index_operator_type_e) (l r l' r' : JSVal)
    (hl : l.IsObject = l'.IsObject) (hr : r.IsObject = r'.IsObject)
    (h1 : SetupConditionsBitarrayHelper conv idx l = SetupConditionsBitarrayHelper conv idx l')
    (h2 : SetupConditionsBitarrayHelper conv idx r = SetupConditionsBitarrayHelper conv idx r') :
    (if ! l.IsObject || ! r.IsObject then none
      else
        match SetupConditionsBitarrayHelper conv idx l,
            SetupConditionsBitarrayHelper conv idx r with
        | some leftOp, some rightOp =>
          some (TRI_CreateIndexOperator type (some leftOp) (some rightOp) none 0)
        | _, _ => none) =
    (if ! l'.IsObject || ! r'.IsObject then none
      else
        match SetupConditionsBitarrayHelper conv idx l',
            SetupConditionsBitarrayHelper conv idx r' with
        | some leftOp, some rightOp =>
          some (TRI_CreateIndexOperator type (some leftOp) (some rightOp) none 0)
        | _, _ => none) := by
  rw [hl, hr, h1, h2]

/-- A value that has an own property is an object. -/
theorem IsObject_of_getOwn {c : JSVal} {key : String} {v : JSVal}
    (h : c.getOwn key = some v) : c.IsObject = true := by
  cases c <;> first | rfl | simp [JSVal.getOwn] at h

/-- Synonymous conditions are objects together. -/
theorem Synonymous_IsObject {c c' : JSVal} (h : Synonymous c c') :
    c.IsObject = c'.IsObject := by
  cases h with
  | refl => rfl
  | connective _ _ _ h1 h2 _ _ => rw [IsObject_of_getOwn h1.1, IsObject_of_getOwn h2.1]
  | negation _ _ h1 h2 _ => rw [IsObject_of_getOwn h1.1, IsObject_of_getOwn h2.1]
  | sameValue _ _ h1 h2 => rw [IsObject_of_getOwn h1.1, IsObject_of_getOwn h2.1]

/-- Synonymous conditions are compiled to the same operator tree. -/
theorem Synonymous_same_operator (conv : JSVal → Option TRI_json_t) (idx : TRI_index_t)
    {c c' : JSVal} (h : Synonymous c c') :
    SetupConditionsBitarrayHelper conv idx c = SetupConditionsBitarrayHelper conv idx c' := by
  induction h with
  | refl => rfl
  | @connective c c' key key' type l r l' r' hk hk' hty h1 h2 hl hr ihl ihr =>
    rw [SetupConditionsBitarrayHelper_unfold conv idx c,
      SetupConditionsBitarrayHelper_unfold conv idx c',
      selectOperator_only_key c key type _ hk h1, selectOperator_only_key c' key' type _ hk' h2]
    have hc := binary_congr conv idx type l r l' r' (Synonymous_IsObject hl)
      (Synonymous_IsObject hr) ihl ihr
    rcases hty with hty | hty <;> (subst hty; exact hc)
  | @negation c c' key key' v v' hk hk' h1 h2 hv ih =>
    rw [SetupConditionsBitarrayHelper_unfold conv idx c,
      SetupConditionsBitarrayHelper_unfold conv idx c',
      selectOperator_only_key c key _ _ hk h1, selectOperator_only_key c' key' _ _ hk' h2]
    simp only []
    rw [Synonymous_IsObject hv, ih]
  | @sameValue c c' key key' type v hk hk' h1 h2 =>
    rw [SetupConditionsBitarrayHelper_unfold conv idx c,
      SetupConditionsBitarrayHelper_unfold conv idx c',
      selectOperator_only_key c key type _ hk h1, selectOperator_only_key c' key' type _ hk' h2]

/-- The trees built by `SetupConditionsBitarrayHelper` have two children at `And` and
`Or` nodes, one child at `Not` nodes and none at comparison nodes. -/
theorem SetupConditionsBitarrayHelper_arity (conv : JSVal → Option TRI_json_t)
    (idx : TRI_index_t) :
    ∀ (n : Nat) (c : JSVal) (op : TRI_index_operator_t), sizeOf c = n →
      SetupConditionsBitarrayHelper conv idx c = some op → arityOk op = true := by
  intro n
  induction n using Nat.strong_induction_on with
  | _ n ih =>
    intro c op hn h
    rw [SetupConditionsBitarrayHelper_unfold] at h
    split at h
    · cases h
    · rename_i ty value hsel
      have hsize : sizeOf value < n := by
        have := sizeOf_selectOperator hsel
        omega
      have hbin : ∀ (ty' : TRI_index_operator_type_e) (v : JSVal), sizeOf v < n →
          ty' = TRI_AND_INDEX_OPERATOR ∨ ty' = TRI_OR_INDEX_OPERATOR →
          (match v with
            | .array [leftValue, rightValue] =>
              if ! leftValue.IsObject || ! rightValue.IsObject then none
              else
                match SetupConditionsBitarrayHelper conv idx leftValue,
                    SetupConditionsBitarrayHelper conv idx rightValue with
                | some leftOp, some rightOp =>
                  some (TRI_CreateIndexOperator ty' (some leftOp) (some rightOp) none 0)
                | _, _ => none
            | _ => none) = some op → arityOk op = true := by
        intro ty' v hv hty' h
        split at h
        · rename_i l r
          simp at hv
          split_ifs at h
          split at h
          · rename_i lo ro hlo hro
            injection h with h
            subst h
            have h1 := ih (sizeOf l) (by omega) l lo rfl hlo
            have h2 := ih (sizeOf r) (by omega) r ro rfl hro
            rcases hty' with hty' | hty' <;>
              (subst hty'; simp [TRI_CreateIndexOperator, arityOk, h1, h2])
          · cases h
        · cases h
      have hrel : ∀ ty' : TRI_index_operator_type_e, isRelationType ty' = true →
          (match SetupBitarrayAttributeValuesHelper conv idx value with
            | none => none
            | some parameters =>
              some (TRI_CreateIndexOperator ty' none none (some (.list parameters))
                parameters.length)) = some op → arityOk op = true := by
        intro ty' hty' h
        split at h
        · cases h
        · injection h with h
          subst h
          cases ty' <;> simp_all [TRI_CreateIndexOperator, arityOk, isRelationType]
      cases ty
      case TRI_AND_INDEX_OPERATOR => exact hbin _ value hsize (Or.inl rfl) h
      case TRI_OR_INDEX_OPERATOR => exact hbin _ value hsize (Or.inr rfl) h
      case TRI_NOT_INDEX_OPERATOR =>
        simp only [] at h
        split_ifs at h
        split at h
        · cases h
        · rename_i lo hlo
          injection h with h
          subst h
          have h1 := ih (sizeOf value) hsize value lo rfl hlo
          simp [TRI_CreateIndexOperator, arityOk, h1]
      all_goals exact hrel _ (by rfl) h

/-- C9: a condition object with exactly one recognised key is compiled by
`SetupConditionsBitarrayHelper` with the operator of that key (`&`, `&&`, `and` give `And`;
`|`, `||`, `or` give `Or`; `!`, `not` give `Not`; `==`, `=`, `eq` give `Eq`; `!=`, `<>`,
`ne` give `Ne`; `<=`, `le` give `Le`; `<`, `lt` give `Lt`; `>=`, `ge` give `Ge`; `>`, `gt`
give `Gt`); conditions that differ only in the choice among synonymous keys, at any
depth, yield the same operator tree; and in every tree returned `And` and `Or` nodes have
exactly two children, `Not` nodes exactly one and comparison nodes none. -/
theorem bitarray_condition_keys (conv : JSVal → Option TRI_json_t) (idx : TRI_index_t) :
    (∀ (c : JSVal) (key : String) (type : TRI_index_operator_type_e) (value : JSVal),
      (key, type) ∈ recognisedKeys → OnlyRecognisedKey c key value →
      selectOperator c = some (type, value) ∧
      ∀ op, SetupConditionsBitarrayHelper conv idx c = some op → op.type = type) ∧
    (∀ c c' : JSVal, Synonymous c c' →
      SetupConditionsBitarrayHelper conv idx c = SetupConditionsBitarrayHelper conv idx c') ∧
    (∀ (c : JSVal) (op : TRI_index_operator_t),
      SetupConditionsBitarrayHelper conv idx c = some op → arityOk op = true) :=
  ⟨fun c key type value hk honly =>
      ⟨selectOperator_only_key c key type value hk honly,
        fun op h => SetupConditionsBitarrayHelper_type conv idx c type value op
          (selectOperator_only_key c key type value hk honly) h⟩,
    fun _ _ h => Synonymous_same_operator conv idx h,
    fun c op h => SetupConditionsBitarrayHelper_arity conv idx _ c op rfl h⟩

/-- An object whose only property is `key`. -/
theorem OnlyRecognisedKey_single (key : String) (value : JSVal) :
    OnlyRecognisedKey (.object [(key, value)]) key value := by
  constructor
  · simp [JSVal.getOwn, List.lookup]
  · intro other _ hne
    have hb : (other == key) = false := by simpa using hne
    simp [JSVal.getOwn, List.lookup, hb]

/-- C9 on the condition `a == 1 and not (b < 2)` written with two choices of keys: both
are compiled to the same tree, whose root is an `And`. -/
theorem bitarray_condition_keys_witness :
    SetupConditionsBitarrayHelper sampleObjectToJson ⟨.TRI_IDX_TYPE_BITARRAY_INDEX, ["a", "b"]⟩
        (.object [("and", .array [.object [("==", .object [("a", .num 1)])],
          .object [("not", .object [("lt", .object [("b", .num 2)])])]])]) =
      SetupConditionsBitarrayHelper sampleObjectToJson ⟨.TRI_IDX_TYPE_BITARRAY_INDEX, ["a", "b"]⟩
        (.object [("&&", .array [.object [("=", .object [("a", .num 1)])],
          .object [("!", .object [("<", .object [("b", .num 2)])])]])]) ∧
    selectOperator (.object [("and", .array [.object [("==", .object [("a", .num 1)])],
          .object [("not", .object [("lt", .object [("b", .num 2)])])]])]) =
      some (TRI_AND_INDEX_OPERATOR, .array [.object [("==", .object [("a", .num 1)])],
          .object [("not", .object [("lt", .object [("b", .num 2)])])]]) := by
  have h := bitarray_condition_keys sampleObjectToJson
    ⟨.TRI_IDX_TYPE_BITARRAY_INDEX, ["a", "b"]⟩
  refine ⟨h.2.1 _ _ ?_, (h.1 _ "and" TRI_AND_INDEX_OPERATOR _ (by decide)
    (OnlyRecognisedKey_single _ _)).1⟩
  exact @Synonymous.connective _ _ "and" "&&" TRI_AND_INDEX_OPERATOR _ _ _ _
    (by decide) (by decide) (Or.inl rfl)
    (OnlyRecognisedKey_single _ _) (OnlyRecognisedKey_single _ _)
    (@Synonymous.sameValue _ _ "==" "=" TRI_EQ_INDEX_OPERATOR _
      (by decide) (by decide) (OnlyRecognisedKey_single _ _) (OnlyRecognisedKey_single _ _))
    (@Synonymous.negation _ _ "not" "!" _ _ (by decide) (by decide)
      (OnlyRecognisedKey_single _ _) (OnlyRecognisedKey_single _ _)
      (@Synonymous.sameValue _ _ "lt" "<" TRI_LT_INDEX_OPERATOR _
        (by decide) (by decide) (OnlyRecognisedKey_single _ _)
        (OnlyRecognisedKey_single _ _)))

/-- When every conversion succeeds, the loop of `SetupBitarrayAttributeValuesHelper`
yields a list. -/
theorem attributeValuesLoop_isSome (conv : JSVal → Option TRI_json_t)
    (hconv : ∀ v, conv v ≠ none) (attributeValues : JSVal) :
    ∀ (fields : List String) (ps : List TRI_json_t),
      ∃ ps', attributeValuesLoop conv attributeValues fields ps = some ps' := by
  intro fields
  induction fields with
  | nil => intro ps; exact ⟨ps, rfl⟩
  | cons key rest ih =>
    intro ps
    unfold attributeValuesLoop
    split
    · rename_i value _
      split
      · rename_i hnone
        exact absurd hnone (hconv value)
      · exact ih _
    · exact ih _

/-- `SetupConditionsBitarrayHelper` returns an operator only for a well-formed
condition. -/
theorem WellFormed_of_operator (conv : JSVal → Option TRI_json_t) (idx : TRI_index_t) :
    ∀ (n : Nat) (c : JSVal) (op : TRI_index_operator_t), sizeOf c = n →
      SetupConditionsBitarrayHelper conv idx c = some op → WellFormed c := by
  intro n
  induction n using Nat.strong_induction_on with
  | _ n ih =>
    intro c op hn h
    rw [SetupConditionsBitarrayHelper_unfold] at h
    split at h
    · cases h
    · rename_i ty value hsel
      have hsize : sizeOf value < n := by
        have := sizeOf_selectOperator hsel
        omega
      rw [selectOperator_eq_firstRecognised] at hsel
      have hbin : ∀ (ty' : TRI_index_operator_type_e) (v : JSVal), sizeOf v < n →
          ty' = TRI_AND_INDEX_OPERATOR ∨ ty' = TRI_OR_INDEX_OPERATOR →
          firstRecognised c = some (ty', v) →
          (match v with
            | .array [leftValue, rightValue] =>
              if ! leftValue.IsObject || ! rightValue.IsObject then none
              else
                match SetupConditionsBitarrayHelper conv idx leftValue,
                    SetupConditionsBitarrayHelper conv idx rightValue with
                | some leftOp, some rightOp =>
                  some (TRI_CreateIndexOperator ty' (some leftOp) (some rightOp) none 0)
                | _, _ => none
            | _ => none) = some op → WellFormed c := by
        intro ty' v hv hty' hfirst h
        split at h
        · rename_i l r
          simp at hv
          split_ifs at h with hobj
          simp only [Bool.or_eq_true, Bool.not_eq_true', not_or, Bool.not_eq_false] at hobj
          split at h
          · rename_i lo ro hlo hro
            exact WellFormed.connective hfirst hty' hobj.1 hobj.2
              (ih (sizeOf l) (by omega) l lo rfl hlo) (ih (sizeOf r) (by omega) r ro rfl hro)
          · cases h
        · cases h
      have hrel : ∀ ty' : TRI_index_operator_type_e, isRelationType ty' = true →
          firstRecognised c = some (ty', value) →
          (match SetupBitarrayAttributeValuesHelper conv idx value with
            | none => none
            | some parameters =>
              some (TRI_CreateIndexOperator ty' none none (some (.list parameters))
                parameters.length)) = some op → WellFormed c := by
        intro ty' hty' hfirst h
        split at h
        · cases h
        · rename_i ps hps
          unfold SetupBitarrayAttributeValuesHelper at hps
          split_ifs at hps with hobj
          simp only [Bool.not_eq_true', Bool.not_eq_false] at hobj
          exact WellFormed.comparison hfirst hty' hobj
      cases ty
      case TRI_AND_INDEX_OPERATOR => exact hbin _ value hsize (Or.inl rfl) hsel h
      case TRI_OR_INDEX_OPERATOR => exact hbin _ value hsize (Or.inr rfl) hsel h
      case TRI_NOT_INDEX_OPERATOR =>
        simp only [] at h
        split_ifs at h with hobj
        simp only [Bool.not_eq_true', Bool.not_eq_false] at hobj
        split at h
        · cases h
        · rename_i lo hlo
          exact WellFormed.negation hsel hobj (ih (sizeOf value) hsize value lo rfl hlo)
      all_goals exact hrel _ (by rfl) hsel h

/-- When every conversion succeeds, `SetupConditionsBitarrayHelper` returns an operator
for every well-formed condition. -/
theorem operator_of_WellFormed (conv : JSVal → Option TRI_json_t)
    (hconv : ∀ v, conv v ≠ none) (idx : TRI_index_t) {c : JSVal} (h : WellFormed c) :
    ∃ op, SetupConditionsBitarrayHelper conv idx c = some op := by
  induction h with
  | @connective c l r type hfirst hty hl hr _ _ ihl ihr =>
    obtain ⟨lo, hlo⟩ := ihl
    obtain ⟨ro, hro⟩ := ihr
    rw [SetupConditionsBitarrayHelper_unfold, selectOperator_eq_firstRecognised, hfirst]
    rcases hty with hty | hty <;>
      (subst hty; simp only [hl, hr, hlo, hro]; exact ⟨_, rfl⟩)
  | @negation c v hfirst hv _ ih =>
    obtain ⟨lo, hlo⟩ := ih
    rw [SetupConditionsBitarrayHelper_unfold, selectOperator_eq_firstRecognised, hfirst]
    simp only [hv, hlo]
    exact ⟨_, rfl⟩
  | @comparison c v type hfirst hty hv =>
    rw [SetupConditionsBitarrayHelper_unfold, selectOperator_eq_firstRecognised, hfirst]
    obtain ⟨ps, hps⟩ := attributeValuesLoop_isSome conv hconv v idx._fields []
    have hh : SetupBitarrayAttributeValuesHelper conv idx v = some ps := by
      unfold SetupBitarrayAttributeValuesHelper
      simp [hv, hps]
    cases type <;> simp [isRelationType] at hty <;> simp [hh]

/-- C10: when every value conversion succeeds (and with allocation that does not fail),
`SetupConditionsBitarrayHelper` returns an operator if and only if the condition is
well-formed; for a condition that is not well-formed no operator is returned, and
`ExecuteBitarrayQuery`, once it has found the bitarray index, raises `BadParameter`
without a lookup in the index. -/
theorem bitarray_condition_wellformed (env : Env)
    (hconv : ∀ v, env.TRI_ObjectToJson v ≠ none) :
    (∀ (idx : TRI_index_t) (c : JSVal),
      (∃ op, SetupConditionsBitarrayHelper env.TRI_ObjectToJson idx c = some op) ↔
        WellFormed c) ∧
    (∀ (argv : List JSVal) (signature : String) (idx : TRI_index_t),
      2 ≤ argv.length → (argv.getD 1 .undefined).IsObject = true →
      env.col = true → env.sharding = none → env.trxBegin = TRI_ERROR_NO_ERROR →
      env.TRI_LookupIndexByHandle (argv.getD 0 .undefined) = .ok idx →
      idx._type = .TRI_IDX_TYPE_BITARRAY_INDEX → env.orderBarrier = true →
      ¬ WellFormed (argv.getD 1 .undefined) →
      ExecuteBitarrayQuery env argv signature QUERY_CONDITION =
        ⟨.exception (TRI_V8_EXCEPTION TRI_ERROR_BAD_PARAMETER), []⟩) := by
  have hiff : ∀ (idx : TRI_index_t) (c : JSVal),
      (∃ op, SetupConditionsBitarrayHelper env.TRI_ObjectToJson idx c = some op) ↔
        WellFormed c := fun idx c =>
    ⟨fun ⟨op, h⟩ => WellFormed_of_operator env.TRI_ObjectToJson idx _ c op rfl h,
      fun h => operator_of_WellFormed env.TRI_ObjectToJson hconv idx h⟩
  refine ⟨hiff, ?_⟩
  intro argv signature idx hlen hobj hcol hshard htrx hidx hty hbar hwf
  have hnone : SetupConditionsBitarrayHelper env.TRI_ObjectToJson idx
      (argv.getD 1 .undefined) = none := by
    cases hh : SetupConditionsBitarrayHelper env.TRI_ObjectToJson idx (argv.getD 1 .undefined)
      with
    | none => rfl
    | some op => exact absurd ((hiff idx _).mp ⟨op, hh⟩) hwf
  unfold ExecuteBitarrayQuery
  have hlen' : ¬ argv.length < 2 := by omega
  simp only [hlen', hobj, hcol, hshard, htrx, hidx, hty, hbar, SetupConditionsBitarray, hnone,
    if_false, Bool.not_true, Bool.false_eq_true, ne_eq, not_true_eq_false]
  rfl

/-- C10 with a conversion that always succeeds: the well-formed condition
`a == 1 and not (b < 2)` is compiled to an operator, the condition
`{ and: [ { "==": {} } ] }`, an `and` with one operand, is not well-formed, and
`ExecuteBitarrayQuery` rejects it with `BadParameter` without a lookup. -/
theorem bitarray_condition_wellformed_witness :
    (SetupConditionsBitarrayHelper totalObjectToJson ⟨.TRI_IDX_TYPE_BITARRAY_INDEX, ["a", "b"]⟩
      (.object [("and", .array [.object [("==", .object [("a", .num 1)])],
        .object [("not", .object [("lt", .object [("b", .num 2)])])]])])).isSome = true ∧
    ¬ WellFormed (.object [("and", .array [.object [("==", .object [])]])]) ∧
    ExecuteBitarrayQuery totalEnv
      [.str "bitarray", .object [("and", .array [.object [("==", .object [])]])]]
      "BY_CONDITION_BITARRAY" QUERY_CONDITION =
      ⟨.exception (TRI_V8_EXCEPTION TRI_ERROR_BAD_PARAMETER), []⟩ := by
  have hconv : ∀ v, totalEnv.TRI_ObjectToJson v ≠ none := by
    intro v; cases v <;> simp [totalEnv, totalObjectToJson]
  have h := bitarray_condition_wellformed totalEnv hconv
  have hbad : ¬ WellFormed (.object [("and", .array [.object [("==", .object [])]])]) := by
    intro hw
    obtain ⟨op, hop⟩ := (h.1 ⟨.TRI_IDX_TYPE_BITARRAY_INDEX, ["a", "b"]⟩ _).mpr hw
    rw [SetupConditionsBitarrayHelper_unfold] at hop
    cases hop
  have hgood : WellFormed (.object [("and", .array [.object [("==", .object [("a", .num 1)])],
      .object [("not", .object [("lt", .object [("b", .num 2)])])]])]) :=
    @WellFormed.connective _ _ _ TRI_AND_INDEX_OPERATOR (by rfl) (Or.inl rfl) (by rfl)
      (by rfl)
      (@WellFormed.comparison _ _ TRI_EQ_INDEX_OPERATOR (by rfl) (by rfl) (by rfl))
      (WellFormed.negation (by rfl) (by rfl)
        (@WellFormed.comparison _ _ TRI_LT_INDEX_OPERATOR (by rfl) (by rfl) (by rfl)))
  refine ⟨?_, hbad, ?_⟩
  · obtain ⟨op, hop⟩ := (h.1 ⟨.TRI_IDX_TYPE_BITARRAY_INDEX, ["a", "b"]⟩ _).mpr hgood
    have e : totalEnv.TRI_ObjectToJson = totalObjectToJson := rfl
    rw [e] at hop
    rw [hop]
    rfl
  · exact h.2 [.str "bitarray", .object [("and", .array [.object [("==", .object [])]])]]
      "BY_CONDITION_BITARRAY" ⟨.TRI_IDX_TYPE_BITARRAY_INDEX, ["a", "b"]⟩
      (by decide) (by rfl) (by rfl) (by rfl) (by rfl) (by rfl) (by rfl) (by rfl) hbad


/-! ### Positional alignment when no condition list is empty (C8) -/

/-- Appending a value given for the next position keeps a list aligned. -/
theorem AlignedValues_snoc (conv : JSVal → Option TRI_json_t) (conditions : JSVal)
    (fields : List String) (xs : List TRI_json_t) (json : TRI_json_t)
    (hxs : AlignedValues conv conditions fields xs)
    (hj : GivenFor conv conditions fields xs.length json) :
    AlignedValues conv conditions fields (xs ++ [json]) := by
  intro k j hk
  rw [List.get?_eq_getElem?] at hk
  by_cases hlt : k < xs.length
  · rw [List.getElem?_append_left hlt] at hk
    exact hxs k j (by rw [List.get?_eq_getElem?]; exact hk)
  · have hge : xs.length ≤ k := by omega
    rw [List.getElem?_append_right hge] at hk
    have hk0 : k - xs.length = 0 := by
      by_contra hne
      have : [json][k - xs.length]? = none := by
        apply List.getElem?_eq_none
        simp only [List.length_singleton]
        omega
      rw [this] at hk
      cases hk
    rw [hk0] at hk
    simp only [List.getElem?_cons_zero, Option.some.injEq] at hk
    subst hk
    have : k = xs.length := by omega
    rw [this]
    exact hj

/-- In the range phase of field `k + 1` the loop over the conditions stays in the range
phase. -/
theorem conditionLoop_rangePhase (conv : JSVal → Option TRI_json_t) (conditions : JSVal)
    (fields : List String) (k : Nat) (key : String) (allValues : List JSVal)
    (hkey : fields.get? k = some key)
    (hall : conditions.getOwn key = some (.array allValues)) :
    ∀ (values : List JSVal) (st st' : SkiplistState), (∀ x ∈ values, x ∈ allValues) →
      RangePhase conv conditions fields (k + 1) st →
      conditionLoop conv (k + 1) values st = some st' →
      RangePhase conv conditions fields (k + 1) st' := by
  intro values
  induction values with
  | nil =>
    intro st st' _ hph h
    simp only [conditionLoop] at h
    injection h with h
    subst h
    exact hph
  | cons fc rest ih =>
    intro st st' hsub hph h
    obtain ⟨h1, h2, h3, h4, r0, rs, h5, h6⟩ := hph
    have hmem := hsub fc (by simp)
    unfold conditionLoop at h
    split at h
    · split at h
      · split at h
        · cases h
        · rename_i value _ opValue _ json hjson
          by_cases heq : opValue = "=="
          · rw [if_pos heq, if_pos (by omega)] at h
            cases h
          · rw [if_neg heq] at h
            by_cases hbad : st.lastNonEq > 0 ∧ st.lastNonEq ≠ k + 1
            · rw [if_pos hbad] at h; cases h
            · rw [if_neg hbad] at h
              split at h
              · cases h
              · rename_i opType hty
                have hrange := rangeOperatorType_isRange hty
                simp only [] at h
                refine ih _ st' (fun x hx => hsub x (List.mem_cons_of_mem _ hx)) ?_ h
                refine ⟨rfl, h2, ?_, h4, r0, rs ++ [(opType, json)], ?_, ?_⟩
                · simp only []; split_ifs <;> omega
                · intro r hr
                  rw [← List.cons_append] at hr
                  rcases List.mem_append.mp hr with hr | hr
                  · exact h5 r hr
                  · simp only [List.mem_singleton] at hr
                    subst hr
                    refine ⟨hrange, key, allValues, opValue, value, ?_, hall, hmem, hjson⟩
                    have : st.parameters.length = k := by omega
                    simp only []
                    rw [this]
                    exact hkey
                · simp only [h3, h6, ne_eq, not_true_eq_false, if_false]
                  rw [← prefixRangeOperator_snoc]
                  simp [rangeLeaf, TRI_CreateIndexOperator]
      · cases h
    · cases h

/-- From the start phase after `k` fields, a non-empty condition list of field `k + 1`
leads to the start phase after `k + 1` fields or to the range phase of field `k + 1`. -/
theorem conditionLoop_startPhase (conv : JSVal → Option TRI_json_t) (conditions : JSVal)
    (fields : List String) (k : Nat) (key : String) (allValues : List JSVal)
    (x : JSVal) (xs : List JSVal)
    (hkey : fields.get? k = some key)
    (hall : conditions.getOwn key = some (.array allValues))
    (hsub : ∀ y ∈ x :: xs, y ∈ allValues)
    (st st' : SkiplistState) (hph : StartPhase conv conditions fields k st)
    (h : conditionLoop conv (k + 1) (x :: xs) st = some st') :
    StartPhase conv conditions fields (k + 1) st' ∨
      RangePhase conv conditions fields (k + 1) st' := by
  obtain ⟨h1, h2, h3, h4, h5⟩ := hph
  have hmem := hsub x (by simp)
  have hrest : ∀ y ∈ xs, y ∈ allValues := fun y hy => hsub y (List.mem_cons_of_mem _ hy)
  clear hsub
  unfold conditionLoop at h
  split at h
  · split at h
    · split at h
      · cases h
      · rename_i value _ opValue _ json hjson
        have hgiven : GivenFor conv conditions fields st.parameters.length json :=
          ⟨key, allValues, opValue, value, by rw [h4]; exact hkey, hall, hmem, hjson⟩
        by_cases heq : opValue = "=="
        · rw [if_pos heq, if_neg (by omega)] at h
          injection h with h
          subst h
          left
          refine ⟨h1, by simp [h2], h3, by simp [h4], ?_⟩
          exact AlignedValues_snoc conv conditions fields _ _ h5 hgiven
        · rw [if_neg heq] at h
          by_cases hbad : st.lastNonEq > 0 ∧ st.lastNonEq ≠ k + 1
          · rw [if_pos hbad] at h; cases h
          · rw [if_neg hbad] at h
            split at h
            · cases h
            · rename_i opType hty
              have hrange := rangeOperatorType_isRange hty
              simp only [] at h
              right
              refine conditionLoop_rangePhase conv conditions fields k key allValues hkey hall
                xs _ st' hrest ?_ h
              refine ⟨rfl, by simp only []; omega, ?_, h5, (opType, json), [], ?_, ?_⟩
              · simp only []; split_ifs <;> omega
              · intro r hr
                simp only [List.mem_singleton] at hr
                subst hr
                exact ⟨hrange, hgiven⟩
              · simp only [h3]
                cases hp : st.parameters with
                | nil =>
                  have hn : st.numEq = 0 := by rw [h2, hp]; rfl
                  simp [hn, prefixRangeOperator, andChain, rangeLeaf, TRI_CreateIndexOperator]
                | cons e es =>
                  have hn : st.numEq ≠ 0 := by rw [h2, hp]; simp
                  simp [hn, prefixRangeOperator, andChain, rangeLeaf, eqLeaf,
                    TRI_CreateIndexOperator]
    · cases h
  · cases h

/-- The comparison leaves of the chain built by `SetupConditionsSkiplist`: the `Eq` leaf
over the equality values and, for each range condition, the equality values followed by
its bound. -/
theorem relationNodes_prefixRangeOperator (eqs : List TRI_json_t)
    (r0 : TRI_index_operator_type_e × TRI_json_t)
    (rs : List (TRI_index_operator_type_e × TRI_json_t))
    (hr : ∀ r ∈ r0 :: rs, isRangeType r.1 = true) :
    ∀ p ∈ relationNodes (prefixRangeOperator eqs r0 rs),
      p = some (.list eqs) ∨ ∃ r ∈ r0 :: rs, p = some (.list (eqs ++ [r.2])) := by
  have hleaves : ∀ l : List (TRI_index_operator_type_e × TRI_json_t),
      (∀ r ∈ l, isRangeType r.1 = true) →
      ∀ p ∈ ((l.map (rangeLeaf eqs)).map relationNodes).flatten,
        ∃ r ∈ l, p = some (.list (eqs ++ [r.2])) := by
    intro l hl p hp
    simp only [List.map_map, List.mem_flatten, List.mem_map, Function.comp] at hp
    obtain ⟨ns, ⟨r, hrl, rfl⟩, hp⟩ := hp
    rw [relationNodes_rangeLeaf eqs r (hl r hrl)] at hp
    simp only [List.mem_singleton] at hp
    exact ⟨r, hrl, hp⟩
  intro p hp
  cases eqs with
  | nil =>
    simp only [prefixRangeOperator] at hp
    rw [relationNodes_andChain] at hp
    rcases List.mem_append.mp hp with hp | hp
    · rw [relationNodes_rangeLeaf [] r0 (hr r0 (by simp))] at hp
      simp only [List.mem_singleton] at hp
      exact Or.inr ⟨r0, by simp, hp⟩
    · obtain ⟨r, hrl, hp⟩ := hleaves rs (fun r h => hr r (List.mem_cons_of_mem _ h)) p hp
      exact Or.inr ⟨r, List.mem_cons_of_mem _ hrl, hp⟩
  | cons e es =>
    simp only [prefixRangeOperator] at hp
    rw [relationNodes_andChain] at hp
    rcases List.mem_append.mp hp with hp | hp
    · simp only [eqLeaf, relationNodes, isRelationType, if_true, List.append_nil,
        List.mem_singleton] at hp
      exact Or.inl hp
    · exact Or.inr (hleaves (r0 :: rs) hr p hp)

/-- When no index field has an empty condition list, the loop over the index fields
ends in the start phase or in the range phase of some field. -/
theorem fieldLoop_phases (conv : JSVal → Option TRI_json_t) (conditions : JSVal)
    (fields : List String)
    (hne : ∀ key ∈ fields, conditions.getOwn key ≠ some (.array [])) :
    ∀ (rest done : List String) (st st' : SkiplistState), fields = done ++ rest →
      (StartPhase conv conditions fields done.length st ∨
        ∃ m, 0 < m ∧ m ≤ done.length ∧ RangePhase conv conditions fields m st) →
      fieldLoop conv conditions (done.length + 1) rest st = some st' →
      (∃ k, StartPhase conv conditions fields k st') ∨
        (∃ m, 0 < m ∧ RangePhase conv conditions fields m st') := by
  intro rest
  induction rest with
  | nil =>
    intro done st st' _ hph h
    simp only [fieldLoop] at h
    injection h with h
    subst h
    rcases hph with hph | ⟨m, hm, _, hph⟩
    · exact Or.inl ⟨_, hph⟩
    · exact Or.inr ⟨m, hm, hph⟩
  | cons key rest ih =>
    intro done st st' hfields hph h
    have hstay : (∃ k, StartPhase conv conditions fields k st) ∨
        (∃ m, 0 < m ∧ RangePhase conv conditions fields m st) := by
      rcases hph with hph | ⟨m, hm, _, hph⟩
      · exact Or.inl ⟨_, hph⟩
      · exact Or.inr ⟨m, hm, hph⟩
    have hkey : fields.get? done.length = some key := by
      rw [hfields, List.get?_eq_getElem?, List.getElem?_append_right (le_refl _)]
      simp
    have hmemkey : key ∈ fields := by rw [hfields]; simp
    unfold fieldLoop at h
    split at h
    · injection h with h; subst h; exact hstay
    · split at h
      · rename_i values hget
        split at h
        · cases h
        · rename_i st1 hst1
          cases values with
          | nil => exact absurd hget (hne key hmemkey)
          | cons x xs =>
            have hfields' : fields = (done ++ [key]) ++ rest := by
              rw [hfields]; simp
            have hlen : (done ++ [key]).length = done.length + 1 := by simp
            rcases hph with hph | ⟨m, hm, hle, hph⟩
            · have h1 := conditionLoop_startPhase conv conditions fields done.length key
                (x :: xs) x xs hkey hget (fun y hy => hy) st st1 hph hst1
              refine ih (done ++ [key]) st1 st' hfields' ?_ (by rw [hlen]; exact h)
              rcases h1 with h1 | h1
              · left; rw [hlen]; exact h1
              · right; exact ⟨done.length + 1, by omega, by rw [hlen], h1⟩
            · have hblocked := conditionLoop_blocked conv (done.length + 1) x xs st
                (by rw [hph.1]; exact hm) (by rw [hph.1]; omega)
              rw [hblocked] at hst1
              cases hst1
      · injection h with h; subst h; exact hstay

/-- When no index field has an empty condition list, every comparison leaf of the
operator returned by `SetupConditionsSkiplist` is matched positionally against the field
list: the value at position `k` is the conversion of a comparison value that the
conditions object gives for the `k`-th field. -/
theorem SetupConditionsSkiplist_aligned (conv : JSVal → Option TRI_json_t) (idx : TRI_index_t)
    (conditions : JSVal) (op : TRI_index_operator_t)
    (hne : ∀ key ∈ idx._fields, conditions.getOwn key ≠ some (.array []))
    (h : SetupConditionsSkiplist conv idx conditions = some op) :
    AlignedLeaves conv conditions idx._fields op := by
  unfold SetupConditionsSkiplist at h
  split at h
  · cases h
  · rename_i st hst
    have h0 : StartPhase conv conditions idx._fields ([] : List String).length
        { parameters := [], numEq := 0, lastNonEq := 0, lastOperator := none } :=
      ⟨rfl, rfl, rfl, rfl, by intro k j hk; simp at hk⟩
    have hph := fieldLoop_phases conv conditions idx._fields hne idx._fields [] _ st
      (by simp) (Or.inl h0) hst
    rcases hph with ⟨k, h1, h2, h3, h4, h5⟩ | ⟨m, hm, h1, h2, h3, h4, r0, rs, h5, h6⟩
    · by_cases hn : st.numEq ≠ 0
      · rw [if_pos hn] at h
        injection h with h
        subst h
        intro p hp
        simp only [TRI_CreateIndexOperator, relationNodes, isRelationType, if_true,
          List.append_nil, List.mem_singleton] at hp
        exact ⟨st.parameters, hp, h5⟩
      · rw [if_neg hn, h3] at h
        cases h
    · have hn : ¬ st.numEq ≠ 0 := by simp [h3]
      rw [if_neg hn, h6] at h
      injection h with h
      subst h
      intro p hp
      rcases relationNodes_prefixRangeOperator st.parameters r0 rs (fun r hr => (h5 r hr).1)
        p hp with hp | ⟨r, hr, hp⟩
      · exact ⟨st.parameters, hp, h4⟩
      · exact ⟨st.parameters ++ [r.2], hp,
          AlignedValues_snoc conv conditions idx._fields _ _ h4 (h5 r hr).2⟩


/-! ### Malformed skiplist conditions (C11) -/

/-- A string that is not one of the five operators is not `==` and has no range operator
type. -/
theorem rangeOperatorType_none_of_not_mem (opValue : String)
    (h : opValue ∉ skiplistOperators) :
    opValue ≠ "==" ∧ rangeOperatorType opValue = none := by
  simp only [skiplistOperators, List.mem_cons, List.mem_singleton, List.not_mem_nil,
    or_false, not_or] at h
  obtain ⟨h1, h2, h3, h4, h5⟩ := h
  refine ⟨h1, ?_⟩
  unfold rangeOperatorType
  rw [if_neg h4, if_neg h5, if_neg h2, if_neg h3]

/-- The loop over the conditions of a field jumps to `MEM_ERROR` at a condition that is
not well formed. -/
theorem conditionLoop_malformed_head (conv : JSVal → Option TRI_json_t) (i : Nat)
    (bad : JSVal) (post : List JSVal) (st : SkiplistState) (hbad : ¬ ConditionWellFormed bad) :
    conditionLoop conv i (bad :: post) st = none := by
  unfold conditionLoop
  split
  · rename_i op value
    split
    · rename_i opValue
      have hnot : opValue ∉ skiplistOperators := fun hmem => hbad ⟨opValue, value, rfl, hmem⟩
      obtain ⟨hne, hnone⟩ := rangeOperatorType_none_of_not_mem opValue hnot
      split
      · rfl
      · rw [if_neg hne]
        split
        · rfl
        · rw [hnone]
    · rfl
  · rfl

/-- The loop over the conditions of a field reaches every condition that no `==`
condition precedes: when such a condition is not well formed, the loop jumps to
`MEM_ERROR`. -/
theorem conditionLoop_malformed (conv : JSVal → Option TRI_json_t) (i : Nat) (bad : JSVal)
    (post : List JSVal) (hbad : ¬ ConditionWellFormed bad) :
    ∀ (pre : List JSVal) (st : SkiplistState), (∀ c ∈ pre, ¬ IsEqCondition c) →
      conditionLoop conv i (pre ++ bad :: post) st = none := by
  intro pre
  induction pre with
  | nil =>
    intro st _
    exact conditionLoop_malformed_head conv i bad post st hbad
  | cons c pre ih =>
    intro st hpre
    have hc : ¬ IsEqCondition c := hpre c (by simp)
    have hrest : ∀ c' ∈ pre, ¬ IsEqCondition c' := fun c' h => hpre c' (by simp [h])
    rw [List.cons_append]
    unfold conditionLoop
    split
    · rename_i op value
      split
      · rename_i opValue
        have hne : opValue ≠ "==" := fun h => hc ⟨value, by rw [h]⟩
        split
        · rfl
        · rw [if_neg hne]
          split
          · rfl
          · split
            · rfl
            · exact ih _ hrest
      · rfl
    · rfl

/-- The loop over the index fields jumps to `MEM_ERROR` when every field before `key`
has an array value and the array of `key` holds a condition that is not well formed and
that no `==` condition precedes. -/
theorem fieldLoop_malformed (conv : JSVal → Option TRI_json_t) (conditions : JSVal)
    (key : String) (rest : List String) (pre : List JSVal) (bad : JSVal) (post : List JSVal)
    (hkey : conditions.getOwn key = some (.array (pre ++ bad :: post)))
    (hpre : ∀ c ∈ pre, ¬ IsEqCondition c) (hbad : ¬ ConditionWellFormed bad) :
    ∀ (done : List String) (i : Nat) (st : SkiplistState),
      (∀ k ∈ done, ∃ l, conditions.getOwn k = some (.array l)) →
      fieldLoop conv conditions i (done ++ key :: rest) st = none := by
  intro done i st hdone
  rw [fieldLoop_append conv conditions _ done i st hdone]
  cases h1 : fieldLoop conv conditions i done st with
  | none => rfl
  | some s1 =>
    simp only [Option.bind]
    rw [fieldLoop, hkey]
    simp only []
    rw [conditionLoop_malformed conv _ bad post hbad pre s1 hpre]


/-- The run of `ExecuteSkiplistQuery` once the checks of the arguments, of the
collection, of the transaction and of the index kind have passed: the operator is built,
and the lookup is executed when there is one. -/
theorem ExecuteSkiplistQuery_checked (env : Env) (argv : List JSVal) (signature : String)
    (type : query_t) (idx : TRI_index_t) (hlen : 2 ≤ argv.length)
    (hobj : (argv.getD 1 .undefined).IsObject = true) (hcol : env.col = true)
    (hshard : env.sharding = none) (htrx : env.trxBegin = TRI_ERROR_NO_ERROR)
    (hidx : env.TRI_LookupIndexByHandle (argv.getD 0 .undefined) = .ok idx)
    (hty : idx._type = .TRI_IDX_TYPE_SKIPLIST_INDEX) :
    ExecuteSkiplistQuery env argv signature type =
      match (if type = QUERY_EXAMPLE
          then SetupExampleSkiplist env.TRI_ObjectToJson idx (argv.getD 1 .undefined)
          else SetupConditionsSkiplist env.TRI_ObjectToJson idx (argv.getD 1 .undefined)) with
      | none => ⟨.exception (TRI_V8_EXCEPTION TRI_ERROR_BAD_PARAMETER), []⟩
      | some op =>
        match env.TRI_LookupSkiplistIndex idx op with
        | .error res =>
          if res = TRI_RESULT_ELEMENT_NOT_FOUND
          then ⟨.ok EmptyResult, [IndexCall.TRI_LookupSkiplistIndex idx op]⟩
          else ⟨.exception (TRI_V8_EXCEPTION TRI_ERROR_ARANGO_NO_INDEX),
            [IndexCall.TRI_LookupSkiplistIndex idx op]⟩
        | .ok it =>
          if ! env.orderBarrier
          then ⟨.exception (TRI_V8_EXCEPTION TRI_ERROR_OUT_OF_MEMORY),
            [IndexCall.TRI_LookupSkiplistIndex idx op]⟩
          else ⟨windowOutcome (windowLoop env.WRAP_SHAPED_JSON
              (ExtractSkipAndLimit env argv 2).1 (ExtractSkipAndLimit env argv 2).2 it
              windowInit), [IndexCall.TRI_LookupSkiplistIndex idx op]⟩ := by
  unfold ExecuteSkiplistQuery
  have h1 : ¬ argv.length < 2 := by omega
  rw [if_neg h1]
  simp only [hobj, hcol, hshard, htrx, hidx, hty, Bool.not_true, Bool.false_eq_true,
    if_false, ne_eq, not_true_eq_false]

/-- C11 (amended): when every index field before a field `key` has an array value, the
value of `key` is an array, and a condition of that array which no `==` condition
precedes is not well formed (it is not a two-element array, its operator is not a string,
or its operator is not one of `==`, `<`, `<=`, `>`, `>=`), `SetupConditionsSkiplist`
returns no operator, and a condition query of `ExecuteSkiplistQuery` on that conditions
object fails with `TRI_ERROR_BAD_PARAMETER` without a lookup. -/
theorem SetupConditionsSkiplist_malformed_condition (env : Env) (argv : List JSVal)
    (signature : String) (idx : TRI_index_t) (done rest : List String) (key : String)
    (pre post : List JSVal) (bad : JSVal) (hlen : 2 ≤ argv.length) (hcol : env.col = true)
    (hshard : env.sharding = none) (htrx : env.trxBegin = TRI_ERROR_NO_ERROR)
    (hidx : env.TRI_LookupIndexByHandle (argv.getD 0 .undefined) = .ok idx)
    (hty : idx._type = .TRI_IDX_TYPE_SKIPLIST_INDEX)
    (hfields : idx._fields = done ++ key :: rest)
    (hdone : ∀ k ∈ done, ∃ l, (argv.getD 1 .undefined).getOwn k = some (.array l))
    (hkey : (argv.getD 1 .undefined).getOwn key = some (.array (pre ++ bad :: post)))
    (hpre : ∀ c ∈ pre, ¬ IsEqCondition c) (hbad : ¬ ConditionWellFormed bad) :
    SetupConditionsSkiplist env.TRI_ObjectToJson idx (argv.getD 1 .undefined) = none ∧
    ExecuteSkiplistQuery env argv signature QUERY_CONDITION =
      ⟨.exception (TRI_V8_EXCEPTION TRI_ERROR_BAD_PARAMETER), []⟩ := by
  have hnone : SetupConditionsSkiplist env.TRI_ObjectToJson idx (argv.getD 1 .undefined) =
      none := by
    unfold SetupConditionsSkiplist
    rw [hfields, fieldLoop_malformed env.TRI_ObjectToJson _ key rest pre bad post hkey hpre
      hbad done 1 _ hdone]
  refine ⟨hnone, ?_⟩
  have hobj : (argv.getD 1 .undefined).IsObject = true := IsObject_of_getOwn hkey
  rw [ExecuteSkiplistQuery_checked env argv signature QUERY_CONDITION idx hlen hobj hcol
    hshard htrx hidx hty]
  have hq : ¬ (QUERY_CONDITION = QUERY_EXAMPLE) := by decide
  rw [if_neg hq, hnone]

/-- C11 (amended) on an index with the fields `a`, `b`, `c`: the conditions object
`{ a: [["==", 1]], b: [[">", 2], ["~", 3]] }`, whose second condition for `b` has an
unknown operator, gives no operator and `TRI_ERROR_BAD_PARAMETER`. -/
theorem SetupConditionsSkiplist_malformed_condition_witness :
    SetupConditionsSkiplist sampleEnv.TRI_ObjectToJson
        ⟨.TRI_IDX_TYPE_SKIPLIST_INDEX, ["a", "b", "c"]⟩
        (.object [("a", .array [.array [.str "==", .num 1]]),
          ("b", .array [.array [.str ">", .num 2], .array [.str "~", .num 3]])]) = none ∧
    ExecuteSkiplistQuery sampleEnv
        [.str "skiplist", .object [("a", .array [.array [.str "==", .num 1]]),
          ("b", .array [.array [.str ">", .num 2], .array [.str "~", .num 3]])]]
        "BY_CONDITION_SKIPLIST(<index>, <conditions>, <skip>, <limit>)" QUERY_CONDITION =
      ⟨.exception (TRI_V8_EXCEPTION TRI_ERROR_BAD_PARAMETER), []⟩ :=
  SetupConditionsSkiplist_malformed_condition sampleEnv
    [.str "skiplist", .object [("a", .array [.array [.str "==", .num 1]]),
      ("b", .array [.array [.str ">", .num 2], .array [.str "~", .num 3]])]]
    "BY_CONDITION_SKIPLIST(<index>, <conditions>, <skip>, <limit>)"
    ⟨.TRI_IDX_TYPE_SKIPLIST_INDEX, ["a", "b", "c"]⟩ ["a"] ["c"] "b"
    [.array [.str ">", .num 2]] [] (.array [.str "~", .num 3])
    (by decide) (by rfl) (by rfl) (by rfl) (by rfl) (by rfl) (by rfl)
    (by intro k hk; simp only [List.mem_singleton] at hk; subst hk; exact ⟨_, by rfl⟩)
    (by rfl)
    (by
      intro c hc
      simp only [List.mem_singleton] at hc
      subst hc
      rintro ⟨value, hv⟩
      injection hv with hv
      injection hv with hv _
      injection hv with hv
      exact absurd hv (by decide))
    (by
      rintro ⟨op, value, hv, hop⟩
      injection hv with hv
      injection hv with hv _
      injection hv with hv
      subst hv
      revert hop
      decide)

/-- C11 as stated fails: on an index with the fields `a`, `b`, `c` and the conditions
object `{ a: [["==", 1]], c: [["~", 3]] }`, the value listed for the index field `c` is
malformed (its operator is not one of the five), but the loop over the index fields stops
at the missing field `b`: `SetupConditionsSkiplist` returns the `Eq` leaf over `[1]` and
`ExecuteSkiplistQuery` executes the lookup and returns its ten documents. -/
theorem SetupConditionsSkiplist_malformed_counterexample :
    (∃ f ∈ ["a", "b", "c"], ∃ v,
      (JSVal.object [("a", .array [.array [.str "==", .num 1]]),
        ("c", .array [.array [.str "~", .num 3]])]).getOwn f = some v ∧
      FieldValueMalformed v) ∧
    SetupConditionsSkiplist sampleEnv.TRI_ObjectToJson
        ⟨.TRI_IDX_TYPE_SKIPLIST_INDEX, ["a", "b", "c"]⟩
        (.object [("a", .array [.array [.str "==", .num 1]]),
          ("c", .array [.array [.str "~", .num 3]])]) =
      some (.mk TRI_EQ_INDEX_OPERATOR none none (some (.list [.number 1])) 1) ∧
    ExecuteSkiplistQuery sampleEnv
        [.str "skiplist", .object [("a", .array [.array [.str "==", .num 1]]),
          ("c", .array [.array [.str "~", .num 3]])]]
        "BY_CONDITION_SKIPLIST(<index>, <conditions>, <skip>, <limit>)" QUERY_CONDITION =
      ⟨.ok { documents := [.num 0, .num 1, .num 2, .num 3, .num 4, .num 5, .num 6, .num 7,
            .num 8, .num 9], total := 10, count := 10 },
        [IndexCall.TRI_LookupSkiplistIndex ⟨.TRI_IDX_TYPE_SKIPLIST_INDEX, ["a", "b", "c"]⟩
          (.mk TRI_EQ_INDEX_OPERATOR none none (some (.list [.number 1])) 1)]⟩ := by
  refine ⟨⟨"c", by simp, .array [.array [.str "~", .num 3]], by rfl, Or.inr ?_⟩, by rfl,
    by rfl⟩
  refine ⟨_, .array [.str "~", .num 3], rfl, by simp, ?_⟩
  rintro ⟨op, value, hv, hop⟩
  injection hv with hv
  injection hv with hv _
  injection hv with hv
  subst hv
  revert hop
  decide



/-! ### Example objects (C12, C13) -/

/-- Only the empty JSON list is wrapped up. -/
theorem wrapEmptyList_of_ne (json : TRI_json_t) (h : json ≠ .list []) :
    wrapEmptyList json = json := by
  unfold wrapEmptyList
  split
  · exact absurd rfl h
  · rfl

/-- The loop of `SetupBitarrayAttributeValuesHelper` adds one entry for each index field,
in the order of the fields. -/
theorem attributeValuesLoop_entries (conv : JSVal → Option TRI_json_t) (example_ : JSVal) :
    ∀ (fields : List String) (ps : List TRI_json_t),
      (∀ key ∈ fields, ∀ v, example_.getOwn key = some v →
        ∃ j, conv v = some j ∧ j ≠ .list []) →
      ∃ js, attributeValuesLoop conv example_ fields ps = some (ps ++ js) ∧
        js.map some = fields.map (exampleEntry conv example_) := by
  intro fields
  induction fields with
  | nil =>
    intro ps _
    exact ⟨[], by simp [attributeValuesLoop], rfl⟩
  | cons key rest ih =>
    intro ps hconv
    have hrest : ∀ k ∈ rest, ∀ v, example_.getOwn k = some v →
        ∃ j, conv v = some j ∧ j ≠ .list [] := fun k hk => hconv k (by simp [hk])
    unfold attributeValuesLoop
    cases hget : example_.getOwn key with
    | some value =>
      obtain ⟨j, hj, hne⟩ := hconv key (by simp) value hget
      simp only [hj]
      obtain ⟨js, h1, h2⟩ := ih (ps ++ [wrapEmptyList j]) hrest
      refine ⟨j :: js, ?_, ?_⟩
      · rw [h1, wrapEmptyList_of_ne j hne]
        simp
      · simp only [List.map_cons, h2, exampleEntry, hget, hj]
    | none =>
      simp only []
      obtain ⟨js, h1, h2⟩ := ih (ps ++ [.unused]) hrest
      refine ⟨.unused :: js, ?_, ?_⟩
      · rw [h1]
        simp
      · simp only [List.map_cons, h2, exampleEntry, hget]

/-- The loop of `SetupBitarrayAttributeValuesHelper` reads the index fields only. -/
theorem attributeValuesLoop_congr (conv : JSVal → Option TRI_json_t) (example_ other : JSVal) :
    ∀ (fields : List String) (ps : List TRI_json_t),
      (∀ key ∈ fields, other.getOwn key = example_.getOwn key) →
      attributeValuesLoop conv other fields ps = attributeValuesLoop conv example_ fields ps := by
  intro fields
  induction fields with
  | nil => intro ps _; simp [attributeValuesLoop]
  | cons key rest ih =>
    intro ps h
    have hrest : ∀ k ∈ rest, other.getOwn k = example_.getOwn k :=
      fun k hk => h k (by simp [hk])
    unfold attributeValuesLoop
    rw [h key (by simp)]
    cases example_.getOwn key with
    | some value =>
      simp only []
      cases conv value with
      | none => rfl
      | some j => exact ih _ hrest
    | none => exact ih _ hrest

/-- C12: for an index with the fields `f1 .. fn` and an example object whose values for
the index fields have a JSON value other than the empty list, `SetupExampleBitarray`
returns a single `Eq` leaf with exactly `n` values in index field order: entry `i` is the
JSON value of the example's attribute `fi`, and `TRI_JSON_UNUSED` when the example has no
such attribute. The attributes that are not index fields are not read: an example that
agrees on the index fields gives the same leaf. -/
theorem SetupExampleBitarray_entries (conv : JSVal → Option TRI_json_t) (idx : TRI_index_t)
    (example_ : JSVal) (hobj : example_.IsObject = true)
    (hconv : ∀ key ∈ idx._fields, ∀ v, example_.getOwn key = some v →
      ∃ j, conv v = some j ∧ j ≠ .list []) :
    (∃ parameters,
      SetupExampleBitarray conv idx example_ =
        some (.mk TRI_EQ_INDEX_OPERATOR none none (some (.list parameters))
          idx._fields.length) ∧
      parameters.length = idx._fields.length ∧
      parameters.map some = idx._fields.map (exampleEntry conv example_)) ∧
    (∀ other : JSVal, other.IsObject = true →
      (∀ key ∈ idx._fields, other.getOwn key = example_.getOwn key) →
      SetupExampleBitarray conv idx other = SetupExampleBitarray conv idx example_) := by
  constructor
  · obtain ⟨js, h1, h2⟩ := attributeValuesLoop_entries conv example_ idx._fields [] hconv
    have hlen : js.length = idx._fields.length := by
      have := congrArg List.length h2
      simpa using this
    refine ⟨js, ?_, hlen, h2⟩
    unfold SetupExampleBitarray SetupBitarrayAttributeValuesHelper
    simp only [hobj, Bool.not_true, Bool.false_eq_true, if_false, h1, List.nil_append,
      TRI_CreateIndexOperator, hlen]
  · intro other hother hsame
    unfold SetupExampleBitarray SetupBitarrayAttributeValuesHelper
    simp only [hobj, hother, Bool.not_true, Bool.false_eq_true, if_false]
    rw [attributeValuesLoop_congr conv example_ other idx._fields [] hsame]

/-- C12 on the bitarray index with the fields `a`, `b`, `c` and the example
`{ c: 3, x: 9, a: 1 }`: the leaf holds `[1, unused, 3]`. -/
theorem SetupExampleBitarray_entries_witness :
    (∃ parameters,
      SetupExampleBitarray sampleObjectToJson ⟨.TRI_IDX_TYPE_BITARRAY_INDEX, ["a", "b", "c"]⟩
          (.object [("c", .num 3), ("x", .num 9), ("a", .num 1)]) =
        some (.mk TRI_EQ_INDEX_OPERATOR none none (some (.list parameters)) 3) ∧
      parameters.length = 3 ∧
      parameters.map some = [some (.number 1), some .unused, some (.number 3)]) ∧
    (∀ other : JSVal, other.IsObject = true →
      (∀ key ∈ ["a", "b", "c"], other.getOwn key =
        (JSVal.object [("c", .num 3), ("x", .num 9), ("a", .num 1)]).getOwn key) →
      SetupExampleBitarray sampleObjectToJson
          ⟨.TRI_IDX_TYPE_BITARRAY_INDEX, ["a", "b", "c"]⟩ other =
        SetupExampleBitarray sampleObjectToJson
          ⟨.TRI_IDX_TYPE_BITARRAY_INDEX, ["a", "b", "c"]⟩
          (.object [("c", .num 3), ("x", .num 9), ("a", .num 1)])) :=
  SetupExampleBitarray_entries sampleObjectToJson
    ⟨.TRI_IDX_TYPE_BITARRAY_INDEX, ["a", "b", "c"]⟩
    (.object [("c", .num 3), ("x", .num 9), ("a", .num 1)]) (by rfl)
    (by
      intro key hkey v hv
      simp only [List.mem_cons, List.mem_singleton, List.not_mem_nil, or_false] at hkey
      rcases hkey with h | h | h
      · subst h
        have e : v = .num 1 := by
          have : (JSVal.object [("c", .num 3), ("x", .num 9), ("a", .num 1)]).getOwn "a" =
            some (.num 1) := by rfl
          rw [this] at hv
          injection hv with hv
          exact hv.symm
        subst e
        exact ⟨.number 1, by rfl, by intro h; cases h⟩
      · subst h
        have : (JSVal.object [("c", .num 3), ("x", .num 9), ("a", .num 1)]).getOwn "b" =
          none := by rfl
        rw [this] at hv
        cases hv
      · subst h
        have e : v = .num 3 := by
          have : (JSVal.object [("c", .num 3), ("x", .num 9), ("a", .num 1)]).getOwn "c" =
            some (.num 3) := by rfl
          rw [this] at hv
          injection hv with hv
          exact hv.symm
        subst e
        exact ⟨.number 3, by rfl, by intro h; cases h⟩)


/-- The loop of `SetupExampleSkiplist` adds the JSON values of the leading index fields
that the example provides, and stops at the first index field that the example lacks. -/
theorem exampleLoop_prefix (conv : JSVal → Option TRI_json_t) (example_ : JSVal) :
    ∀ (fields : List String) (ps : List TRI_json_t),
      (∀ key ∈ providedPrefix example_ fields, ∀ v, example_.getOwn key = some v →
        conv v ≠ none) →
      ∃ js, exampleLoop conv example_ fields ps = some (ps ++ js) ∧
        js.map some = (providedPrefix example_ fields).map (exampleEntry conv example_) := by
  intro fields
  induction fields with
  | nil =>
    intro ps _
    exact ⟨[], by simp [exampleLoop], rfl⟩
  | cons key rest ih =>
    intro ps hconv
    unfold exampleLoop
    cases hget : example_.getOwn key with
    | none =>
      refine ⟨[], by simp, ?_⟩
      simp [providedPrefix, List.takeWhile, hget]
    | some value =>
      have hpre : providedPrefix example_ (key :: rest) =
          key :: providedPrefix example_ rest := by
        simp [providedPrefix, List.takeWhile, hget]
      rw [hpre] at hconv
      have hrest : ∀ k ∈ providedPrefix example_ rest, ∀ v, example_.getOwn k = some v →
          conv v ≠ none := fun k hk => hconv k (by simp [hk])
      simp only []
      cases hj : conv value with
      | none => exact absurd hj (hconv key (by simp) value hget)
      | some j =>
        simp only []
        obtain ⟨js, h1, h2⟩ := ih (ps ++ [j]) hrest
        refine ⟨j :: js, ?_, ?_⟩
        · rw [h1]
          simp
        · rw [hpre]
          simp only [List.map_cons, h2, exampleEntry, hget, hj]

/-- C13 (amended): `SetupExampleSkiplist` compiles the example into a single `Eq` leaf
over the leading index fields that the example provides: the leaf holds, in index field
order, the JSON values of the example's attributes for the index fields that come before
the first index field missing from the example. When the example lacks the first index
field, no operator is returned. -/
theorem SetupExampleSkiplist_prefix (conv : JSVal → Option TRI_json_t) (idx : TRI_index_t)
    (example_ : JSVal)
    (hconv : ∀ key ∈ providedPrefix example_ idx._fields, ∀ v,
      example_.getOwn key = some v → conv v ≠ none) :
    (providedPrefix example_ idx._fields = [] →
      SetupExampleSkiplist conv idx example_ = none) ∧
    (providedPrefix example_ idx._fields ≠ [] →
      ∃ parameters,
        SetupExampleSkiplist conv idx example_ =
          some (.mk TRI_EQ_INDEX_OPERATOR none none (some (.list parameters))
            (providedPrefix example_ idx._fields).length) ∧
        parameters.map some =
          (providedPrefix example_ idx._fields).map (exampleEntry conv example_)) := by
  obtain ⟨js, h1, h2⟩ := exampleLoop_prefix conv example_ idx._fields [] hconv
  have hlen : js.length = (providedPrefix example_ idx._fields).length := by
    have := congrArg List.length h2
    simpa using this
  rw [List.nil_append] at h1
  constructor
  · intro hempty
    rw [hempty, List.length_nil] at hlen
    unfold SetupExampleSkiplist
    rw [h1]
    simp only []
    rw [if_neg (by omega)]
  · intro hne
    have hpos : (providedPrefix example_ idx._fields).length > 0 :=
      List.length_pos.mpr hne
    refine ⟨js, ?_, h2⟩
    unfold SetupExampleSkiplist
    rw [h1]
    simp only []
    rw [if_pos (by omega)]
    simp only [TRI_CreateIndexOperator, hlen]

/-- C13 (amended) on the skiplist index with the fields `a`, `b`, `c` and the example
`{ b: 2, a: 1 }`: the leaf holds `[1, 2]`. -/
theorem SetupExampleSkiplist_prefix_witness :
    (providedPrefix (.object [("b", .num 2), ("a", .num 1)]) ["a", "b", "c"] = [] →
      SetupExampleSkiplist sampleObjectToJson ⟨.TRI_IDX_TYPE_SKIPLIST_INDEX, ["a", "b", "c"]⟩
        (.object [("b", .num 2), ("a", .num 1)]) = none) ∧
    (providedPrefix (.object [("b", .num 2), ("a", .num 1)]) ["a", "b", "c"] ≠ [] →
      ∃ parameters,
        SetupExampleSkiplist sampleObjectToJson
            ⟨.TRI_IDX_TYPE_SKIPLIST_INDEX, ["a", "b", "c"]⟩
            (.object [("b", .num 2), ("a", .num 1)]) =
          some (.mk TRI_EQ_INDEX_OPERATOR none none (some (.list parameters)) 2) ∧
        parameters.map some = [some (.number 1), some (.number 2)]) :=
  SetupExampleSkiplist_prefix sampleObjectToJson
    ⟨.TRI_IDX_TYPE_SKIPLIST_INDEX, ["a", "b", "c"]⟩ (.object [("b", .num 2), ("a", .num 1)])
    (by
      intro key hkey v hv
      have hp : providedPrefix (.object [("b", .num 2), ("a", .num 1)]) ["a", "b", "c"] =
          ["a", "b"] := by rfl
      rw [hp] at hkey
      simp only [List.mem_cons, List.mem_singleton, List.not_mem_nil, or_false] at hkey
      rcases hkey with h | h
      · subst h
        have : (JSVal.object [("b", .num 2), ("a", .num 1)]).getOwn "a" = some (.num 1) := by
          rfl
        rw [this] at hv
        injection hv with hv
        subst hv
        intro h
        cases h
      · subst h
        have : (JSVal.object [("b", .num 2), ("a", .num 1)]).getOwn "b" = some (.num 2) := by
          rfl
        rw [this] at hv
        injection hv with hv
        subst hv
        intro h
        cases h)

/-- C13 as stated fails: on the skiplist index with the fields `a`, `b`, `c` and the
example `{ a: 1, c: 3 }`, the loop stops at the missing field `b`; the leaf is `Eq [1]`
and does not hold the value 3 of the example attribute `c`, a field of the index. -/
theorem SetupExampleSkiplist_gap_counterexample :
    SetupExampleSkiplist sampleObjectToJson ⟨.TRI_IDX_TYPE_SKIPLIST_INDEX, ["a", "b", "c"]⟩
        (.object [("a", .num 1), ("c", .num 3)]) =
      some (.mk TRI_EQ_INDEX_OPERATOR none none (some (.list [.number 1])) 1) ∧
    "c" ∈ ["a", "b", "c"] ∧
    (JSVal.object [("a", .num 1), ("c", .num 3)]).getOwn "c" = some (.num 3) ∧
    sampleObjectToJson (.num 3) = some (.number 3) ∧
    TRI_json_t.number 3 ∉ [TRI_json_t.number 1] := by
  refine ⟨by rfl, by simp, by rfl, by rfl, ?_⟩
  intro h
  simp only [List.mem_singleton] at h
  injection h with h
  exact absurd h (by decide)





/-! ### The outcome of a run that executes a lookup (C14, C15, C17) -/

/-- A run of `JS_ByExampleQuery` that executes `TRI_SelectByExample` ends with the
conversion of the matches. -/
theorem JS_ByExampleQuery_lookup (env : Env) (argv : List JSVal) (pids : List Nat)
    (values : List TRI_shaped_json_t)
    (h : (JS_ByExampleQuery env argv).calls = [IndexCall.TRI_SelectByExample pids values]) :
    (JS_ByExampleQuery env argv).outcome =
      convertResult env (env.TRI_SelectByExample pids values)
        (ExtractSkipAndLimit env argv 1).1 (ExtractSkipAndLimit env argv 1).2 := by
  generalize hr : JS_ByExampleQuery env argv = run at h ⊢
  unfold JS_ByExampleQuery at hr
  simp only [] at hr
  repeat' split at hr
  all_goals subst hr
  all_goals first
    | (cases h; done)
    | skip
  injection h with h1 _
  injection h1 with h2 h3
  subst h2 h3
  simp_all

/-- A run of `ByExampleHashIndexQuery` that executes `TRI_LookupHashIndex` ends with the
conversion of the matches. -/
theorem ByExampleHashIndexQuery_lookup (env : Env) (argv : List JSVal) (idx : TRI_index_t)
    (searchValue : List TRI_shaped_json_t)
    (h : (ByExampleHashIndexQuery env argv).calls =
      [IndexCall.TRI_LookupHashIndex idx searchValue]) :
    (ByExampleHashIndexQuery env argv).outcome =
      convertResult env (env.TRI_LookupHashIndex idx searchValue)
        (ExtractSkipAndLimit env argv 2).1 (ExtractSkipAndLimit env argv 2).2 := by
  generalize hr : ByExampleHashIndexQuery env argv = run at h ⊢
  unfold ByExampleHashIndexQuery at hr
  simp only [] at hr
  repeat' split at hr
  all_goals subst hr
  all_goals first
    | (cases h; done)
    | skip
  injection h with h1 _
  injection h1 with h2 h3
  subst h2 h3
  simp_all

/-- A run of `ExecuteSkiplistQuery` that executes `TRI_LookupSkiplistIndex` ends as the
result of the lookup decides. -/
theorem ExecuteSkiplistQuery_lookup (env : Env) (argv : List JSVal) (signature : String)
    (type : query_t) (idx : TRI_index_t) (op : TRI_index_operator_t)
    (h : (ExecuteSkiplistQuery env argv signature type).calls =
      [IndexCall.TRI_LookupSkiplistIndex idx op]) :
    (ExecuteSkiplistQuery env argv signature type).outcome =
      match env.TRI_LookupSkiplistIndex idx op with
      | .error res =>
        if res = TRI_RESULT_ELEMENT_NOT_FOUND then .ok EmptyResult
        else .exception (TRI_V8_EXCEPTION TRI_ERROR_ARANGO_NO_INDEX)
      | .ok it =>
        if ! env.orderBarrier then .exception (TRI_V8_EXCEPTION TRI_ERROR_OUT_OF_MEMORY)
        else windowOutcome (windowLoop env.WRAP_SHAPED_JSON
          (ExtractSkipAndLimit env argv 2).1 (ExtractSkipAndLimit env argv 2).2 it windowInit) := by
  generalize hr : ExecuteSkiplistQuery env argv signature type = run at h ⊢
  unfold ExecuteSkiplistQuery at hr
  simp only [] at hr
  repeat' split at hr
  all_goals subst hr
  all_goals first
    | (cases h; done)
    | skip
  all_goals
    injection h with h1 _
    injection h1 with h2 h3
    subst h2 h3
    simp_all

/-- A run of `ExecuteBitarrayQuery` that executes `TRI_LookupBitarrayIndex` ends with the
outcome of the windowing loop, which is not entered when there is no iterator. -/
theorem ExecuteBitarrayQuery_lookup (env : Env) (argv : List JSVal) (signature : String)
    (type : query_t) (idx : TRI_index_t) (op : TRI_index_operator_t)
    (h : (ExecuteBitarrayQuery env argv signature type).calls =
      [IndexCall.TRI_LookupBitarrayIndex idx op]) :
    (ExecuteBitarrayQuery env argv signature type).outcome =
      match env.TRI_LookupBitarrayIndex idx op with
      | some it =>
        windowOutcome (windowLoop env.WRAP_SHAPED_JSON
          (ExtractSkipAndLimit env argv 2).1 (ExtractSkipAndLimit env argv 2).2 it windowInit)
      | none => windowOutcome windowInit := by
  generalize hr : ExecuteBitarrayQuery env argv signature type = run at h ⊢
  unfold ExecuteBitarrayQuery at hr
  simp only [] at hr
  repeat' split at hr
  all_goals subst hr
  all_goals first
    | (cases h; done)
    | skip
  all_goals
    injection h with h1 _
    injection h1 with h2 h3
    subst h2 h3
    simp_all

/-- A run of `NearQuery` that executes `TRI_NearestGeoIndex` ends with the stored geo
result. -/
theorem NearQuery_lookup {double : Type} (env : Env) (geo : GeoEnv double)
    (argv : List JSVal) (idx : TRI_index_t) (latitude longitude : double) (limit : Int)
    (h : (NearQuery env geo argv).calls =
      [GeoCall.TRI_NearestGeoIndex idx latitude longitude limit]) :
    (NearQuery env geo argv).outcome =
      geoOutcome env geo (geo.TRI_NearestGeoIndex idx latitude longitude limit) := by
  generalize hr : NearQuery env geo argv = run at h ⊢
  unfold NearQuery at hr
  simp only [] at hr
  repeat' split at hr
  all_goals subst hr
  all_goals first
    | (cases h; done)
    | skip
  injection h with h1 _
  injection h1 with h2 h3 h4 h5
  subst h2 h3 h4 h5
  rfl

/-- A run of `WithinQuery` that executes `TRI_WithinGeoIndex` ends with the stored geo
result. -/
theorem WithinQuery_lookup {double : Type} (env : Env) (geo : GeoEnv double)
    (argv : List JSVal) (idx : TRI_index_t) (latitude longitude radius : double)
    (h : (WithinQuery env geo argv).calls =
      [GeoCall.TRI_WithinGeoIndex idx latitude longitude radius]) :
    (WithinQuery env geo argv).outcome =
      geoOutcome env geo (geo.TRI_WithinGeoIndex idx latitude longitude radius) := by
  generalize hr : WithinQuery env geo argv = run at h ⊢
  unfold WithinQuery at hr
  simp only [] at hr
  repeat' split at hr
  all_goals subst hr
  all_goals first
    | (cases h; done)
    | skip
  injection h with h1 _
  injection h1 with h2 h3 h4 h5
  subst h2 h3 h4 h5
  rfl

/-- The conversion of an empty match list is the empty result. -/
theorem convertResult_nil (env : Env) (skip : Int) (limit : Nat) :
    convertResult env [] skip limit = .ok EmptyResult := by
  rfl

/-- The windowing loop on an iterator that yields nothing leaves the state as it is. -/
theorem windowLoop_nil (WRAP : TRI_doc_mptr_t → Option JSVal) (skip : Int) (limit : Nat)
    (st : WindowState) : windowLoop WRAP skip limit [] st = st := by
  unfold windowLoop
  split <;> rfl

/-- The outcome of the windowing loop that was not entered is the empty result. -/
theorem windowOutcome_windowInit : windowOutcome windowInit = .ok EmptyResult := by
  rfl

/-- `StoreGeoResult` on a geo result of length 0 stores nothing and reports no error. -/
theorem StoreGeoResult_empty {double : Type} (env : Env) (geo : GeoEnv double)
    (cors : GeoCoordinates double) (hbarrier : env.orderBarrier = true)
    (hlen : cors.length = 0) :
    StoreGeoResult env geo cors =
      some { res := TRI_ERROR_NO_ERROR, documents := [], distances := [] } := by
  unfold StoreGeoResult
  simp [hbarrier, hlen]


/-! ### Zero matches (C14) -/

/-- C14: when the index yields no matching document, every adapter returns an empty
result and no error. A run of `JS_ByExampleQuery` or of `ByExampleHashIndexQuery` whose
lookup yields an empty match list, and a run of `ExecuteSkiplistQuery` (with the barrier
obtained) or of `ExecuteBitarrayQuery` whose iterator yields nothing, return
`documents = []`, `total = 0`, `count = 0`; `StoreGeoResult` stores nothing for a geo
result of length 0, and `NearQuery` and `WithinQuery` then return empty `documents` and
`distances`. -/
theorem zero_matches_empty_result {double : Type} (env : Env) (geo : GeoEnv double)
    (argv : List JSVal) (signature : String) (type : query_t) (idx : TRI_index_t)
    (op : TRI_index_operator_t) (pids : List Nat) (values searchValue : List TRI_shaped_json_t)
    (latitude longitude radius : double) (limit : Int) (cors : GeoCoordinates double) :
    ((JS_ByExampleQuery env argv).calls = [IndexCall.TRI_SelectByExample pids values] →
      env.TRI_SelectByExample pids values = [] →
      (JS_ByExampleQuery env argv).outcome = .ok EmptyResult) ∧
    ((ByExampleHashIndexQuery env argv).calls =
        [IndexCall.TRI_LookupHashIndex idx searchValue] →
      env.TRI_LookupHashIndex idx searchValue = [] →
      (ByExampleHashIndexQuery env argv).outcome = .ok EmptyResult) ∧
    ((ExecuteSkiplistQuery env argv signature type).calls =
        [IndexCall.TRI_LookupSkiplistIndex idx op] →
      env.TRI_LookupSkiplistIndex idx op = .ok [] → env.orderBarrier = true →
      (ExecuteSkiplistQuery env argv signature type).outcome = .ok EmptyResult) ∧
    ((ExecuteBitarrayQuery env argv signature type).calls =
        [IndexCall.TRI_LookupBitarrayIndex idx op] →
      env.TRI_LookupBitarrayIndex idx op = some [] →
      (ExecuteBitarrayQuery env argv signature type).outcome = .ok EmptyResult) ∧
    (env.orderBarrier = true → cors.length = 0 →
      StoreGeoResult env geo cors =
        some { res := TRI_ERROR_NO_ERROR, documents := [], distances := [] }) ∧
    ((NearQuery env geo argv).calls =
        [GeoCall.TRI_NearestGeoIndex idx latitude longitude limit] →
      geo.TRI_NearestGeoIndex idx latitude longitude limit = some cors →
      env.orderBarrier = true → cors.length = 0 →
      (NearQuery env geo argv).outcome = .ok { documents := [], distances := [] }) ∧
    ((WithinQuery env geo argv).calls =
        [GeoCall.TRI_WithinGeoIndex idx latitude longitude radius] →
      geo.TRI_WithinGeoIndex idx latitude longitude radius = some cors →
      env.orderBarrier = true → cors.length = 0 →
      (WithinQuery env geo argv).outcome = .ok { documents := [], distances := [] }) := by
  refine ⟨?_, ?_, ?_, ?_, ?_, ?_, ?_⟩
  · intro hcalls hempty
    rw [JS_ByExampleQuery_lookup env argv pids values hcalls, hempty, convertResult_nil]
  · intro hcalls hempty
    rw [ByExampleHashIndexQuery_lookup env argv idx searchValue hcalls, hempty,
      convertResult_nil]
  · intro hcalls hempty hbarrier
    rw [ExecuteSkiplistQuery_lookup env argv signature type idx op hcalls, hempty]
    simp only [hbarrier, Bool.not_true, Bool.false_eq_true, if_false, windowLoop_nil,
      windowOutcome_windowInit]
  · intro hcalls hempty
    rw [ExecuteBitarrayQuery_lookup env argv signature type idx op hcalls, hempty]
    simp only [windowLoop_nil, windowOutcome_windowInit]
  · exact StoreGeoResult_empty env geo cors
  · intro hcalls hcors hbarrier hlen
    rw [NearQuery_lookup env geo argv idx latitude longitude limit hcalls, hcors]
    simp only [geoOutcome, StoreGeoResult_empty env geo cors hbarrier hlen, ne_eq,
      not_true_eq_false, if_false]
  · intro hcalls hcors hbarrier hlen
    rw [WithinQuery_lookup env geo argv idx latitude longitude radius hcalls, hcors]
    simp only [geoOutcome, StoreGeoResult_empty env geo cors hbarrier hlen, ne_eq,
      not_true_eq_false, if_false]

/-- C14 in the environment `emptyEnv`, whose indexes match no document: the by-example
query for `{ a: 1 }`, the hash, skiplist and bitarray example queries for `{ a: 1 }` and
the geo queries return empty results. -/
theorem zero_matches_empty_result_witness :
    (JS_ByExampleQuery emptyEnv [.object [("a", .num 1)]]).outcome = .ok EmptyResult ∧
    (ByExampleHashIndexQuery emptyEnv [.str "hash", .object [("a", .num 1)]]).outcome =
      .ok EmptyResult ∧
    (ExecuteSkiplistQuery emptyEnv [.str "skiplist", .object [("a", .num 1)]]
      "BY_EXAMPLE_SKIPLIST(<index>, <example>, <skip>, <limit>)" QUERY_EXAMPLE).outcome =
      .ok EmptyResult ∧
    (ExecuteBitarrayQuery emptyEnv [.str "bitarray", .object [("a", .num 1)]]
      "BY_EXAMPLE_BITARRAY(<index>, <example>, <skip>, <limit>)" QUERY_EXAMPLE).outcome =
      .ok EmptyResult ∧
    StoreGeoResult emptyEnv emptyGeoEnv { length := 0, coordinates := [], distances := [] } =
      some { res := TRI_ERROR_NO_ERROR, documents := [], distances := [] } ∧
    (NearQuery emptyEnv emptyGeoEnv [.str "geo", .num 1, .num 2, .num 3]).outcome =
      .ok { documents := [], distances := [] } ∧
    (WithinQuery emptyEnv emptyGeoEnv [.str "geo", .num 1, .num 2, .num 3]).outcome =
      .ok { documents := [], distances := [] } :=
  ⟨(zero_matches_empty_result emptyEnv emptyGeoEnv [.object [("a", .num 1)]] "" QUERY_EXAMPLE
      ⟨.TRI_IDX_TYPE_HASH_INDEX, ["a"]⟩ (.mk TRI_EQ_INDEX_OPERATOR none none none 0)
      [1] [⟨1, []⟩] [] 0 0 0 0 { length := 0, coordinates := [], distances := [] }).1
      (by rfl) (by rfl),
    (zero_matches_empty_result emptyEnv emptyGeoEnv [.str "hash", .object [("a", .num 1)]] ""
      QUERY_EXAMPLE ⟨.TRI_IDX_TYPE_HASH_INDEX, ["a"]⟩
      (.mk TRI_EQ_INDEX_OPERATOR none none none 0)
      [] [] [⟨1, []⟩] 0 0 0 0 { length := 0, coordinates := [], distances := [] }).2.1
      (by rfl) (by rfl),
    (zero_matches_empty_result emptyEnv emptyGeoEnv
      [.str "skiplist", .object [("a", .num 1)]]
      "BY_EXAMPLE_SKIPLIST(<index>, <example>, <skip>, <limit>)" QUERY_EXAMPLE
      ⟨.TRI_IDX_TYPE_SKIPLIST_INDEX, ["a", "b", "c"]⟩
      (.mk TRI_EQ_INDEX_OPERATOR none none (some (.list [.number 1])) 1)
      [] [] [] 0 0 0 0 { length := 0, coordinates := [], distances := [] }).2.2.1
      (by rfl) (by rfl) (by rfl),
    (zero_matches_empty_result emptyEnv emptyGeoEnv
      [.str "bitarray", .object [("a", .num 1)]]
      "BY_EXAMPLE_BITARRAY(<index>, <example>, <skip>, <limit>)" QUERY_EXAMPLE
      ⟨.TRI_IDX_TYPE_BITARRAY_INDEX, ["a", "b"]⟩
      (.mk TRI_EQ_INDEX_OPERATOR none none (some (.list [.number 1, .unused])) 2)
      [] [] [] 0 0 0 0 { length := 0, coordinates := [], distances := [] }).2.2.2.1
      (by rfl) (by rfl),
    (zero_matches_empty_result emptyEnv emptyGeoEnv [] "" QUERY_EXAMPLE
      ⟨.TRI_IDX_TYPE_HASH_INDEX, ["a"]⟩ (.mk TRI_EQ_INDEX_OPERATOR none none none 0)
      [] [] [] 0 0 0 0 { length := 0, coordinates := [], distances := [] }).2.2.2.2.1
      (by rfl) (by rfl),
    (zero_matches_empty_result emptyEnv emptyGeoEnv [.str "geo", .num 1, .num 2, .num 3] ""
      QUERY_EXAMPLE ⟨.TRI_IDX_TYPE_GEO2_INDEX, ["lat", "lon"]⟩
      (.mk TRI_EQ_INDEX_OPERATOR none none none 0)
      [] [] [] 1 2 3 3 { length := 0, coordinates := [], distances := [] }).2.2.2.2.2.1
      (by rfl) (by rfl) (by rfl) (by rfl),
    (zero_matches_empty_result emptyEnv emptyGeoEnv [.str "geo", .num 1, .num 2, .num 3] ""
      QUERY_EXAMPLE ⟨.TRI_IDX_TYPE_GEO2_INDEX, ["lat", "lon"]⟩
      (.mk TRI_EQ_INDEX_OPERATOR none none none 0)
      [] [] [] 1 2 3 3 { length := 0, coordinates := [], distances := [] }).2.2.2.2.2.2
      (by rfl) (by rfl) (by rfl) (by rfl)⟩



/-! ### Unknown attribute paths (C15) -/

/-- The loop of `SetupExampleObject` ends with `TRI_RESULT_ELEMENT_NOT_FOUND` when every
key has a UTF-8 form and one of the keys has no attribute path. -/
theorem exampleObjectLoop_not_found (env : Env) (example_ : JSVal) :
    ∀ (keys : List String) (pids : List Nat) (values : List TRI_shaped_json_t),
      (∀ key ∈ keys, env.TRI_Utf8ValueNFC key ≠ none) →
      (∃ key ∈ keys, ∃ s, env.TRI_Utf8ValueNFC key = some s ∧
        env.lookupAttributePathByName s = 0) →
      exampleObjectLoop env example_ keys pids values =
        .error (TRI_RESULT_ELEMENT_NOT_FOUND, none) := by
  intro keys
  induction keys with
  | nil =>
    intro pids values _ hkey
    obtain ⟨key, hmem, _⟩ := hkey
    simp at hmem
  | cons k rest ih =>
    intro pids values hutf hkey
    unfold exampleObjectLoop
    cases hk : env.TRI_Utf8ValueNFC k with
    | none => exact absurd hk (hutf k (by simp))
    | some keyStr =>
      simp only []
      by_cases hpid : env.lookupAttributePathByName keyStr = 0
      · rw [if_pos hpid]
      · rw [if_neg hpid]
        cases env.TRI_ShapedJsonV8Object ((example_.getOwn k).getD .undefined) with
        | none => rfl
        | some value =>
          simp only []
          apply ih _ _ (fun key h => hutf key (by simp [h]))
          obtain ⟨key, hmem, s, hs, h0⟩ := hkey
          rcases List.mem_cons.mp hmem with h | h
          · subst h
            rw [hk] at hs
            injection hs with hs
            subst hs
            exact absurd h0 hpid
          · exact ⟨key, h, s, hs, h0⟩

/-- The run of `JS_ByExampleQuery` once the checks of the arguments, of the collection,
of the transaction and of the barrier have passed. -/
theorem JS_ByExampleQuery_checked (env : Env) (argv : List JSVal) (hlen : 1 ≤ argv.length)
    (hobj : (argv.getD 0 .undefined).IsObject = true) (hcol : env.col = true)
    (hshard : env.sharding = none) (htrx : env.trxBegin = TRI_ERROR_NO_ERROR)
    (hbarrier : env.orderBarrier = true) :
    JS_ByExampleQuery env argv =
      match SetupExampleObject env (argv.getD 0 .undefined) with
      | .error (res, err) =>
        if res = TRI_RESULT_ELEMENT_NOT_FOUND then ⟨.ok EmptyResult, []⟩
        else ⟨.exception (ThrowException err), []⟩
      | .ok (pids, values) =>
        ⟨convertResult env (env.TRI_SelectByExample pids values)
          (ExtractSkipAndLimit env argv 1).1 (ExtractSkipAndLimit env argv 1).2,
          [IndexCall.TRI_SelectByExample pids values]⟩ := by
  unfold JS_ByExampleQuery
  have h1 : ¬ argv.length < 1 := by omega
  rw [if_neg h1]
  simp only [hobj, hcol, hshard, htrx, hbarrier, Bool.not_true, Bool.false_eq_true,
    if_false, ne_eq, not_true_eq_false]

/-- The run of `ByExampleHashIndexQuery` once the checks of the arguments, of the barrier
and of the index kind have passed. -/
theorem ByExampleHashIndexQuery_checked (env : Env) (argv : List JSVal) (idx : TRI_index_t)
    (hlen : 2 ≤ argv.length) (hobj : (argv.getD 1 .undefined).IsObject = true)
    (hbarrier : env.orderBarrier = true)
    (hidx : env.TRI_LookupIndexByHandle (argv.getD 0 .undefined) = .ok idx)
    (hty : idx._type = .TRI_IDX_TYPE_HASH_INDEX) :
    ByExampleHashIndexQuery env argv =
      match SetupSearchValue env (env.hashPaths idx) (argv.getD 1 .undefined) with
      | .error (res, err) =>
        if res = TRI_RESULT_ELEMENT_NOT_FOUND then ⟨.ok EmptyResult, []⟩
        else ⟨.exception (ThrowException err), []⟩
      | .ok searchValue =>
        ⟨convertResult env (env.TRI_LookupHashIndex idx searchValue)
          (ExtractSkipAndLimit env argv 2).1 (ExtractSkipAndLimit env argv 2).2,
          [IndexCall.TRI_LookupHashIndex idx searchValue]⟩ := by
  unfold ByExampleHashIndexQuery
  have h1 : ¬ argv.length < 2 := by omega
  rw [if_neg h1]
  simp only [hobj, hbarrier, hidx, hty, Bool.not_true, Bool.false_eq_true,
    if_false, ne_eq, not_true_eq_false]

/-- C15: an attribute path that is not known gives the empty result and no error.
`JS_ByExampleQuery` returns `{documents: [], total: 0, count: 0}` without a lookup when
`SetupExampleObject` reports element-not-found, which it does when a key of the example
has no attribute path id; `ByExampleHashIndexQuery` returns it without a lookup when
`SetupSearchValue` reports element-not-found; `ExecuteSkiplistQuery` returns it when the
skiplist lookup reports element-not-found. -/
theorem element_not_found_empty_result (env : Env) (argv : List JSVal) (signature : String)
    (type : query_t) (idx : TRI_index_t) (op : TRI_index_operator_t)
    (err : Option ErrorObject) :
    (1 ≤ argv.length → (argv.getD 0 .undefined).IsObject = true → env.col = true →
      env.sharding = none → env.trxBegin = TRI_ERROR_NO_ERROR → env.orderBarrier = true →
      ((SetupExampleObject env (argv.getD 0 .undefined) =
          .error (TRI_RESULT_ELEMENT_NOT_FOUND, err) →
        JS_ByExampleQuery env argv = ⟨.ok EmptyResult, []⟩) ∧
      ((∀ key ∈ (argv.getD 0 .undefined).GetOwnPropertyNames,
          env.TRI_Utf8ValueNFC key ≠ none) →
        (∃ key ∈ (argv.getD 0 .undefined).GetOwnPropertyNames, ∃ s,
          env.TRI_Utf8ValueNFC key = some s ∧ env.lookupAttributePathByName s = 0) →
        JS_ByExampleQuery env argv = ⟨.ok EmptyResult, []⟩))) ∧
    (2 ≤ argv.length → (argv.getD 1 .undefined).IsObject = true → env.orderBarrier = true →
      env.TRI_LookupIndexByHandle (argv.getD 0 .undefined) = .ok idx →
      idx._type = .TRI_IDX_TYPE_HASH_INDEX →
      SetupSearchValue env (env.hashPaths idx) (argv.getD 1 .undefined) =
        .error (TRI_RESULT_ELEMENT_NOT_FOUND, err) →
      ByExampleHashIndexQuery env argv = ⟨.ok EmptyResult, []⟩) ∧
    ((ExecuteSkiplistQuery env argv signature type).calls =
        [IndexCall.TRI_LookupSkiplistIndex idx op] →
      env.TRI_LookupSkiplistIndex idx op = .error TRI_RESULT_ELEMENT_NOT_FOUND →
      (ExecuteSkiplistQuery env argv signature type).outcome = .ok EmptyResult) := by
  refine ⟨?_, ?_, ?_⟩
  · intro hlen hobj hcol hshard htrx hbarrier
    have hrun := JS_ByExampleQuery_checked env argv hlen hobj hcol hshard htrx hbarrier
    constructor
    · intro hsetup
      rw [hrun, hsetup]
      simp
    · intro hutf hkey
      have hsetup : SetupExampleObject env (argv.getD 0 .undefined) =
          .error (TRI_RESULT_ELEMENT_NOT_FOUND, none) :=
        exampleObjectLoop_not_found env _ _ [] [] hutf hkey
      rw [hrun, hsetup]
      simp
  · intro hlen hobj hbarrier hidx hty hsetup
    rw [ByExampleHashIndexQuery_checked env argv idx hlen hobj hbarrier hidx hty, hsetup]
    simp
  · intro hcalls hlookup
    rw [ExecuteSkiplistQuery_lookup env argv signature type idx op hcalls, hlookup]
    simp


/-- C15 in the environment `notFoundEnv`: the examples `{ zz: 2 }` and `{ a: 1, zz: 2 }`,
whose attribute `zz` has no attribute path, the hash query whose search value reports
element-not-found and the skiplist query whose lookup reports element-not-found all give
the empty result. -/
theorem element_not_found_empty_result_witness :
    JS_ByExampleQuery notFoundEnv [.object [("zz", .num 2)]] = ⟨.ok EmptyResult, []⟩ ∧
    JS_ByExampleQuery notFoundEnv [.object [("a", .num 1), ("zz", .num 2)]] =
      ⟨.ok EmptyResult, []⟩ ∧
    ByExampleHashIndexQuery notFoundEnv [.str "hash", .object [("a", .num 1)]] =
      ⟨.ok EmptyResult, []⟩ ∧
    (ExecuteSkiplistQuery notFoundEnv [.str "skiplist", .object [("a", .num 1)]]
      "BY_EXAMPLE_SKIPLIST(<index>, <example>, <skip>, <limit>)" QUERY_EXAMPLE).outcome =
      .ok EmptyResult :=
  ⟨((element_not_found_empty_result notFoundEnv [.object [("zz", .num 2)]] "" QUERY_EXAMPLE
      ⟨.TRI_IDX_TYPE_HASH_INDEX, ["a"]⟩ (.mk TRI_EQ_INDEX_OPERATOR none none none 0) none).1
      (by decide) (by rfl) (by rfl) (by rfl) (by rfl) (by rfl)).1 (by rfl),
    ((element_not_found_empty_result notFoundEnv [.object [("a", .num 1), ("zz", .num 2)]] ""
      QUERY_EXAMPLE ⟨.TRI_IDX_TYPE_HASH_INDEX, ["a"]⟩
      (.mk TRI_EQ_INDEX_OPERATOR none none none 0) none).1
      (by decide) (by rfl) (by rfl) (by rfl) (by rfl) (by rfl)).2
      (by intro key _; exact Option.some_ne_none key)
      ⟨"zz", by decide, "zz", rfl, by rfl⟩,
    (element_not_found_empty_result notFoundEnv [.str "hash", .object [("a", .num 1)]] ""
      QUERY_EXAMPLE ⟨.TRI_IDX_TYPE_HASH_INDEX, ["a"]⟩
      (.mk TRI_EQ_INDEX_OPERATOR none none none 0) none).2.1
      (by decide) (by rfl) (by rfl) (by rfl) (by rfl) (by rfl),
    (element_not_found_empty_result notFoundEnv [.str "skiplist", .object [("a", .num 1)]]
      "BY_EXAMPLE_SKIPLIST(<index>, <example>, <skip>, <limit>)" QUERY_EXAMPLE
      ⟨.TRI_IDX_TYPE_SKIPLIST_INDEX, ["a", "b", "c"]⟩
      (.mk TRI_EQ_INDEX_OPERATOR none none (some (.list [.number 1])) 1) none).2.2
      (by rfl) (by rfl)⟩



/-! ### Index of the wrong kind (C16) -/

/-- A run of `ExecuteSkiplistQuery` on a handle that resolves to an index that is not a
skiplist index executes no lookup. -/
theorem ExecuteSkiplistQuery_wrong_kind_calls (env : Env) (argv : List JSVal)
    (signature : String) (type : query_t) (idx : TRI_index_t)
    (hidx : env.TRI_LookupIndexByHandle (argv.getD 0 .undefined) = .ok idx)
    (hty : idx._type ≠ .TRI_IDX_TYPE_SKIPLIST_INDEX) :
    (ExecuteSkiplistQuery env argv signature type).calls = [] := by
  generalize hr : ExecuteSkiplistQuery env argv signature type = run
  unfold ExecuteSkiplistQuery at hr
  simp only [] at hr
  repeat' split at hr
  all_goals subst hr
  all_goals first
    | rfl
    | simp_all

/-- A run of `ExecuteBitarrayQuery` on a handle that resolves to an index that is not a
bitarray index executes no lookup. -/
theorem ExecuteBitarrayQuery_wrong_kind_calls (env : Env) (argv : List JSVal)
    (signature : String) (type : query_t) (idx : TRI_index_t)
    (hidx : env.TRI_LookupIndexByHandle (argv.getD 0 .undefined) = .ok idx)
    (hty : idx._type ≠ .TRI_IDX_TYPE_BITARRAY_INDEX) :
    (ExecuteBitarrayQuery env argv signature type).calls = [] := by
  generalize hr : ExecuteBitarrayQuery env argv signature type = run
  unfold ExecuteBitarrayQuery at hr
  simp only [] at hr
  repeat' split at hr
  all_goals subst hr
  all_goals first
    | rfl
    | simp_all

/-- A run of `ByExampleHashIndexQuery` on a handle that resolves to an index that is not
a hash index executes no lookup. -/
theorem ByExampleHashIndexQuery_wrong_kind_calls (env : Env) (argv : List JSVal)
    (idx : TRI_index_t)
    (hidx : env.TRI_LookupIndexByHandle (argv.getD 0 .undefined) = .ok idx)
    (hty : idx._type ≠ .TRI_IDX_TYPE_HASH_INDEX) :
    (ByExampleHashIndexQuery env argv).calls = [] := by
  generalize hr : ByExampleHashIndexQuery env argv = run
  unfold ByExampleHashIndexQuery at hr
  simp only [] at hr
  repeat' split at hr
  all_goals subst hr
  all_goals first
    | rfl
    | simp_all

/-- A run of `FulltextQuery` on a handle that resolves to an index that is not a fulltext
index executes no lookup. -/
theorem FulltextQuery_wrong_kind_calls (env : Env) (ft : FulltextEnv) (argv : List JSVal)
    (idx : TRI_index_t)
    (hidx : env.TRI_LookupIndexByHandle (argv.getD 0 .undefined) = .ok idx)
    (hty : idx._type ≠ .TRI_IDX_TYPE_FULLTEXT_INDEX) :
    (FulltextQuery env ft argv).calls = [] := by
  generalize hr : FulltextQuery env ft argv = run
  unfold FulltextQuery at hr
  simp only [] at hr
  repeat' split at hr
  all_goals subst hr
  all_goals first
    | rfl
    | simp_all

/-- A run of `NearQuery` on a handle that resolves to an index that is not a geo index
executes no lookup. -/
theorem NearQuery_wrong_kind_calls {double : Type} (env : Env) (geo : GeoEnv double)
    (argv : List JSVal) (idx : TRI_index_t)
    (hidx : env.TRI_LookupIndexByHandle (argv.getD 0 .undefined) = .ok idx)
    (hty : idx._type ≠ .TRI_IDX_TYPE_GEO1_INDEX ∧ idx._type ≠ .TRI_IDX_TYPE_GEO2_INDEX) :
    (NearQuery env geo argv).calls = [] := by
  generalize hr : NearQuery env geo argv = run
  unfold NearQuery at hr
  simp only [] at hr
  repeat' split at hr
  all_goals subst hr
  all_goals first
    | rfl
    | simp_all

/-- A run of `WithinQuery` on a handle that resolves to an index that is not a geo index
executes no lookup. -/
theorem WithinQuery_wrong_kind_calls {double : Type} (env : Env) (geo : GeoEnv double)
    (argv : List JSVal) (idx : TRI_index_t)
    (hidx : env.TRI_LookupIndexByHandle (argv.getD 0 .undefined) = .ok idx)
    (hty : idx._type ≠ .TRI_IDX_TYPE_GEO1_INDEX ∧ idx._type ≠ .TRI_IDX_TYPE_GEO2_INDEX) :
    (WithinQuery env geo argv).calls = [] := by
  generalize hr : WithinQuery env geo argv = run
  unfold WithinQuery at hr
  simp only [] at hr
  repeat' split at hr
  all_goals subst hr
  all_goals first
    | rfl
    | simp_all


/-- C16: every index adapter fails with `TRI_ERROR_ARANGO_NO_INDEX`, without executing
any lookup, when the handle resolves to an index that is not of the expected kind:
a skiplist index for `ExecuteSkiplistQuery`, a bitarray index for `ExecuteBitarrayQuery`,
a hash index for `ByExampleHashIndexQuery`, a fulltext index for `FulltextQuery`, and a
geo index of kind GEO1 or GEO2 for `NearQuery` and `WithinQuery`. The checks that the
adapter makes before it resolves the handle are taken to have passed; no lookup is
executed whether they pass or not. -/
theorem wrong_index_kind_no_index {double : Type} (env : Env) (ft : FulltextEnv)
    (geo : GeoEnv double) (argv : List JSVal) (signature : String) (type : query_t)
    (idx : TRI_index_t)
    (hidx : env.TRI_LookupIndexByHandle (argv.getD 0 .undefined) = .ok idx) :
    (idx._type ≠ .TRI_IDX_TYPE_SKIPLIST_INDEX →
      (ExecuteSkiplistQuery env argv signature type).calls = [] ∧
      (2 ≤ argv.length → (argv.getD 1 .undefined).IsObject = true → env.col = true →
        env.sharding = none → env.trxBegin = TRI_ERROR_NO_ERROR →
        (ExecuteSkiplistQuery env argv signature type).outcome =
          .exception (TRI_V8_EXCEPTION TRI_ERROR_ARANGO_NO_INDEX))) ∧
    (idx._type ≠ .TRI_IDX_TYPE_BITARRAY_INDEX →
      (ExecuteBitarrayQuery env argv signature type).calls = [] ∧
      (2 ≤ argv.length → (argv.getD 1 .undefined).IsObject = true → env.col = true →
        env.sharding = none → env.trxBegin = TRI_ERROR_NO_ERROR →
        (ExecuteBitarrayQuery env argv signature type).outcome =
          .exception (TRI_V8_EXCEPTION TRI_ERROR_ARANGO_NO_INDEX))) ∧
    (idx._type ≠ .TRI_IDX_TYPE_HASH_INDEX →
      (ByExampleHashIndexQuery env argv).calls = [] ∧
      (2 ≤ argv.length → (argv.getD 1 .undefined).IsObject = true →
        env.orderBarrier = true →
        (ByExampleHashIndexQuery env argv).outcome =
          .exception (TRI_V8_EXCEPTION TRI_ERROR_ARANGO_NO_INDEX))) ∧
    (idx._type ≠ .TRI_IDX_TYPE_FULLTEXT_INDEX →
      (FulltextQuery env ft argv).calls = [] ∧
      (argv.length = 2 →
        (FulltextQuery env ft argv).outcome =
          .exception (TRI_V8_EXCEPTION TRI_ERROR_ARANGO_NO_INDEX))) ∧
    (idx._type ≠ .TRI_IDX_TYPE_GEO1_INDEX ∧ idx._type ≠ .TRI_IDX_TYPE_GEO2_INDEX →
      (NearQuery env geo argv).calls = [] ∧
      (WithinQuery env geo argv).calls = [] ∧
      (argv.length = 4 →
        (NearQuery env geo argv).outcome =
          .exception (TRI_V8_EXCEPTION TRI_ERROR_ARANGO_NO_INDEX) ∧
        (WithinQuery env geo argv).outcome =
          .exception (TRI_V8_EXCEPTION TRI_ERROR_ARANGO_NO_INDEX))) := by
  refine ⟨?_, ?_, ?_, ?_, ?_⟩
  · intro hty
    refine ⟨ExecuteSkiplistQuery_wrong_kind_calls env argv signature type idx hidx hty, ?_⟩
    intro hlen hobj hcol hshard htrx
    unfold ExecuteSkiplistQuery
    have h1 : ¬ argv.length < 2 := by omega
    rw [if_neg h1]
    simp only [hobj, hcol, hshard, htrx, hidx, Bool.not_true, Bool.false_eq_true, if_false,
      ne_eq, not_true_eq_false]
    rw [if_pos hty]
  · intro hty
    refine ⟨ExecuteBitarrayQuery_wrong_kind_calls env argv signature type idx hidx hty, ?_⟩
    intro hlen hobj hcol hshard htrx
    unfold ExecuteBitarrayQuery
    have h1 : ¬ argv.length < 2 := by omega
    rw [if_neg h1]
    simp only [hobj, hcol, hshard, htrx, hidx, Bool.not_true, Bool.false_eq_true, if_false,
      ne_eq, not_true_eq_false]
    rw [if_pos hty]
  · intro hty
    refine ⟨ByExampleHashIndexQuery_wrong_kind_calls env argv idx hidx hty, ?_⟩
    intro hlen hobj hbarrier
    unfold ByExampleHashIndexQuery
    have h1 : ¬ argv.length < 2 := by omega
    rw [if_neg h1]
    simp only [hobj, hbarrier, hidx, Bool.not_true, Bool.false_eq_true, if_false]
    rw [if_pos hty]
  · intro hty
    refine ⟨FulltextQuery_wrong_kind_calls env ft argv idx hidx hty, ?_⟩
    intro hlen
    unfold FulltextQuery
    have h1 : ¬ argv.length ≠ 2 := by omega
    rw [if_neg h1]
    simp only [hidx]
    rw [if_pos hty]
  · intro hty
    refine ⟨NearQuery_wrong_kind_calls env geo argv idx hidx hty,
      WithinQuery_wrong_kind_calls env geo argv idx hidx hty, ?_⟩
    intro hlen
    have h1 : ¬ argv.length ≠ 4 := by omega
    constructor
    · unfold NearQuery
      rw [if_neg h1]
      simp only [hidx]
      rw [if_pos hty]
    · unfold WithinQuery
      rw [if_neg h1]
      simp only [hidx]
      rw [if_pos hty]

/-- C16 on concrete handles: the skiplist and bitarray queries on a hash index, the hash
query on a skiplist index, the fulltext query on a geo index and the geo queries on a
fulltext index execute no lookup and fail with `TRI_ERROR_ARANGO_NO_INDEX`. -/
theorem wrong_index_kind_no_index_witness :
    ((ExecuteSkiplistQuery sampleEnv [.str "hash", .object [("a", .num 1)]]
        "BY_EXAMPLE_SKIPLIST(<index>, <example>, <skip>, <limit>)" QUERY_EXAMPLE).calls = [] ∧
      (ExecuteSkiplistQuery sampleEnv [.str "hash", .object [("a", .num 1)]]
        "BY_EXAMPLE_SKIPLIST(<index>, <example>, <skip>, <limit>)" QUERY_EXAMPLE).outcome =
        .exception (TRI_V8_EXCEPTION TRI_ERROR_ARANGO_NO_INDEX)) ∧
    ((ExecuteBitarrayQuery sampleEnv [.str "hash", .object [("a", .num 1)]]
        "BY_EXAMPLE_BITARRAY(<index>, <example>, <skip>, <limit>)" QUERY_EXAMPLE).calls = [] ∧
      (ExecuteBitarrayQuery sampleEnv [.str "hash", .object [("a", .num 1)]]
        "BY_EXAMPLE_BITARRAY(<index>, <example>, <skip>, <limit>)" QUERY_EXAMPLE).outcome =
        .exception (TRI_V8_EXCEPTION TRI_ERROR_ARANGO_NO_INDEX)) ∧
    ((ByExampleHashIndexQuery sampleEnv [.str "skiplist", .object [("a", .num 1)]]).calls =
        [] ∧
      (ByExampleHashIndexQuery sampleEnv [.str "skiplist", .object [("a", .num 1)]]).outcome =
        .exception (TRI_V8_EXCEPTION TRI_ERROR_ARANGO_NO_INDEX)) ∧
    ((FulltextQuery geoSampleEnv sampleFulltextEnv [.str "geo", .str "complete:ab"]).calls =
        [] ∧
      (FulltextQuery geoSampleEnv sampleFulltextEnv [.str "geo", .str "complete:ab"]).outcome =
        .exception (TRI_V8_EXCEPTION TRI_ERROR_ARANGO_NO_INDEX)) ∧
    ((NearQuery geoSampleEnv sampleGeoEnv [.str "fulltext", .num 1, .num 2, .num 3]).calls =
        [] ∧
      (WithinQuery geoSampleEnv sampleGeoEnv [.str "fulltext", .num 1, .num 2, .num 3]).calls =
        [] ∧
      (NearQuery geoSampleEnv sampleGeoEnv [.str "fulltext", .num 1, .num 2, .num 3]).outcome =
        .exception (TRI_V8_EXCEPTION TRI_ERROR_ARANGO_NO_INDEX) ∧
      (WithinQuery geoSampleEnv sampleGeoEnv
        [.str "fulltext", .num 1, .num 2, .num 3]).outcome =
        .exception (TRI_V8_EXCEPTION TRI_ERROR_ARANGO_NO_INDEX)) := by
  have hs := (wrong_index_kind_no_index sampleEnv sampleFulltextEnv sampleGeoEnv
    [.str "hash", .object [("a", .num 1)]]
    "BY_EXAMPLE_SKIPLIST(<index>, <example>, <skip>, <limit>)" QUERY_EXAMPLE
    ⟨.TRI_IDX_TYPE_HASH_INDEX, ["a"]⟩ (by rfl)).1 (by decide)
  have hb := (wrong_index_kind_no_index sampleEnv sampleFulltextEnv sampleGeoEnv
    [.str "hash", .object [("a", .num 1)]]
    "BY_EXAMPLE_BITARRAY(<index>, <example>, <skip>, <limit>)" QUERY_EXAMPLE
    ⟨.TRI_IDX_TYPE_HASH_INDEX, ["a"]⟩ (by rfl)).2.1 (by decide)
  have hh := (wrong_index_kind_no_index sampleEnv sampleFulltextEnv sampleGeoEnv
    [.str "skiplist", .object [("a", .num 1)]] "" QUERY_EXAMPLE
    ⟨.TRI_IDX_TYPE_SKIPLIST_INDEX, ["a", "b", "c"]⟩ (by rfl)).2.2.1 (by decide)
  have hf := (wrong_index_kind_no_index geoSampleEnv sampleFulltextEnv sampleGeoEnv
    [.str "geo", .str "complete:ab"] "" QUERY_EXAMPLE
    ⟨.TRI_IDX_TYPE_GEO2_INDEX, ["lat", "lon"]⟩ (by rfl)).2.2.2.1 (by decide)
  have hg := (wrong_index_kind_no_index geoSampleEnv sampleFulltextEnv sampleGeoEnv
    [.str "fulltext", .num 1, .num 2, .num 3] "" QUERY_EXAMPLE
    ⟨.TRI_IDX_TYPE_FULLTEXT_INDEX, ["text"]⟩ (by rfl)).2.2.2.2 (by decide)
  exact ⟨⟨hs.1, hs.2 (by decide) (by rfl) (by rfl) (by rfl) (by rfl)⟩,
    ⟨hb.1, hb.2 (by decide) (by rfl) (by rfl) (by rfl) (by rfl)⟩,
    ⟨hh.1, hh.2 (by decide) (by rfl) (by rfl)⟩,
    ⟨hf.1, hf.2 (by rfl)⟩,
    ⟨hg.1, hg.2.1, (hg.2.2 (by rfl)).1, (hg.2.2 (by rfl)).2⟩⟩



/-! ### Index execution that returns null (C17) -/

/-- A run of `FulltextQuery` that executes `TRI_QueryFulltextIndex` ends as the result of
the query decides. -/
theorem FulltextQuery_lookup (env : Env) (ft : FulltextEnv) (argv : List JSVal)
    (idx : TRI_index_t) (queryString : String)
    (h : (FulltextQuery env ft argv).calls =
      [FulltextCall.TRI_QueryFulltextIndex idx queryString]) :
    (FulltextQuery env ft argv).outcome =
      match ft.TRI_QueryFulltextIndex idx queryString with
      | none =>
        .exception (TRI_V8_EXCEPTION_INTERNAL "internal error in fulltext index query")
      | some queryResult =>
        if ! env.orderBarrier then .exception (TRI_V8_EXCEPTION TRI_ERROR_OUT_OF_MEMORY)
        else if (fulltextLoop env.WRAP_SHAPED_JSON queryResult []).2
        then .exception TRI_V8_EXCEPTION_MEMORY
        else .ok { documents := (fulltextLoop env.WRAP_SHAPED_JSON queryResult []).1 } := by
  generalize hr : FulltextQuery env ft argv = run at h ⊢
  unfold FulltextQuery at hr
  simp only [] at hr
  repeat' split at hr
  all_goals subst hr
  all_goals first
    | (cases h; done)
    | skip
  all_goals
    injection h with h1 _
    injection h1 with h2 h3
    subst h2 h3
    simp_all

/-- C17 (amended): when index execution returns null, `FulltextQuery` raises the internal
error "internal error in fulltext index query" (`TRI_QueryFulltextIndex` returned no
result), `ExecuteSkiplistQuery` fails with `TRI_ERROR_ARANGO_NO_INDEX`
(`TRI_LookupSkiplistIndex` failed for a reason other than element-not-found), and
`ExecuteBitarrayQuery` returns the empty result `{documents: [], total: 0, count: 0}`
(`TRI_LookupBitarrayIndex` returned no iterator). -/
theorem null_index_execution (env : Env) (ft : FulltextEnv) (argv : List JSVal)
    (signature : String) (type : query_t) (idx : TRI_index_t) (op : TRI_index_operator_t)
    (queryString : String) (res : TRI_errno) :
    ((FulltextQuery env ft argv).calls =
        [FulltextCall.TRI_QueryFulltextIndex idx queryString] →
      ft.TRI_QueryFulltextIndex idx queryString = none →
      (FulltextQuery env ft argv).outcome =
        .exception (TRI_V8_EXCEPTION_INTERNAL "internal error in fulltext index query")) ∧
    ((ExecuteSkiplistQuery env argv signature type).calls =
        [IndexCall.TRI_LookupSkiplistIndex idx op] →
      env.TRI_LookupSkiplistIndex idx op = .error res →
      res ≠ TRI_RESULT_ELEMENT_NOT_FOUND →
      (ExecuteSkiplistQuery env argv signature type).outcome =
        .exception (TRI_V8_EXCEPTION TRI_ERROR_ARANGO_NO_INDEX)) ∧
    ((ExecuteBitarrayQuery env argv signature type).calls =
        [IndexCall.TRI_LookupBitarrayIndex idx op] →
      env.TRI_LookupBitarrayIndex idx op = none →
      (ExecuteBitarrayQuery env argv signature type).outcome = .ok EmptyResult) := by
  refine ⟨?_, ?_, ?_⟩
  · intro hcalls hnull
    rw [FulltextQuery_lookup env ft argv idx queryString hcalls, hnull]
  · intro hcalls hnull hres
    rw [ExecuteSkiplistQuery_lookup env argv signature type idx op hcalls, hnull]
    simp only [if_neg hres]
  · intro hcalls hnull
    rw [ExecuteBitarrayQuery_lookup env argv signature type idx op hcalls, hnull]
    rfl

/-- C17 (amended) in the environments `nullEnv` and `nullFulltextEnv`, whose index
execution returns null: the fulltext query raises the internal error, the skiplist query
fails with `TRI_ERROR_ARANGO_NO_INDEX` and the bitarray query returns the empty result. -/
theorem null_index_execution_witness :
    (FulltextQuery nullEnv nullFulltextEnv [.str "fulltext", .str "complete:ab"]).outcome =
      .exception (TRI_V8_EXCEPTION_INTERNAL "internal error in fulltext index query") ∧
    (ExecuteSkiplistQuery nullEnv [.str "skiplist", .object [("a", .num 1)]]
      "BY_EXAMPLE_SKIPLIST(<index>, <example>, <skip>, <limit>)" QUERY_EXAMPLE).outcome =
      .exception (TRI_V8_EXCEPTION TRI_ERROR_ARANGO_NO_INDEX) ∧
    (ExecuteBitarrayQuery nullEnv [.str "bitarray", .object [("a", .num 1)]]
      "BY_EXAMPLE_BITARRAY(<index>, <example>, <skip>, <limit>)" QUERY_EXAMPLE).outcome =
      .ok EmptyResult :=
  ⟨(null_index_execution nullEnv nullFulltextEnv [.str "fulltext", .str "complete:ab"] ""
      QUERY_EXAMPLE ⟨.TRI_IDX_TYPE_FULLTEXT_INDEX, ["text"]⟩
      (.mk TRI_EQ_INDEX_OPERATOR none none none 0) "complete:ab" TRI_ERROR_OUT_OF_MEMORY).1
      (by rfl) (by rfl),
    (null_index_execution nullEnv nullFulltextEnv [.str "skiplist", .object [("a", .num 1)]]
      "BY_EXAMPLE_SKIPLIST(<index>, <example>, <skip>, <limit>)" QUERY_EXAMPLE
      ⟨.TRI_IDX_TYPE_SKIPLIST_INDEX, ["a", "b", "c"]⟩
      (.mk TRI_EQ_INDEX_OPERATOR none none (some (.list [.number 1])) 1) ""
      TRI_ERROR_OUT_OF_MEMORY).2.1 (by rfl) (by rfl) (by decide),
    (null_index_execution nullEnv nullFulltextEnv [.str "bitarray", .object [("a", .num 1)]]
      "BY_EXAMPLE_BITARRAY(<index>, <example>, <skip>, <limit>)" QUERY_EXAMPLE
      ⟨.TRI_IDX_TYPE_BITARRAY_INDEX, ["a", "b"]⟩
      (.mk TRI_EQ_INDEX_OPERATOR none none (some (.list [.number 1, .unused])) 2) ""
      TRI_ERROR_OUT_OF_MEMORY).2.2 (by rfl) (by rfl)⟩

/-- C17 as stated fails: in the environment `nullEnv` the bitarray lookup returns no
iterator and `ExecuteBitarrayQuery` returns the empty result, not an error; the skiplist
lookup fails with `TRI_ERROR_OUT_OF_MEMORY`, not element-not-found, and
`ExecuteSkiplistQuery` raises `TRI_ERROR_ARANGO_NO_INDEX`, which is not an internal
error. -/
theorem null_index_execution_counterexample :
    nullEnv.TRI_LookupBitarrayIndex ⟨.TRI_IDX_TYPE_BITARRAY_INDEX, ["a", "b"]⟩
        (.mk TRI_EQ_INDEX_OPERATOR none none (some (.list [.number 1, .unused])) 2) = none ∧
    ExecuteBitarrayQuery nullEnv [.str "bitarray", .object [("a", .num 1)]]
        "BY_EXAMPLE_BITARRAY(<index>, <example>, <skip>, <limit>)" QUERY_EXAMPLE =
      ⟨.ok { documents := [], total := 0, count := 0 },
        [IndexCall.TRI_LookupBitarrayIndex ⟨.TRI_IDX_TYPE_BITARRAY_INDEX, ["a", "b"]⟩
          (.mk TRI_EQ_INDEX_OPERATOR none none (some (.list [.number 1, .unused])) 2)]⟩ ∧
    nullEnv.TRI_LookupSkiplistIndex ⟨.TRI_IDX_TYPE_SKIPLIST_INDEX, ["a", "b", "c"]⟩
        (.mk TRI_EQ_INDEX_OPERATOR none none (some (.list [.number 1])) 1) =
      .error TRI_ERROR_OUT_OF_MEMORY ∧
    ExecuteSkiplistQuery nullEnv [.str "skiplist", .object [("a", .num 1)]]
        "BY_EXAMPLE_SKIPLIST(<index>, <example>, <skip>, <limit>)" QUERY_EXAMPLE =
      ⟨.exception (TRI_V8_EXCEPTION TRI_ERROR_ARANGO_NO_INDEX),
        [IndexCall.TRI_LookupSkiplistIndex ⟨.TRI_IDX_TYPE_SKIPLIST_INDEX, ["a", "b", "c"]⟩
          (.mk TRI_EQ_INDEX_OPERATOR none none (some (.list [.number 1])) 1)]⟩ ∧
    isInternalError (TRI_V8_EXCEPTION TRI_ERROR_ARANGO_NO_INDEX) = false := by
  exact ⟨by rfl, by rfl, by rfl, by rfl, by rfl⟩



/-! ### Substring queries on a fulltext index (C18) -/

/-- C18: given two arguments, a handle that resolves to a fulltext index and a query
string that parses, `FulltextQuery` fails with `TRI_ERROR_NOT_IMPLEMENTED` if and only if
the parsed query is a substring query and the index has no substring support
(`_indexSubstrings` is false); in that case the index is not queried. -/
theorem FulltextQuery_not_implemented (env : Env) (ft : FulltextEnv) (argv : List JSVal)
    (idx : TRI_index_t) (hlen : argv.length = 2)
    (hidx : env.TRI_LookupIndexByHandle (argv.getD 0 .undefined) = .ok idx)
    (hty : idx._type = .TRI_IDX_TYPE_FULLTEXT_INDEX)
    (hparse : (ft.TRI_ParseQueryFulltextIndex
      (ft.TRI_ObjectToString (argv.getD 1 .undefined))).1 = TRI_ERROR_NO_ERROR) :
    ((FulltextQuery env ft argv).outcome =
        .exception (TRI_V8_EXCEPTION TRI_ERROR_NOT_IMPLEMENTED) ↔
      ((ft.TRI_ParseQueryFulltextIndex
          (ft.TRI_ObjectToString (argv.getD 1 .undefined))).2 = true ∧
        ft._indexSubstrings idx = false)) ∧
    ((ft.TRI_ParseQueryFulltextIndex
        (ft.TRI_ObjectToString (argv.getD 1 .undefined))).2 = true →
      ft._indexSubstrings idx = false → (FulltextQuery env ft argv).calls = []) := by
  have h1 : ¬ argv.length ≠ 2 := by omega
  have hrun : FulltextQuery env ft argv =
      if ((ft.TRI_ParseQueryFulltextIndex
          (ft.TRI_ObjectToString (argv.getD 1 .undefined))).2 &&
          ! ft._indexSubstrings idx) = true then
        ⟨.exception (TRI_V8_EXCEPTION TRI_ERROR_NOT_IMPLEMENTED), []⟩
      else
        match ft.TRI_QueryFulltextIndex idx
            (ft.TRI_ObjectToString (argv.getD 1 .undefined)) with
        | none =>
          ⟨.exception (TRI_V8_EXCEPTION_INTERNAL "internal error in fulltext index query"),
            [FulltextCall.TRI_QueryFulltextIndex idx
              (ft.TRI_ObjectToString (argv.getD 1 .undefined))]⟩
        | some queryResult =>
          if (! env.orderBarrier) = true then
            ⟨.exception (TRI_V8_EXCEPTION TRI_ERROR_OUT_OF_MEMORY),
              [FulltextCall.TRI_QueryFulltextIndex idx
                (ft.TRI_ObjectToString (argv.getD 1 .undefined))]⟩
          else if (fulltextLoop env.WRAP_SHAPED_JSON queryResult []).2 = true then
            ⟨.exception TRI_V8_EXCEPTION_MEMORY,
              [FulltextCall.TRI_QueryFulltextIndex idx
                (ft.TRI_ObjectToString (argv.getD 1 .undefined))]⟩
          else
            ⟨.ok { documents := (fulltextLoop env.WRAP_SHAPED_JSON queryResult []).1 },
              [FulltextCall.TRI_QueryFulltextIndex idx
                (ft.TRI_ObjectToString (argv.getD 1 .undefined))]⟩ := by
    unfold FulltextQuery
    rw [if_neg h1]
    simp only [hidx, hty, hparse, ne_eq, not_true_eq_false, if_false]
  rw [hrun]
  by_cases hsub : ((ft.TRI_ParseQueryFulltextIndex
      (ft.TRI_ObjectToString (argv.getD 1 .undefined))).2 && ! ft._indexSubstrings idx) = true
  · rw [if_pos hsub]
    have hboth : (ft.TRI_ParseQueryFulltextIndex
        (ft.TRI_ObjectToString (argv.getD 1 .undefined))).2 = true ∧
        ft._indexSubstrings idx = false := by
      simpa using hsub
    exact ⟨⟨fun _ => hboth, fun _ => rfl⟩, fun _ _ => rfl⟩
  · rw [if_neg hsub]
    have hnot : ¬ ((ft.TRI_ParseQueryFulltextIndex
        (ft.TRI_ObjectToString (argv.getD 1 .undefined))).2 = true ∧
        ft._indexSubstrings idx = false) := by
      simpa using hsub
    refine ⟨⟨?_, fun h => absurd h hnot⟩, fun h1 h2 => absurd ⟨h1, h2⟩ hnot⟩
    intro hout
    exfalso
    split at hout
    · injection hout with hout
      injection hout
    · split at hout
      · injection hout with hout
        injection hout with hout
        injection hout
      · split at hout
        · injection hout with hout
          injection hout
        · injection hout

/-- C18 on the fulltext index of `sampleFulltextEnv`, which has no substring support: the
substring query `substring:ab` fails with `TRI_ERROR_NOT_IMPLEMENTED` and the index is
not queried. -/
theorem FulltextQuery_not_implemented_witness :
    (FulltextQuery geoSampleEnv sampleFulltextEnv
      [.str "fulltext", .str "substring:ab"]).outcome =
      .exception (TRI_V8_EXCEPTION TRI_ERROR_NOT_IMPLEMENTED) ∧
    (FulltextQuery geoSampleEnv sampleFulltextEnv
      [.str "fulltext", .str "substring:ab"]).calls = [] :=
  ⟨(FulltextQuery_not_implemented geoSampleEnv sampleFulltextEnv
      [.str "fulltext", .str "substring:ab"] ⟨.TRI_IDX_TYPE_FULLTEXT_INDEX, ["text"]⟩
      (by rfl) (by rfl) (by rfl) (by rfl)).1.mpr ⟨by rfl, by rfl⟩,
    (FulltextQuery_not_implemented geoSampleEnv sampleFulltextEnv
      [.str "fulltext", .str "substring:ab"] ⟨.TRI_IDX_TYPE_FULLTEXT_INDEX, ["text"]⟩
      (by rfl) (by rfl) (by rfl) (by rfl)).2 (by rfl) (by rfl)⟩



/-! ### Order and pairing of geo results (C19, C20) -/

/-- The loop that fills `tmp` copies the first `n` payloads and distances, pair by pair. -/
theorem collectLoop_spec {double : Type} :
    ∀ (n : Nat) (coordinates : List (GeoCoordinate double)) (distances : List double),
      n ≤ coordinates.length → n ≤ distances.length →
      collectLoop n coordinates distances =
        some (((coordinates.take n).zip (distances.take n)).map
          (fun p => { _distance := p.2, _data := p.1.data })) := by
  intro n
  induction n with
  | zero => intro coordinates distances _ _; simp [collectLoop]
  | succ n ih =>
    intro coordinates distances hc hd
    cases coordinates with
    | nil => simp at hc
    | cons c cs =>
      cases distances with
      | nil => simp at hd
      | cons d ds =>
        simp only [List.length_cons, Nat.add_le_add_iff_right] at hc hd
        simp only [collectLoop, ih cs ds hc hd, List.take_succ_cons, List.zip_cons_cons,
          List.map_cons]

/-- The array `tmp` of `StoreGeoResult` holds the (payload, distance) pairs of the geo
result. -/
theorem collectLoop_geoPairs {double : Type} (cors : GeoCoordinates double)
    (hc : cors.length ≤ cors.coordinates.length) (hd : cors.length ≤ cors.distances.length) :
    collectLoop cors.length cors.coordinates cors.distances =
      some ((geoPairs cors).map (fun p => { _distance := p.2, _data := p.1 })) := by
  rw [collectLoop_spec cors.length cors.coordinates cors.distances hc hd]
  simp [geoPairs, List.map_map, Function.comp]

/-- The copy loop stores the documents and distances of a leading part of the sorted
array, in the order of the array; it stores all of them unless `error` is set. -/
theorem storeLoop_spec {double : Type} (WRAP : TRI_doc_mptr_t → Option JSVal) :
    ∀ (l : List (geo_coordinate_distance_t double)) (st : GeoStoreState double),
      ∃ k,
        (storeLoop WRAP l st).distances = st.distances ++ (l.take k).map (·._distance) ∧
        (storeLoop WRAP l st).documents.map some =
          st.documents.map some ++ (l.take k).map (fun g => WRAP g._data) ∧
        ((storeLoop WRAP l st).error = false → l.take k = l) := by
  intro l
  induction l with
  | nil =>
    intro st
    exact ⟨0, by simp [storeLoop], by simp [storeLoop], fun _ => rfl⟩
  | cons g rest ih =>
    intro st
    unfold storeLoop
    cases hw : WRAP g._data with
    | none =>
      refine ⟨0, by simp, by simp, ?_⟩
      intro h
      simp at h
    | some doc =>
      simp only []
      obtain ⟨k, h1, h2, h3⟩ := ih
        { st with documents := st.documents ++ [doc],
                  distances := st.distances ++ [g._distance] }
      refine ⟨k + 1, ?_, ?_, ?_⟩
      · rw [h1]
        simp
      · rw [h2]
        simp [hw]
      · intro h
        simp only [List.take_succ_cons]
        rw [h3 h]

/-- The lambda `compareSort` is a strict weak ordering on the array `tmp` when `<` is one
on the distances. -/
theorem compareSort_strictWeakOrder {double : Type} (lt : double → double → Bool)
    (distances : List double) (tmp : List (geo_coordinate_distance_t double))
    (hmem : ∀ g ∈ tmp, g._distance ∈ distances) (hord : StrictWeakOrder lt distances) :
    StrictWeakOrder (compareSort lt) tmp := by
  obtain ⟨h1, h2, h3⟩ := hord
  refine ⟨?_, ?_, ?_⟩
  · intro a ha
    exact h1 _ (hmem a ha)
  · intro a ha b hb c hc
    exact h2 _ (hmem a ha) _ (hmem b hb) _ (hmem c hc)
  · intro a ha b hb c hc
    exact h3 _ (hmem a ha) _ (hmem b hb) _ (hmem c hc)

/-- The distances of the (payload, distance) pairs are distances of the geo result. -/
theorem geoPairs_distance_mem {double : Type} (cors : GeoCoordinates double)
    (p : TRI_doc_mptr_t × double) (hp : p ∈ geoPairs cors) : p.2 ∈ cors.distances := by
  simp only [geoPairs, List.mem_map] at hp
  obtain ⟨q, hq, rfl⟩ := hp
  exact List.mem_of_mem_take (List.of_mem_zip hq).2

/-- The run of `StoreGeoResult` on a geo result whose arrays have `length` entries, with
the barrier obtained and `length > 0`. -/
theorem StoreGeoResult_run {double : Type} (env : Env) (geo : GeoEnv double)
    (cors : GeoCoordinates double) (hbarrier : env.orderBarrier = true)
    (hpos : cors.length ≠ 0) (hc : cors.length ≤ cors.coordinates.length)
    (hd : cors.length ≤ cors.distances.length) :
    StoreGeoResult env geo cors =
      some
        { res := if (storeLoop env.WRAP_SHAPED_JSON
              (geo.std_sort (compareSort geo.lt)
                ((geoPairs cors).map (fun p => { _distance := p.2, _data := p.1 })))
              { documents := [], distances := [], error := false }).error = true
            then TRI_ERROR_OUT_OF_MEMORY else TRI_ERROR_NO_ERROR,
          documents := (storeLoop env.WRAP_SHAPED_JSON
              (geo.std_sort (compareSort geo.lt)
                ((geoPairs cors).map (fun p => { _distance := p.2, _data := p.1 })))
              { documents := [], distances := [], error := false }).documents,
          distances := (storeLoop env.WRAP_SHAPED_JSON
              (geo.std_sort (compareSort geo.lt)
                ((geoPairs cors).map (fun p => { _distance := p.2, _data := p.1 })))
              { documents := [], distances := [], error := false }).distances } := by
  unfold StoreGeoResult
  simp only [hbarrier, Bool.not_true, Bool.false_eq_true, if_false, hpos,
    collectLoop_geoPairs cors hc hd]
  split <;> rfl


/-- The comparison `<` of integers is a strict weak ordering on every list. -/
theorem int_lt_strictWeakOrder (xs : List Int) :
    StrictWeakOrder (fun a b : Int => decide (a < b)) xs := by
  refine ⟨?_, ?_, ?_⟩
  · intro a _
    simp
  · intro a _ b _ c _ hab hbc
    simp only [decide_eq_true_eq] at hab hbc ⊢
    omega
  · intro a _ b _ c _ hab hbc
    simp only [decide_eq_false_iff_not] at hab hbc ⊢
    omega

/-- The insertion sort of `sampleGeoEnv` leaves its range in ascending order. -/
theorem sampleGeoEnv_sortsAscending :
    SortsAscending sampleGeoEnv.std_sort (compareSort sampleGeoEnv.lt) := by
  intro l _
  have htotal : IsTotal (geo_coordinate_distance_t Int)
      (fun a b => compareSort sampleGeoEnv.lt b a = false) := by
    constructor
    intro a b
    simp only [compareSort, sampleGeoEnv, decide_eq_false_iff_not]
    omega
  have htrans : IsTrans (geo_coordinate_distance_t Int)
      (fun a b => compareSort sampleGeoEnv.lt b a = false) := by
    constructor
    intro a b c hab hbc
    simp only [compareSort, sampleGeoEnv, decide_eq_false_iff_not] at hab hbc ⊢
    omega
  exact List.sorted_insertionSort (fun a b => compareSort sampleGeoEnv.lt b a = false) l

/-- The insertion sort of `sampleGeoEnv` rearranges its range. -/
theorem sampleGeoEnv_permutes :
    Permutes sampleGeoEnv.std_sort (compareSort sampleGeoEnv.lt) := by
  intro l
  exact List.perm_insertionSort (fun a b => compareSort sampleGeoEnv.lt b a = false) l

/-- C19: for every geo result of `n` coordinates (both arrays hold `n` entries) whose
distances are totally ordered by `<` (no NaN), `StoreGeoResult` returns, and the
`distances` array it leaves behind is in ascending (non-decreasing) order of distance.
`std::sort` is taken with the contract of the C++ standard: it sorts a range on which
its comparison is a strict weak ordering. -/
theorem StoreGeoResult_distances_ascending {double : Type} (env : Env) (geo : GeoEnv double)
    (cors : GeoCoordinates double)
    (hsort : SortsAscending geo.std_sort (compareSort geo.lt))
    (hc : cors.length ≤ cors.coordinates.length) (hd : cors.length ≤ cors.distances.length)
    (hord : StrictWeakOrder geo.lt cors.distances) :
    ∃ store, StoreGeoResult env geo cors = some store ∧
      Ascending geo.lt store.distances := by
  by_cases hbarrier : env.orderBarrier = true
  · by_cases hpos : cors.length = 0
    · refine ⟨_, StoreGeoResult_empty env geo cors hbarrier hpos, ?_⟩
      exact List.Pairwise.nil
    · refine ⟨_, StoreGeoResult_run env geo cors hbarrier hpos hc hd, ?_⟩
      simp only []
      have hweak : StrictWeakOrder (compareSort geo.lt)
          ((geoPairs cors).map (fun p => { _distance := p.2, _data := p.1 })) := by
        apply compareSort_strictWeakOrder geo.lt cors.distances _ _ hord
        intro g hg
        simp only [List.mem_map] at hg
        obtain ⟨p, hp, rfl⟩ := hg
        exact geoPairs_distance_mem cors p hp
      have hsorted := hsort _ hweak
      obtain ⟨k, h1, _, _⟩ := storeLoop_spec env.WRAP_SHAPED_JSON
        (geo.std_sort (compareSort geo.lt)
          ((geoPairs cors).map (fun p => { _distance := p.2, _data := p.1 })))
        { documents := [], distances := [], error := false }
      rw [h1]
      simp only [List.nil_append]
      unfold Ascending at hsorted ⊢
      rw [List.pairwise_map]
      exact List.Pairwise.sublist (List.take_sublist _ _) hsorted
  · refine ⟨{ res := TRI_ERROR_OUT_OF_MEMORY, documents := [], distances := [] }, ?_, ?_⟩
    · unfold StoreGeoResult
      simp [hbarrier]
    · exact List.Pairwise.nil

/-- C19 on the geo result `sampleCoordinates`, with the distances 30, 10, 20. -/
theorem StoreGeoResult_distances_ascending_witness :
    ∃ store, StoreGeoResult geoSampleEnv sampleGeoEnv sampleCoordinates = some store ∧
      Ascending sampleGeoEnv.lt store.distances :=
  StoreGeoResult_distances_ascending geoSampleEnv sampleGeoEnv sampleCoordinates
    sampleGeoEnv_sortsAscending (by decide) (by decide)
    (int_lt_strictWeakOrder sampleCoordinates.distances)

/-- Documents and distances that were stored side by side pair up as they were stored. -/
theorem zip_of_maps {α β γ : Type} (f : α → Option β) (g : α → γ) :
    ∀ (l : List α) (docs : List β) (dists : List γ),
      docs.map some = l.map f → dists = l.map g →
      (docs.zip dists).map (fun p => (some p.1, p.2)) = l.map (fun x => (f x, g x)) := by
  intro l
  induction l with
  | nil =>
    intro docs dists h1 h2
    subst h2
    simp
  | cons x xs ih =>
    intro docs dists h1 h2
    subst h2
    cases docs with
    | nil => simp at h1
    | cons d ds =>
      simp only [List.map_cons, List.cons.injEq] at h1
      simp only [List.map_cons, List.zip_cons_cons, h1.1, ih ds _ h1.2 rfl]

/-- C20: for every geo result of `n` coordinates (both arrays hold `n` entries),
`StoreGeoResult` returns, and when it reports success `documents` and `distances` have
exactly `n` entries each and the sequence of pairs `(documents[i], distances[i])` is a
permutation of the input (payload, distance) pairs, each payload wrapped as a document:
every document stays paired with its own distance. `std::sort` is taken to rearrange its
range. -/
theorem StoreGeoResult_pairs_permutation {double : Type} (env : Env) (geo : GeoEnv double)
    (cors : GeoCoordinates double)
    (hperm : Permutes geo.std_sort (compareSort geo.lt))
    (hc : cors.length ≤ cors.coordinates.length) (hd : cors.length ≤ cors.distances.length) :
    ∃ store, StoreGeoResult env geo cors = some store ∧
      (store.res = TRI_ERROR_NO_ERROR →
        store.documents.length = cors.length ∧ store.distances.length = cors.length ∧
        ((store.documents.zip store.distances).map (fun p => (some p.1, p.2))).Perm
          ((geoPairs cors).map (fun p => (env.WRAP_SHAPED_JSON p.1, p.2)))) := by
  have hpairs : (geoPairs cors).length = cors.length := by
    simp [geoPairs, List.length_zip, List.length_take]
    omega
  by_cases hbarrier : env.orderBarrier = true
  · by_cases hpos : cors.length = 0
    · refine ⟨_, StoreGeoResult_empty env geo cors hbarrier hpos, ?_⟩
      intro _
      have hnil : geoPairs cors = [] := by
        apply List.eq_nil_of_length_eq_zero
        rw [hpairs, hpos]
      simp [hpos, hnil]
    · refine ⟨_, StoreGeoResult_run env geo cors hbarrier hpos hc hd, ?_⟩
      simp only []
      intro hres
      obtain ⟨k, h1, h2, h3⟩ := storeLoop_spec env.WRAP_SHAPED_JSON
        (geo.std_sort (compareSort geo.lt)
          ((geoPairs cors).map (fun p => { _distance := p.2, _data := p.1 })))
        { documents := [], distances := [], error := false }
      have herr : (storeLoop env.WRAP_SHAPED_JSON
          (geo.std_sort (compareSort geo.lt)
            ((geoPairs cors).map (fun p => { _distance := p.2, _data := p.1 })))
          { documents := [], distances := [], error := false }).error = false := by
        by_contra hne
        have htrue : (storeLoop env.WRAP_SHAPED_JSON
            (geo.std_sort (compareSort geo.lt)
              ((geoPairs cors).map (fun p => { _distance := p.2, _data := p.1 })))
            { documents := [], distances := [], error := false }).error = true := by
          simpa using hne
        rw [if_pos htrue] at hres
        cases hres
      have hall := h3 herr
      rw [hall] at h1 h2
      simp only [List.nil_append, List.map_nil] at h1 h2
      have hsorted := hperm ((geoPairs cors).map (fun p => { _distance := p.2, _data := p.1 }))
      have hlen : (geo.std_sort (compareSort geo.lt)
          ((geoPairs cors).map (fun p => { _distance := p.2, _data := p.1 }))).length =
          cors.length := by
        rw [hsorted.length_eq, List.length_map, hpairs]
      refine ⟨?_, ?_, ?_⟩
      · have := congrArg List.length h2
        simp only [List.length_map] at this
        rw [this, hlen]
      · rw [h1, List.length_map, hlen]
      · rw [zip_of_maps
          (fun g : geo_coordinate_distance_t double => env.WRAP_SHAPED_JSON g._data)
          (fun g : geo_coordinate_distance_t double => g._distance) _ _ _ h2 h1]
        have hmap := hsorted.map
          (fun g : geo_coordinate_distance_t double =>
            (env.WRAP_SHAPED_JSON g._data, g._distance))
        simpa [List.map_map, Function.comp] using hmap
  · refine ⟨{ res := TRI_ERROR_OUT_OF_MEMORY, documents := [], distances := [] }, ?_, ?_⟩
    · unfold StoreGeoResult
      simp [hbarrier]
    · intro h
      cases h

/-- C20 on the geo result `sampleCoordinates`, with the payloads 7, 8, 9 at the
distances 30, 10, 20. -/
theorem StoreGeoResult_pairs_permutation_witness :
    ∃ store, StoreGeoResult geoSampleEnv sampleGeoEnv sampleCoordinates = some store ∧
      (store.res = TRI_ERROR_NO_ERROR →
        store.documents.length = 3 ∧ store.distances.length = 3 ∧
        ((store.documents.zip store.distances).map (fun p => (some p.1, p.2))).Perm
          [(some (.num 7), 30), (some (.num 8), 10), (some (.num 9), 20)]) :=
  StoreGeoResult_pairs_permutation geoSampleEnv sampleGeoEnv sampleCoordinates
    sampleGeoEnv_permutes (by decide) (by decide)

/-- The run of `StoreGeoResult` on `sampleCoordinates`: the documents 8, 9, 7 with the
distances 10, 20, 30. -/
theorem StoreGeoResult_sampleCoordinates :
    StoreGeoResult geoSampleEnv sampleGeoEnv sampleCoordinates =
      some { res := TRI_ERROR_NO_ERROR, documents := [.num 8, .num 9, .num 7],
             distances := [10, 20, 30] } := by
  rfl



/-! ### The assertions of `SetupConditionsSkiplist` (C30) -/

/-- C30: the two assertions of `SetupConditionsSkiplist` (v8-query.cpp 430-431) hold on
every execution that reaches them: when the loop over the index fields ends without a
jump to `MEM_ERROR` and equality values are pending (`numEq > 0`), then
`lastOperator == 0` and `lastNonEq == 0`. -/
theorem SetupConditionsSkiplist_assertions (conv : JSVal → Option TRI_json_t)
    (idx : TRI_index_t) (conditions : JSVal) (st : SkiplistState)
    (h : fieldLoop conv conditions 1 idx._fields
      { parameters := [], numEq := 0, lastNonEq := 0, lastOperator := none } = some st)
    (hnum : st.numEq ≠ 0) :
    st.lastOperator = none ∧ st.lastNonEq = 0 := by
  rcases SetupConditionsSkiplist_inv conv idx conditions st h with
    ⟨h1, _, h3, _⟩ | ⟨_, _, h3, _⟩
  · exact ⟨h3, h1⟩
  · exact absurd h3 hnum

/-- C30 on the index with the fields `a`, `b`, `c` and the conditions
`{ a: [["==", 1]], b: [["==", 2]] }`: the loop ends with two pending equality values, no
operator and no range field. -/
theorem SetupConditionsSkiplist_assertions_witness :
    fieldLoop sampleObjectToJson
        (.object [("a", .array [.array [.str "==", .num 1]]),
          ("b", .array [.array [.str "==", .num 2]])]) 1 ["a", "b", "c"]
        { parameters := [], numEq := 0, lastNonEq := 0, lastOperator := none } =
      some { parameters := [.number 1, .number 2], numEq := 2, lastNonEq := 0,
             lastOperator := none } ∧
    (({ parameters := [.number 1, .number 2], numEq := 2, lastNonEq := 0,
        lastOperator := none } : SkiplistState).lastOperator = none ∧
      ({ parameters := [.number 1, .number 2], numEq := 2, lastNonEq := 0,
          lastOperator := none } : SkiplistState).lastNonEq = 0) :=
  ⟨by rfl,
    SetupConditionsSkiplist_assertions sampleObjectToJson
      ⟨.TRI_IDX_TYPE_SKIPLIST_INDEX, ["a", "b", "c"]⟩
      (.object [("a", .array [.array [.str "==", .num 1]]),
        ("b", .array [.array [.str "==", .num 2]])])
      { parameters := [.number 1, .number 2], numEq := 2, lastNonEq := 0,
        lastOperator := none }
      (by rfl) (by decide)⟩


/-! ### Conditions after an accepted `==` (C28) -/

/-- The loop over the conditions of a field does not examine the conditions that follow
an `==` condition. -/
theorem conditionLoop_truncate (conv : JSVal → Option TRI_json_t) (i : Nat) (value : JSVal)
    (post : List JSVal) :
    ∀ (pre : List JSVal) (st : SkiplistState),
      conditionLoop conv i (pre ++ .array [.str "==", value] :: post) st =
        conditionLoop conv i (pre ++ [.array [.str "==", value]]) st := by
  intro pre
  induction pre with
  | nil =>
    intro st
    simp only [List.nil_append]
    unfold conditionLoop
    simp only []
    cases conv value with
    | none => rfl
    | some json => simp only [if_true]
  | cons c pre ih =>
    intro st
    simp only [List.cons_append]
    unfold conditionLoop
    split
    · split
      · split
        · rfl
        · split
          · rfl
          · split
            · rfl
            · split
              · rfl
              · exact ih _
      · rfl
    · rfl

/-- The loop over the index fields gives the same state for two conditions objects that
differ only in what follows an `==` condition in the list of the field `key`. -/
theorem fieldLoop_truncate (conv : JSVal → Option TRI_json_t) (conditions truncated : JSVal)
    (key : String) (pre post : List JSVal) (value : JSVal)
    (hkey : conditions.getOwn key = some (.array (pre ++ .array [.str "==", value] :: post)))
    (htrunc : truncated.getOwn key = some (.array (pre ++ [.array [.str "==", value]])))
    (hother : ∀ k, k ≠ key → truncated.getOwn k = conditions.getOwn k) :
    ∀ (fields : List String) (i : Nat) (st : SkiplistState),
      fieldLoop conv truncated i fields st = fieldLoop conv conditions i fields st := by
  intro fields
  induction fields with
  | nil => intro i st; simp [fieldLoop]
  | cons f rest ih =>
    intro i st
    unfold fieldLoop
    by_cases hf : f = key
    · subst hf
      rw [hkey, htrunc]
      simp only []
      rw [conditionLoop_truncate conv i value post pre st]
      cases conditionLoop conv i (pre ++ [.array [.str "==", value]]) st with
      | none => rfl
      | some st1 => exact ih _ _
    · rw [hother f hf]
      cases conditions.getOwn f with
      | none => rfl
      | some fieldConditions =>
        simp only []
        cases fieldConditions with
        | array values =>
          simp only []
          cases conditionLoop conv i values st with
          | none => rfl
          | some st1 => exact ih _ _
        | _ => rfl

/-- C28: once an `==` condition of a field has been accepted, the remaining conditions in
that field's list are not examined: for every index, the operator that
`SetupConditionsSkiplist` returns for a conditions object is the one it returns for the
conditions object in which the list of that field is truncated after the `==`. -/
theorem SetupConditionsSkiplist_truncate (conv : JSVal → Option TRI_json_t)
    (idx : TRI_index_t) (conditions truncated : JSVal) (key : String)
    (pre post : List JSVal) (value : JSVal)
    (hkey : conditions.getOwn key = some (.array (pre ++ .array [.str "==", value] :: post)))
    (htrunc : truncated.getOwn key = some (.array (pre ++ [.array [.str "==", value]])))
    (hother : ∀ k, k ≠ key → truncated.getOwn k = conditions.getOwn k) :
    SetupConditionsSkiplist conv idx conditions =
      SetupConditionsSkiplist conv idx truncated := by
  unfold SetupConditionsSkiplist
  rw [fieldLoop_truncate conv conditions truncated key pre post value hkey htrunc hother]

/-- C28 on the index with the fields `a`, `b`, `c`: the conditions
`{ a: [["==", 1], [">", 2]] }` build the same operator as `{ a: [["==", 1]] }`. -/
theorem SetupConditionsSkiplist_truncate_witness :
    SetupConditionsSkiplist sampleObjectToJson ⟨.TRI_IDX_TYPE_SKIPLIST_INDEX, ["a", "b", "c"]⟩
        (.object [("a", .array [.array [.str "==", .num 1], .array [.str ">", .num 2]])]) =
      SetupConditionsSkiplist sampleObjectToJson
        ⟨.TRI_IDX_TYPE_SKIPLIST_INDEX, ["a", "b", "c"]⟩
        (.object [("a", .array [.array [.str "==", .num 1]])]) :=
  SetupConditionsSkiplist_truncate sampleObjectToJson
    ⟨.TRI_IDX_TYPE_SKIPLIST_INDEX, ["a", "b", "c"]⟩
    (.object [("a", .array [.array [.str "==", .num 1], .array [.str ">", .num 2]])])
    (.object [("a", .array [.array [.str "==", .num 1]])]) "a" []
    [.array [.str ">", .num 2]] (.num 1) (by rfl) (by rfl)
    (by
      intro k hk
      have h1 : (JSVal.object [("a", .array [.array [.str "==", .num 1]])]).getOwn k =
          none := by
        simp only [JSVal.getOwn, List.lookup]
        have hb : (k == "a") = false := by simpa using hk
        rw [hb]
      have h2 : (JSVal.object [("a", .array [.array [.str "==", .num 1],
          .array [.str ">", .num 2]])]).getOwn k = none := by
        simp only [JSVal.getOwn, List.lookup]
        have hb : (k == "a") = false := by simpa using hk
        rw [hb]
      rw [h1, h2])



/-! ### The first recognised key of a bitarray condition (C29) -/

/-- The search for the first recognised key stops at the first key of the list that the
condition has. -/
theorem findSome_first_present (c : JSVal) (key : String) (type : TRI_index_operator_type_e)
    (value : JSVal) (after : List (String × TRI_index_operator_type_e))
    (hkey : c.getOwn key = some value) :
    ∀ (before : List (String × TRI_index_operator_type_e)),
      (∀ p ∈ before, c.getOwn p.1 = none) →
      (before ++ (key, type) :: after).findSome?
          (fun p => (c.getOwn p.1).map (fun v => (p.2, v))) = some (type, value) := by
  intro before
  induction before with
  | nil =>
    intro _
    simp [List.findSome?, hkey]
  | cons p ps ih =>
    intro h
    have hp : c.getOwn p.1 = none := h p (by simp)
    simp only [List.cons_append, List.findSome?, hp, Option.map_none']
    exact ih (fun q hq => h q (by simp [hq]))

/-- `SetupConditionsBitarrayHelper` reads the condition through the first recognised key
only. -/
theorem SetupConditionsBitarrayHelper_congr (conv : JSVal → Option TRI_json_t)
    (idx : TRI_index_t) (c c' : JSVal) (h : selectOperator c' = selectOperator c) :
    SetupConditionsBitarrayHelper conv idx c' = SetupConditionsBitarrayHelper conv idx c := by
  rw [SetupConditionsBitarrayHelper_unfold conv idx c',
    SetupConditionsBitarrayHelper_unfold conv idx c, h]

/-- C29: when a bitarray condition object has several recognised keys,
`SetupConditionsBitarrayHelper` uses only the first one present in the order `&`, `&&`,
`and`, `|`, `||`, `or`, `!`, `not`, `==`, `=`, `eq`, `!=`, `<>`, `ne`, `<=`, `le`, `<`,
`lt`, `>=`, `ge`, `>`, `gt`: the key `key` is selected when no key before it in that order
is present, and a condition object that has the same value under `key` and none of the
keys before it gives the same operator, whatever the two objects hold under the keys
after it. -/
theorem SetupConditionsBitarrayHelper_first_key (conv : JSVal → Option TRI_json_t)
    (idx : TRI_index_t) (c c' : JSVal) (key : String) (type : TRI_index_operator_type_e)
    (value : JSVal) (before after : List (String × TRI_index_operator_type_e))
    (hsplit : recognisedKeys = before ++ (key, type) :: after)
    (hbefore : ∀ p ∈ before, c.getOwn p.1 = none) (hkey : c.getOwn key = some value)
    (hbefore' : ∀ p ∈ before, c'.getOwn p.1 = none) (hkey' : c'.getOwn key = some value) :
    recognisedKeys.map Prod.fst =
      ["&", "&&", "and", "|", "||", "or", "!", "not", "==", "=", "eq", "!=", "<>", "ne",
        "<=", "le", "<", "lt", ">=", "ge", ">", "gt"] ∧
    selectOperator c = some (type, value) ∧
    SetupConditionsBitarrayHelper conv idx c' = SetupConditionsBitarrayHelper conv idx c := by
  have h1 : selectOperator c = some (type, value) := by
    rw [selectOperator_eq_firstRecognised]
    unfold firstRecognised
    rw [hsplit]
    exact findSome_first_present c key type value after hkey before hbefore
  have h2 : selectOperator c' = some (type, value) := by
    rw [selectOperator_eq_firstRecognised]
    unfold firstRecognised
    rw [hsplit]
    exact findSome_first_present c' key type value after hkey' before hbefore'
  exact ⟨rfl, h1, SetupConditionsBitarrayHelper_congr conv idx c c' (by rw [h1, h2])⟩

/-- C29 on the bitarray index with the fields `a`, `b`: the condition
`{ "<": { a: 1 }, ">": { b: 2 } }` selects `<` and gives the same operator as
`{ "<": { a: 1 } }`. -/
theorem SetupConditionsBitarrayHelper_first_key_witness :
    recognisedKeys.map Prod.fst =
      ["&", "&&", "and", "|", "||", "or", "!", "not", "==", "=", "eq", "!=", "<>", "ne",
        "<=", "le", "<", "lt", ">=", "ge", ">", "gt"] ∧
    selectOperator (.object [("<", .object [("a", .num 1)]), (">", .object [("b", .num 2)])]) =
      some (TRI_LT_INDEX_OPERATOR, .object [("a", .num 1)]) ∧
    SetupConditionsBitarrayHelper sampleObjectToJson
        ⟨.TRI_IDX_TYPE_BITARRAY_INDEX, ["a", "b"]⟩ (.object [("<", .object [("a", .num 1)])]) =
      SetupConditionsBitarrayHelper sampleObjectToJson
        ⟨.TRI_IDX_TYPE_BITARRAY_INDEX, ["a", "b"]⟩
        (.object [("<", .object [("a", .num 1)]), (">", .object [("b", .num 2)])]) :=
  SetupConditionsBitarrayHelper_first_key sampleObjectToJson
    ⟨.TRI_IDX_TYPE_BITARRAY_INDEX, ["a", "b"]⟩
    (.object [("<", .object [("a", .num 1)]), (">", .object [("b", .num 2)])])
    (.object [("<", .object [("a", .num 1)])]) "<" TRI_LT_INDEX_OPERATOR
    (.object [("a", .num 1)])
    [("&", TRI_AND_INDEX_OPERATOR), ("&&", TRI_AND_INDEX_OPERATOR),
      ("and", TRI_AND_INDEX_OPERATOR),
      ("|", TRI_OR_INDEX_OPERATOR), ("||", TRI_OR_INDEX_OPERATOR), ("or", TRI_OR_INDEX_OPERATOR),
      ("!", TRI_NOT_INDEX_OPERATOR), ("not", TRI_NOT_INDEX_OPERATOR),
      ("==", TRI_EQ_INDEX_OPERATOR), ("=", TRI_EQ_INDEX_OPERATOR), ("eq", TRI_EQ_INDEX_OPERATOR),
      ("!=", TRI_NE_INDEX_OPERATOR), ("<>", TRI_NE_INDEX_OPERATOR), ("ne", TRI_NE_INDEX_OPERATOR),
      ("<=", TRI_LE_INDEX_OPERATOR), ("le", TRI_LE_INDEX_OPERATOR)]
    [("lt", TRI_LT_INDEX_OPERATOR),
      (">=", TRI_GE_INDEX_OPERATOR), ("ge", TRI_GE_INDEX_OPERATOR),
      (">", TRI_GT_INDEX_OPERATOR), ("gt", TRI_GT_INDEX_OPERATOR)]
    (by rfl)
    (by
      intro p hp
      simp only [List.mem_cons, List.mem_singleton, List.not_mem_nil, or_false] at hp
      rcases hp with h | h | h | h | h | h | h | h | h | h | h | h | h | h | h | h <;>
        (subst h; rfl))
    (by rfl)
    (by
      intro p hp
      simp only [List.mem_cons, List.mem_singleton, List.not_mem_nil, or_false] at hp
      rcases hp with h | h | h | h | h | h | h | h | h | h | h | h | h | h | h | h <;>
        (subst h; rfl))
    (by rfl)


/-! ### The leading run of an example (C27) -/

/-- The leading index fields that the example provides are a leading part of the field
list, the example has all of them, and it lacks the field that follows them, if any. -/
theorem providedPrefix_spec (example_ : JSVal) :
    ∀ fields : List String,
      ∃ post, fields = providedPrefix example_ fields ++ post ∧
        (∀ k ∈ providedPrefix example_ fields, (example_.getOwn k).isSome = true) ∧
        (∀ m post', post = m :: post' → example_.getOwn m = none) := by
  intro fields
  induction fields with
  | nil => exact ⟨[], rfl, by simp [providedPrefix], by simp⟩
  | cons f rest ih =>
    cases hget : example_.getOwn f with
    | none =>
      have hp : providedPrefix example_ (f :: rest) = [] := by
        simp [providedPrefix, List.takeWhile, hget]
      refine ⟨f :: rest, by rw [hp]; rfl, by rw [hp]; simp, ?_⟩
      intro m post' h
      injection h with h1 _
      rw [← h1, hget]
    | some v =>
      have hp : providedPrefix example_ (f :: rest) = f :: providedPrefix example_ rest := by
        simp [providedPrefix, List.takeWhile, hget]
      obtain ⟨post, h1, h2, h3⟩ := ih
      refine ⟨post, ?_, ?_, h3⟩
      · rw [hp, List.cons_append, ← h1]
      · intro k hk
        rw [hp] at hk
        rcases List.mem_cons.mp hk with h | h
        · rw [h, hget]; rfl
        · exact h2 k h

/-- The leading index fields that the example provides are the fields before the first
index field that the example lacks. -/
theorem providedPrefix_of_split (example_ : JSVal) (missing : String) (post : List String)
    (hmissing : example_.getOwn missing = none) :
    ∀ pre : List String, (∀ k ∈ pre, (example_.getOwn k).isSome = true) →
      providedPrefix example_ (pre ++ missing :: post) = pre := by
  intro pre
  induction pre with
  | nil =>
    intro _
    simp [providedPrefix, List.takeWhile, hmissing]
  | cons p ps ih =>
    intro h
    have hp : (example_.getOwn p).isSome = true := h p (by simp)
    have := ih (fun k hk => h k (by simp [hk]))
    simp only [providedPrefix] at this ⊢
    rw [List.cons_append, List.takeWhile_cons, hp]
    simp only [if_true, this]

/-- C27: given that value conversion succeeds, `SetupExampleSkiplist` on an index with a
first field returns the 'no operator' sentinel exactly when the example lacks the first
index field, and otherwise a single `Eq` leaf that holds, in index order, the JSON values
of the example for the longest leading run of index fields that are all present in the
example; the fields after the first missing one are ignored even when the example has
them. -/
theorem SetupExampleSkiplist_leading_run (conv : JSVal → Option TRI_json_t)
    (idx : TRI_index_t) (example_ : JSVal) (first : String) (rest : List String)
    (hfields : idx._fields = first :: rest)
    (hconv : ∀ key ∈ providedPrefix example_ idx._fields, ∀ v,
      example_.getOwn key = some v → conv v ≠ none) :
    (SetupExampleSkiplist conv idx example_ = none ↔ example_.getOwn first = none) ∧
    (example_.getOwn first ≠ none →
      ∃ parameters,
        SetupExampleSkiplist conv idx example_ =
          some (.mk TRI_EQ_INDEX_OPERATOR none none (some (.list parameters))
            (providedPrefix example_ idx._fields).length) ∧
        parameters.map some =
          (providedPrefix example_ idx._fields).map (exampleEntry conv example_)) ∧
    (∃ post, idx._fields = providedPrefix example_ idx._fields ++ post ∧
      (∀ k ∈ providedPrefix example_ idx._fields, (example_.getOwn k).isSome = true) ∧
      (∀ m post', post = m :: post' → example_.getOwn m = none)) ∧
    (∀ (pre : List String) (missing : String) (post : List String),
      idx._fields = pre ++ missing :: post →
      (∀ k ∈ pre, (example_.getOwn k).isSome = true) → example_.getOwn missing = none →
      providedPrefix example_ idx._fields = pre) := by
  obtain ⟨js, h1, h2⟩ := exampleLoop_prefix conv example_ idx._fields [] hconv
  have hlen : js.length = (providedPrefix example_ idx._fields).length := by
    have := congrArg List.length h2
    simpa using this
  rw [List.nil_append] at h1
  have hempty : providedPrefix example_ idx._fields = [] ↔ example_.getOwn first = none := by
    rw [hfields]
    cases hget : example_.getOwn first with
    | none => simp [providedPrefix, List.takeWhile, hget]
    | some v => simp [providedPrefix, List.takeWhile, hget]
  have hsome : providedPrefix example_ idx._fields ≠ [] →
      SetupExampleSkiplist conv idx example_ =
        some (.mk TRI_EQ_INDEX_OPERATOR none none (some (.list js))
          (providedPrefix example_ idx._fields).length) := by
    intro hne
    have hpos : (providedPrefix example_ idx._fields).length > 0 := List.length_pos.mpr hne
    unfold SetupExampleSkiplist
    rw [h1]
    simp only []
    rw [if_pos (by omega)]
    simp only [TRI_CreateIndexOperator, hlen]
  have hnone : providedPrefix example_ idx._fields = [] →
      SetupExampleSkiplist conv idx example_ = none := by
    intro he
    rw [he, List.length_nil] at hlen
    unfold SetupExampleSkiplist
    rw [h1]
    simp only []
    rw [if_neg (by omega)]
  refine ⟨⟨?_, fun h => hnone (hempty.mpr h)⟩, ?_, providedPrefix_spec example_ idx._fields, ?_⟩
  · intro hres
    by_contra hfirst
    have hne : providedPrefix example_ idx._fields ≠ [] := fun h => hfirst (hempty.mp h)
    rw [hsome hne] at hres
    cases hres
  · intro hfirst
    have hne : providedPrefix example_ idx._fields ≠ [] := fun h => hfirst (hempty.mp h)
    exact ⟨js, hsome hne, h2⟩
  · intro pre missing post hsplit hpre hmissing
    rw [hsplit]
    exact providedPrefix_of_split example_ missing post hmissing pre hpre


/-- C27 on the skiplist index with the fields `a`, `b`, `c` and the example
`{ a: 1, c: 3 }`: the leaf holds `[1]`; the field `c`, which comes after the missing
field `b`, is ignored. -/
theorem SetupExampleSkiplist_leading_run_witness :
    (SetupExampleSkiplist sampleObjectToJson ⟨.TRI_IDX_TYPE_SKIPLIST_INDEX, ["a", "b", "c"]⟩
        (.object [("a", .num 1), ("c", .num 3)]) = none ↔
      (JSVal.object [("a", .num 1), ("c", .num 3)]).getOwn "a" = none) ∧
    (∃ parameters,
      SetupExampleSkiplist sampleObjectToJson ⟨.TRI_IDX_TYPE_SKIPLIST_INDEX, ["a", "b", "c"]⟩
          (.object [("a", .num 1), ("c", .num 3)]) =
        some (.mk TRI_EQ_INDEX_OPERATOR none none (some (.list parameters)) 1) ∧
      parameters.map some = [some (.number 1)]) ∧
    providedPrefix (.object [("a", .num 1), ("c", .num 3)]) ["a", "b", "c"] = ["a"] :=
  have h := SetupExampleSkiplist_leading_run sampleObjectToJson
    ⟨.TRI_IDX_TYPE_SKIPLIST_INDEX, ["a", "b", "c"]⟩ (.object [("a", .num 1), ("c", .num 3)])
    "a" ["b", "c"] rfl
    (by
      intro key hkey v hv
      have hp : providedPrefix (.object [("a", .num 1), ("c", .num 3)]) ["a", "b", "c"] =
          ["a"] := by rfl
      rw [hp] at hkey
      simp only [List.mem_singleton] at hkey
      subst hkey
      have : (JSVal.object [("a", .num 1), ("c", .num 3)]).getOwn "a" = some (.num 1) := by
        rfl
      rw [this] at hv
      injection hv with hv
      subst hv
      intro h
      cases h)
  ⟨h.1, h.2.1 (by intro h0; cases h0),
    h.2.2.2 ["a"] "b" ["c"] rfl
      (by intro k hk; simp only [List.mem_singleton] at hk; subst hk; rfl) (by rfl)⟩


/-! ### Default skip and limit (C21) -/

/-- An argument that is absent, `null` or `undefined` is not given. -/
theorem argGiven_none (argv : List JSVal) (pos : Nat)
    (h : argv.get? pos = none ∨ argv.get? pos = some .null ∨
      argv.get? pos = some .undefined) : argGiven argv pos = none := by
  unfold argGiven
  rcases h with h | h | h <;> rw [h] <;> rfl

/-- With no skip and the sentinel limit, the slice is the whole match list. -/
theorem CalculateSkipLimitSlice_noLimit (noLimit length : Nat) (hNoLimit : noLimit < WORD)
    (hLength : length ≤ noLimit) :
    CalculateSkipLimitSlice noLimit length 0 noLimit = (0, length) := by
  have h1 : (CalculateSkipLimitSlice noLimit length 0 noLimit).1 = 0 := by
    rw [CalculateSkipLimitSlice_fst]
    simp
  have h2 : (CalculateSkipLimitSlice noLimit length 0 noLimit).2 = length := by
    rw [CalculateSkipLimitSlice_snd, h1]
    have hmod : (0 + noLimit) % WORD = noLimit := by
      rw [Nat.zero_add]
      exact Nat.mod_eq_of_lt hNoLimit
    rw [hmod, if_neg (by omega)]
  exact Prod.ext h1 h2

/-- C21: when the skip argument is absent, `null` or `undefined`, `ExtractSkipAndLimit`
yields `skip = TRI_QRY_NO_SKIP`, and when the limit argument is absent, `null` or
`undefined`, it yields `limit = TRI_QRY_NO_LIMIT`. With no skip (0) and the sentinel
limit, `CalculateSkipLimitSlice` returns `s = 0` and `e = length` for every length that
does not exceed the sentinel, so that the conversion of the match list returns all of
it. -/
theorem ExtractSkipAndLimit_defaults (env : Env) (argv : List JSVal) (pos : Nat)
    (filtered : List TRI_doc_mptr_t) (hNoLimit : env.TRI_QRY_NO_LIMIT < WORD)
    (hLength : filtered.length ≤ env.TRI_QRY_NO_LIMIT) :
    ((argv.get? pos = none ∨ argv.get? pos = some .null ∨
        argv.get? pos = some .undefined) →
      (ExtractSkipAndLimit env argv pos).1 = env.TRI_QRY_NO_SKIP) ∧
    ((argv.get? (pos + 1) = none ∨ argv.get? (pos + 1) = some .null ∨
        argv.get? (pos + 1) = some .undefined) →
      (ExtractSkipAndLimit env argv pos).2 = env.TRI_QRY_NO_LIMIT) ∧
    CalculateSkipLimitSlice env.TRI_QRY_NO_LIMIT filtered.length 0 env.TRI_QRY_NO_LIMIT =
      (0, filtered.length) ∧
    (∀ r, convertResult env filtered 0 env.TRI_QRY_NO_LIMIT = .ok r →
      r.documents.map some = filtered.map env.WRAP_SHAPED_JSON ∧
      r.total = (filtered.length : Int) ∧ r.count = filtered.length) := by
  have hslice := CalculateSkipLimitSlice_noLimit env.TRI_QRY_NO_LIMIT filtered.length
    hNoLimit hLength
  refine ⟨?_, ?_, hslice, ?_⟩
  · intro h
    simp only [ExtractSkipAndLimit, argGiven_none argv pos h]
  · intro h
    simp only [ExtractSkipAndLimit, argGiven_none argv (pos + 1) h]
  · intro r hr
    obtain ⟨h1, h2, _, h4, _⟩ := convertResult_ok env filtered 0 env.TRI_QRY_NO_LIMIT r hr
    rw [hslice] at h2 h4
    simp only [List.drop_zero, Nat.sub_zero, List.take_length] at h2 h4
    exact ⟨h2, h1, h4⟩

/-- C21 in `sampleEnv`, whose sentinel is 4294967295, for a call without skip and limit
arguments and the ten documents of `tenDocuments`. -/
theorem ExtractSkipAndLimit_defaults_witness :
    (ExtractSkipAndLimit sampleEnv [.str "hash", .object []] 2).1 = 0 ∧
    (ExtractSkipAndLimit sampleEnv [.str "hash", .object [], .num 3, .null] 2).2 =
      4294967295 ∧
    CalculateSkipLimitSlice 4294967295 10 0 4294967295 = (0, 10) :=
  have h1 := ExtractSkipAndLimit_defaults sampleEnv [.str "hash", .object []] 2 tenDocuments
    (by decide) (by decide)
  have h2 := ExtractSkipAndLimit_defaults sampleEnv [.str "hash", .object [], .num 3, .null] 2
    tenDocuments (by decide) (by decide)
  ⟨h1.1 (Or.inl rfl), h2.2.1 (Or.inr (Or.inl rfl)), h1.2.2.1⟩


/-! ### Bounds of the slice (C26) and the streaming loop as a slice (C25) -/

/-- Without wrap-around the start position does not exceed the length. -/
theorem CalculateSkipLimitSlice_fst_le (noLimit length limit : Nat) (skip : Int)
    (hLength : length < HALF)
    (hSkipLo : -(HALF : Int) < skip) (hSkipHi : skip < (HALF : Int)) :
    (CalculateSkipLimitSlice noLimit length skip limit).1 ≤ length := by
  rw [CalculateSkipLimitSlice_fst_nowrap noLimit length limit skip hLength hSkipLo hSkipHi]
  split_ifs <;> omega

/-- Without wrap-around the end position is `s + limit` when that is below the length
and below the sentinel, the sentinel when `s + limit` is below the length but not below
the sentinel, and the length otherwise. -/
theorem CalculateSkipLimitSlice_snd_nowrap (noLimit length limit : Nat) (skip : Int)
    (hNoLimit : noLimit < HALF) (hLength : length < HALF)
    (hSkipLo : -(HALF : Int) < skip) (hSkipHi : skip < (HALF : Int))
    (hSum : (CalculateSkipLimitSlice noLimit length skip limit).1 + limit < HALF) :
    (CalculateSkipLimitSlice noLimit length skip limit).2 =
      if (CalculateSkipLimitSlice noLimit length skip limit).1 + limit < length then
        (if noLimit ≤ (CalculateSkipLimitSlice noLimit length skip limit).1 + limit
          then noLimit
          else (CalculateSkipLimitSlice noLimit length skip limit).1 + limit)
      else length := by
  have he := CalculateSkipLimitSlice_snd noLimit length limit skip
  generalize (CalculateSkipLimitSlice noLimit length skip limit).1 = s at *
  generalize (CalculateSkipLimitSlice noLimit length skip limit).2 = e at *
  have hsH : s < HALF := Nat.lt_of_le_of_lt (Nat.le_add_right s limit) hSum
  have hlH : limit < HALF := Nat.lt_of_le_of_lt (Nat.le_add_left limit s) hSum
  have e5 : wrapInt64 ((s : Int) + (limit : Int)) = (s : Int) + (limit : Int) :=
    wrapInt64_of_range _ (by clear he; omega) (by clear he; omega)
  have e6 : toSizeT ((s : Int) + (limit : Int)) = s + limit := by
    clear he
    rw [toSizeT_of_nonneg _ (by omega) (by omega)]; omega
  have e7 : (s + limit) % WORD = s + limit := by
    clear he
    rw [HALF_eq] at hSum
    rw [WORD_eq]
    omega
  rw [toInt64_of_lt s hsH, toInt64_of_lt limit hlH, toInt64_of_lt length hLength,
    toInt64_of_lt noLimit hNoLimit, e5, e6, e7] at he
  rw [he]
  clear he
  split_ifs <;> omega

/-- The copy loop does not read outside the match list when every position that it
visits is below the length of the list. -/
theorem copySlice_no_fault (WRAP : TRI_doc_mptr_t → Option JSVal)
    (filtered : List TRI_doc_mptr_t) :
    ∀ (js : List Nat) (st : SliceState), (∀ j ∈ js, j < filtered.length) →
      st.fault = false → (copySlice WRAP filtered js st).fault = false := by
  intro js
  induction js with
  | nil => intro st _ h; simpa [copySlice] using h
  | cons j rest ih =>
    intro st hjs hst
    have hj : j < filtered.length := hjs j (by simp)
    unfold copySlice
    rw [List.get?_eq_get hj]
    simp only []
    cases WRAP (filtered.get ⟨j, hj⟩) with
    | none => exact hst
    | some doc => exact ih _ (fun k hk => hjs k (by simp [hk])) hst

/-- C26: for every length, skip and limit for which no conversion or addition wraps,
`CalculateSkipLimitSlice` returns `s <= length` and `e <= length`, and `s <= e` whenever
`s + limit` is below the `TRI_QRY_NO_LIMIT` sentinel; hence every index `j` with
`s <= j < e` is below the length, and the conversion of the match list in
`JS_ByExampleQuery` and `ByExampleHashIndexQuery` reads no element past the match list. -/
theorem CalculateSkipLimitSlice_in_bounds (env : Env) (filtered : List TRI_doc_mptr_t)
    (skip : Int) (limit : Nat)
    (hNoLimit : env.TRI_QRY_NO_LIMIT < HALF) (hLength : filtered.length < HALF)
    (hSkipLo : -(HALF : Int) < skip) (hSkipHi : skip < (HALF : Int))
    (hSum : (CalculateSkipLimitSlice env.TRI_QRY_NO_LIMIT filtered.length skip limit).1 + limit
      < HALF) :
    (CalculateSkipLimitSlice env.TRI_QRY_NO_LIMIT filtered.length skip limit).1 ≤
      filtered.length ∧
    (CalculateSkipLimitSlice env.TRI_QRY_NO_LIMIT filtered.length skip limit).2 ≤
      filtered.length ∧
    ((CalculateSkipLimitSlice env.TRI_QRY_NO_LIMIT filtered.length skip limit).1 + limit <
        env.TRI_QRY_NO_LIMIT →
      (CalculateSkipLimitSlice env.TRI_QRY_NO_LIMIT filtered.length skip limit).1 ≤
        (CalculateSkipLimitSlice env.TRI_QRY_NO_LIMIT filtered.length skip limit).2) ∧
    (∀ j, (CalculateSkipLimitSlice env.TRI_QRY_NO_LIMIT filtered.length skip limit).1 ≤ j →
      j < (CalculateSkipLimitSlice env.TRI_QRY_NO_LIMIT filtered.length skip limit).2 →
      j < filtered.length) ∧
    convertResult env filtered skip limit ≠ .fault ∧
    (∀ (argv : List JSVal) (pids : List Nat) (values : List TRI_shaped_json_t),
      (JS_ByExampleQuery env argv).calls = [IndexCall.TRI_SelectByExample pids values] →
      env.TRI_SelectByExample pids values = filtered →
      ExtractSkipAndLimit env argv 1 = (skip, limit) →
      (JS_ByExampleQuery env argv).outcome ≠ .fault) ∧
    (∀ (argv : List JSVal) (idx : TRI_index_t) (searchValue : List TRI_shaped_json_t),
      (ByExampleHashIndexQuery env argv).calls =
        [IndexCall.TRI_LookupHashIndex idx searchValue] →
      env.TRI_LookupHashIndex idx searchValue = filtered →
      ExtractSkipAndLimit env argv 2 = (skip, limit) →
      (ByExampleHashIndexQuery env argv).outcome ≠ .fault) := by
  have hs := CalculateSkipLimitSlice_fst_le env.TRI_QRY_NO_LIMIT filtered.length limit skip
    hLength hSkipLo hSkipHi
  have he := CalculateSkipLimitSlice_snd_nowrap env.TRI_QRY_NO_LIMIT filtered.length limit skip
    hNoLimit hLength hSkipLo hSkipHi hSum
  have hele : (CalculateSkipLimitSlice env.TRI_QRY_NO_LIMIT filtered.length skip limit).2 ≤
      filtered.length := by
    rw [he]
    split_ifs <;> omega
  have hconv : convertResult env filtered skip limit ≠ .fault := by
    unfold convertResult
    simp only []
    have hfault : ∀ st : SliceState, st.fault = false →
        (if st.fault = true then Outcome.fault
          else if st.error = true then .exception TRI_V8_EXCEPTION_MEMORY
          else .ok { documents := st.documents, total := (filtered.length : Int),
                     count := st.count }) ≠ .fault := by
      intro st hst
      rw [hst]
      simp only [Bool.false_eq_true, if_false]
      by_cases herr : st.error = true
      · rw [if_pos herr]; intro h; cases h
      · rw [if_neg herr]; intro h; cases h
    apply hfault
    split
    · split
      · apply copySlice_no_fault
        · intro j hj
          rw [List.mem_range'_1] at hj
          omega
        · rfl
      · rfl
    · rfl
  refine ⟨hs, hele, ?_, fun j _ hj => Nat.lt_of_lt_of_le hj hele, hconv, ?_, ?_⟩
  · intro hlt
    rw [he]
    split_ifs <;> omega
  · intro argv pids values hcalls hfiltered hextract
    rw [JS_ByExampleQuery_lookup env argv pids values hcalls, hfiltered, hextract]
    exact hconv
  · intro argv idx searchValue hcalls hfiltered hextract
    rw [ByExampleHashIndexQuery_lookup env argv idx searchValue hcalls, hfiltered, hextract]
    exact hconv

/-- C26 in `sampleEnv` for the ten documents of `tenDocuments`, skip -3 and limit 2: the
slice is within the match list, and the by-example query and the hash query of that
window read no element past it. -/
theorem CalculateSkipLimitSlice_in_bounds_witness :
    (CalculateSkipLimitSlice 4294967295 10 (-3) 2).1 ≤ 10 ∧
    (CalculateSkipLimitSlice 4294967295 10 (-3) 2).2 ≤ 10 ∧
    convertResult sampleEnv tenDocuments (-3) 2 ≠ .fault ∧
    (JS_ByExampleQuery sampleEnv [.object [("a", .num 1)], .num (-3), .num 2]).outcome ≠
      .fault ∧
    (ByExampleHashIndexQuery sampleEnv
      [.str "hash", .object [("a", .num 1)], .num (-3), .num 2]).outcome ≠ .fault :=
  have h := CalculateSkipLimitSlice_in_bounds sampleEnv tenDocuments (-3) 2 (by decide)
    (by decide) (by decide) (by decide) (by decide)
  ⟨h.1, h.2.1, h.2.2.2.2.1,
    h.2.2.2.2.2.1 [.object [("a", .num 1)], .num (-3), .num 2] [1] [⟨1, []⟩] (by rfl) (by rfl)
      (by rfl),
    h.2.2.2.2.2.2 [.str "hash", .object [("a", .num 1)], .num (-3), .num 2]
      ⟨.TRI_IDX_TYPE_HASH_INDEX, ["a"]⟩ [⟨1, []⟩] (by rfl) (by rfl) (by rfl)⟩


/-- The windowing loop sets `error` only when a document cannot be wrapped. -/
theorem windowLoop_no_error (WRAP : TRI_doc_mptr_t → Option JSVal) (skip : Int)
    (limit : Nat) :
    ∀ (it : List TRI_doc_mptr_t) (st : WindowState), (∀ d ∈ it, WRAP d ≠ none) →
      st.error = false → (windowLoop WRAP skip limit it st).error = false := by
  intro it
  induction it with
  | nil =>
    intro st _ hst
    rw [windowLoop_nil]
    exact hst
  | cons d rest ih =>
    intro st hw hst
    have hrest : ∀ x ∈ rest, WRAP x ≠ none := fun x hx => hw x (by simp [hx])
    unfold windowLoop
    split
    · simp only []
      split
      · cases hd : WRAP d with
        | none => exact absurd hd (hw d (by simp))
        | some doc =>
          simp only []
          split
          · exact hst
          · exact ih _ hrest hst
      · exact ih _ hrest hst
    · exact hst

/-- The documents of the streaming loop are the documents of the slice: for a
non-negative skip and without wrap-around, a run of the windowing loop that ends without
an error has stored the wrapped elements at the positions `s .. e-1` of the iterator,
with `(s, e) = CalculateSkipLimitSlice (N, skip, limit)`. -/
theorem windowOutcome_slice (WRAP : TRI_doc_mptr_t → Option JSVal) (noLimit : Nat)
    (skip : Int) (limit : Nat) (it : List TRI_doc_mptr_t) (r : QueryResult)
    (hskip : 0 ≤ skip) (hSkipHi : skip < (HALF : Int)) (hNoLimit : noLimit < HALF)
    (hN : it.length ≤ noLimit)
    (hSum : (CalculateSkipLimitSlice noLimit it.length skip limit).1 + limit < HALF)
    (h : windowOutcome (windowLoop WRAP skip limit it windowInit) = .ok r) :
    r.documents.map some =
      ((it.drop (CalculateSkipLimitSlice noLimit it.length skip limit).1).take
        ((CalculateSkipLimitSlice noLimit it.length skip limit).2 -
          (CalculateSkipLimitSlice noLimit it.length skip limit).1)).map WRAP ∧
    r.count = (CalculateSkipLimitSlice noLimit it.length skip limit).2 -
      (CalculateSkipLimitSlice noLimit it.length skip limit).1 ∧
    r.count ≤ limit := by
  have hLength : it.length < HALF := Nat.lt_of_le_of_lt hN hNoLimit
  have hSkipLo : -(HALF : Int) < skip := by
    have : (0 : Int) ≤ (HALF : Int) := Int.ofNat_nonneg _
    omega
  have hs := CalculateSkipLimitSlice_fst_nowrap noLimit it.length limit skip hLength hSkipLo
    hSkipHi
  have he := CalculateSkipLimitSlice_snd_nowrap noLimit it.length limit skip hNoLimit hLength
    hSkipLo hSkipHi hSum
  generalize (CalculateSkipLimitSlice noLimit it.length skip limit).1 = s at *
  generalize (CalculateSkipLimitSlice noLimit it.length skip limit).2 = e at *
  have hs' : s = min skip.toNat it.length := by
    rw [hs]
    by_cases h0 : 0 < skip
    · rw [if_pos h0]
    · have : skip = 0 := by omega
      subst this
      simp
  have he' : e = if s + limit < it.length then s + limit else it.length := by
    rw [he]
    by_cases hlt : s + limit < it.length
    · rw [if_pos hlt, if_pos hlt, if_neg (by omega)]
    · rw [if_neg hlt, if_neg hlt]
  clear hs he
  unfold windowOutcome at h
  split at h
  · cases h
  · rename_i herr
    simp only [Bool.not_eq_true] at herr
    injection h with h
    subst h
    simp only []
    by_cases hl : limit = 0
    · subst hl
      rw [windowLoop_limit_zero]
      have : e - s = 0 := by
        rw [he']
        split_ifs <;> omega
      rw [this]
      simp [windowInit]
    · have hspec := windowLoop_spec WRAP skip limit it windowInit (by simp [windowInit])
        (by simp only [windowInit]; omega) (by simp only [windowInit]; omega) herr
      obtain ⟨_, _, docs, hdocs, hmap, hcount⟩ := hspec
      have e1 : windowInit.documents = [] := rfl
      have e2 : windowInit.total = 0 := rfl
      have e3 : windowInit.count = 0 := rfl
      rw [e1, List.nil_append] at hdocs
      rw [e2, e3, Int.sub_zero, Nat.sub_zero] at hmap
      rw [e3, Nat.zero_add] at hcount
      have hwin : (it.drop skip.toNat).take limit = (it.drop s).take (e - s) := by
        by_cases hge : it.length ≤ skip.toNat
        · have h1 : s = it.length := by rw [hs']; omega
          rw [List.drop_of_length_le hge, h1, List.drop_of_length_le (le_refl _)]
          simp
        · have h1 : s = skip.toNat := by rw [hs']; omega
          rw [← h1]
          by_cases hlt : s + limit < it.length
          · have h2 : e - s = limit := by rw [he', if_pos hlt]; omega
            rw [h2]
          · have h2 : e - s = it.length - s := by rw [he', if_neg hlt]
            rw [h2, List.take_of_length_le (by rw [List.length_drop]; omega),
              List.take_of_length_le (by rw [List.length_drop])]
      rw [hdocs, hmap, hwin]
      have hlen : docs.length = e - s := by
        have := congrArg List.length hmap
        rw [hwin] at this
        simp only [List.length_map, List.length_take, List.length_drop] at this
        rw [this, he']
        split_ifs <;> omega
      refine ⟨rfl, ?_, ?_⟩
      · rw [hcount, hlen]
      · rw [hcount, hlen, he']
        split_ifs <;> omega

/-- C25: for every sequence of `N` matches yielded by the index iterator, every
`skip >= 0` and every limit, with `N` not above the no-limit sentinel and no arithmetic
wrap-around, the result of the incremental windowing loop of `ExecuteSkiplistQuery` and
of `ExecuteBitarrayQuery` holds exactly the documents at the positions `s .. e-1` of the
iteration order, where `(s, e) = CalculateSkipLimitSlice (N, skip, limit)`, with
`count = e - s <= limit`; and the loop has such a result whenever every match can be
wrapped. -/
theorem window_refines_slice (env : Env) (argv : List JSVal) (signature : String)
    (type : query_t) (idx : TRI_index_t) (op : TRI_index_operator_t)
    (it : List TRI_doc_mptr_t)
    (hskip : 0 ≤ (ExtractSkipAndLimit env argv 2).1)
    (hSkipHi : (ExtractSkipAndLimit env argv 2).1 < (HALF : Int))
    (hNoLimit : env.TRI_QRY_NO_LIMIT < HALF) (hN : it.length ≤ env.TRI_QRY_NO_LIMIT)
    (hSum : (CalculateSkipLimitSlice env.TRI_QRY_NO_LIMIT it.length
      (ExtractSkipAndLimit env argv 2).1 (ExtractSkipAndLimit env argv 2).2).1 +
      (ExtractSkipAndLimit env argv 2).2 < HALF) :
    (∀ r : QueryResult,
      (ExecuteSkiplistQuery env argv signature type =
          ⟨.ok r, [IndexCall.TRI_LookupSkiplistIndex idx op]⟩ ∧
        env.TRI_LookupSkiplistIndex idx op = .ok it) ∨
      (ExecuteBitarrayQuery env argv signature type =
          ⟨.ok r, [IndexCall.TRI_LookupBitarrayIndex idx op]⟩ ∧
        env.TRI_LookupBitarrayIndex idx op = some it) →
      r.documents.map some =
        ((it.drop (CalculateSkipLimitSlice env.TRI_QRY_NO_LIMIT it.length
            (ExtractSkipAndLimit env argv 2).1 (ExtractSkipAndLimit env argv 2).2).1).take
          ((CalculateSkipLimitSlice env.TRI_QRY_NO_LIMIT it.length
              (ExtractSkipAndLimit env argv 2).1 (ExtractSkipAndLimit env argv 2).2).2 -
            (CalculateSkipLimitSlice env.TRI_QRY_NO_LIMIT it.length
              (ExtractSkipAndLimit env argv 2).1 (ExtractSkipAndLimit env argv 2).2).1)).map
          env.WRAP_SHAPED_JSON ∧
      r.count = (CalculateSkipLimitSlice env.TRI_QRY_NO_LIMIT it.length
          (ExtractSkipAndLimit env argv 2).1 (ExtractSkipAndLimit env argv 2).2).2 -
        (CalculateSkipLimitSlice env.TRI_QRY_NO_LIMIT it.length
          (ExtractSkipAndLimit env argv 2).1 (ExtractSkipAndLimit env argv 2).2).1 ∧
      r.count ≤ (ExtractSkipAndLimit env argv 2).2) ∧
    ((∀ d ∈ it, env.WRAP_SHAPED_JSON d ≠ none) →
      ∃ r, windowOutcome (windowLoop env.WRAP_SHAPED_JSON (ExtractSkipAndLimit env argv 2).1
        (ExtractSkipAndLimit env argv 2).2 it windowInit) = .ok r) := by
  constructor
  · intro r hrun
    have hout : windowOutcome (windowLoop env.WRAP_SHAPED_JSON
        (ExtractSkipAndLimit env argv 2).1 (ExtractSkipAndLimit env argv 2).2 it windowInit) =
        .ok r := by
      rcases hrun with ⟨h, hit⟩ | ⟨h, hit⟩
      · exact ExecuteSkiplistQuery_ok env argv signature type idx op it r h hit
      · exact ExecuteBitarrayQuery_ok env argv signature type idx op it r h hit
    exact windowOutcome_slice env.WRAP_SHAPED_JSON env.TRI_QRY_NO_LIMIT _ _ it r hskip hSkipHi
      hNoLimit hN hSum hout
  · intro hw
    have herr := windowLoop_no_error env.WRAP_SHAPED_JSON (ExtractSkipAndLimit env argv 2).1
      (ExtractSkipAndLimit env argv 2).2 it windowInit hw rfl
    unfold windowOutcome
    rw [herr]
    simp only [Bool.false_eq_true, if_false]
    exact ⟨_, rfl⟩


/-- C25 on ten matches with skip 4 and limit 3: the skiplist query returns the documents
at the positions 4, 5, 6, which is the slice `[4, 7)` of `CalculateSkipLimitSlice`. -/
theorem window_refines_slice_witness :
    CalculateSkipLimitSlice 4294967295 10 4 3 = (4, 7) ∧
    ([JSVal.num 4, .num 5, .num 6].map some =
        ((tenDocuments.drop 4).take (7 - 4)).map sampleEnv.WRAP_SHAPED_JSON ∧
      3 = 7 - 4 ∧ 3 ≤ 3) ∧
    ∃ r, windowOutcome (windowLoop sampleEnv.WRAP_SHAPED_JSON 4 3 tenDocuments windowInit) =
      .ok r := by
  have e1 : ExtractSkipAndLimit sampleEnv
      [.str "skiplist", .object [("a", .num 1)], .num 4, .num 3] 2 = (4, 3) := by rfl
  have e2 : CalculateSkipLimitSlice 4294967295 10 4 3 = (4, 7) := by rfl
  have e3 : sampleEnv.TRI_QRY_NO_LIMIT = 4294967295 := rfl
  have e4 : tenDocuments.length = 10 := rfl
  have h := window_refines_slice sampleEnv
    [.str "skiplist", .object [("a", .num 1)], .num 4, .num 3]
    "BY_EXAMPLE_SKIPLIST(<index>, <example>, <skip>, <limit>)" QUERY_EXAMPLE
    ⟨.TRI_IDX_TYPE_SKIPLIST_INDEX, ["a", "b", "c"]⟩
    (.mk TRI_EQ_INDEX_OPERATOR none none (some (.list [.number 1])) 1) tenDocuments
    (by rw [e1]; decide) (by rw [e1]; decide) (by decide) (by decide)
    (by rw [e1, e3, e4]; simp only []; rw [e2]; decide)
  rw [e1, e3, e4] at h
  simp only [] at h
  rw [e2] at h
  exact ⟨e2,
    h.1 { documents := [.num 4, .num 5, .num 6], total := 7, count := 3 }
      (Or.inl ⟨by rfl, by rfl⟩),
    h.2 (by intro d _ hd; cases hd)⟩



/-! ### Access types of the optimiser (C23, C24) -/

/-- C23: the access types of `TRI_aql_access_e` are declared in best-first rank order:
by enumerator value `IMPOSSIBLE < EXACT < LIST < RANGE_SINGLE < RANGE_DOUBLE < REFERENCE <
ALL`; comparing enumerator values is a strict total order on the seven types (different
types have different values), and it is the order of the ranking `Impossible`, `Exact`,
`List`, `RangeSingle`, `RangeDouble`, `Reference`, `FullScan` of the specification. -/
theorem TRI_aql_access_e_rank_order :
    (TRI_aql_access_e.TRI_AQL_ACCESS_IMPOSSIBLE.value <
        TRI_aql_access_e.TRI_AQL_ACCESS_EXACT.value ∧
      TRI_aql_access_e.TRI_AQL_ACCESS_EXACT.value <
        TRI_aql_access_e.TRI_AQL_ACCESS_LIST.value ∧
      TRI_aql_access_e.TRI_AQL_ACCESS_LIST.value <
        TRI_aql_access_e.TRI_AQL_ACCESS_RANGE_SINGLE.value ∧
      TRI_aql_access_e.TRI_AQL_ACCESS_RANGE_SINGLE.value <
        TRI_aql_access_e.TRI_AQL_ACCESS_RANGE_DOUBLE.value ∧
      TRI_aql_access_e.TRI_AQL_ACCESS_RANGE_DOUBLE.value <
        TRI_aql_access_e.TRI_AQL_ACCESS_REFERENCE.value ∧
      TRI_aql_access_e.TRI_AQL_ACCESS_REFERENCE.value <
        TRI_aql_access_e.TRI_AQL_ACCESS_ALL.value) ∧
    (∀ a b : TRI_aql_access_e, a.value = b.value → a = b) ∧
    (∀ a b : TRI_aql_access_e, a.value < b.value ∨ a = b ∨ b.value < a.value) ∧
    (∀ a b : TRI_aql_access_e, a.value < b.value ↔ a.kind.rank < b.kind.rank) ∧
    [TRI_aql_access_e.TRI_AQL_ACCESS_IMPOSSIBLE, .TRI_AQL_ACCESS_EXACT, .TRI_AQL_ACCESS_LIST,
      .TRI_AQL_ACCESS_RANGE_SINGLE, .TRI_AQL_ACCESS_RANGE_DOUBLE, .TRI_AQL_ACCESS_REFERENCE,
      .TRI_AQL_ACCESS_ALL].map TRI_aql_access_e.kind = specRanking := by
  refine ⟨by decide, ?_, ?_, ?_, rfl⟩
  · intro a b
    cases a <;> cases b <;> decide
  · intro a b
    cases a <;> cases b <;> decide
  · intro a b
    cases a <;> cases b <;> decide

/-- C24: merging (logical AND) an `Impossible` field access with any field access `x` on
the same field yields `Impossible`, on either side. -/
theorem merge_impossible_absorbs {V : Type} (cmp : V → V → Ordering)
    (x : TRI_aql_field_access_t V) :
    merge cmp TRI_CreateImpossibleAccessAql x = some .impossible ∧
    merge cmp x TRI_CreateImpossibleAccessAql = some .impossible ∧
    (∀ r, merge cmp TRI_CreateImpossibleAccessAql x = some r →
      r._type = .TRI_AQL_ACCESS_IMPOSSIBLE) ∧
    (∀ r, merge cmp x TRI_CreateImpossibleAccessAql = some r →
      r._type = .TRI_AQL_ACCESS_IMPOSSIBLE) := by
  have h1 : merge cmp TRI_CreateImpossibleAccessAql x = some .impossible := by
    cases x <;> rfl
  have h2 : merge cmp x TRI_CreateImpossibleAccessAql = some .impossible := by
    cases x <;> rfl
  refine ⟨h1, h2, ?_, ?_⟩
  · intro r hr
    rw [h1] at hr
    injection hr with hr
    subst hr
    rfl
  · intro r hr
    rw [h2] at hr
    injection hr with hr
    subst hr
    rfl

/-- The merge of `x > 10` and `x < 5` is `Impossible`, and the merge of two overlapping
lists is their intersection. -/
theorem merge_examples :
    merge (fun a b : Int => compare a b)
        (.rangeSingle ⟨10, .TRI_AQL_RANGE_LOWER_EXCLUDED⟩)
        (.rangeSingle ⟨5, .TRI_AQL_RANGE_UPPER_EXCLUDED⟩) = some .impossible ∧
    merge (fun a b : Int => compare a b) (.list [1, 2, 3]) (.list [2, 3, 4]) =
      some (.list [2, 3]) ∧
    merge (fun a b : Int => compare a b) (.exact 7)
        (.rangeDouble ⟨5, .TRI_AQL_RANGE_LOWER_INCLUDED⟩ ⟨9, .TRI_AQL_RANGE_UPPER_EXCLUDED⟩) =
      some (.exact 7) := by
  refine ⟨by rfl, by rfl, by rfl⟩


/-! ### Checksum of a collection (C22) -/

/-- The value of `UINT32`. -/
theorem UINT32_eq : UINT32 = 4294967296 := rfl

/-- For a plain document, without revisions and without data, the callback adds the CRC
of the document key. -/
theorem ChecksumCalculator_document (cenv : ChecksumEnv) (mptr : MasterPointer)
    (checksum : Nat) (h : mptr.isDocument) :
    ChecksumCalculator cenv false false mptr checksum =
      (checksum + cenv.TRI_Crc32HashString mptr.key) % UINT32 := by
  unfold ChecksumCalculator
  unfold MasterPointer.isDocument at h
  rw [if_pos h]
  simp only [Bool.false_eq_true, if_false]
  rw [UINT32_eq]
  omega

/-- Without revisions and without data, the checksum of plain documents is the sum of
the CRCs of their keys, modulo `2^32`. -/
theorem checksumLoop_documents (cenv : ChecksumEnv) :
    ∀ (docs : List MasterPointer) (checksum : Nat), checksum < UINT32 →
      (∀ d ∈ docs, d.isDocument) →
      checksumLoop cenv false false docs checksum =
        (checksum + (docs.map (fun d => cenv.TRI_Crc32HashString d.key)).sum) % UINT32 := by
  intro docs
  induction docs with
  | nil =>
    intro checksum hlt _
    simp only [checksumLoop, List.map_nil, List.sum_nil, Nat.add_zero]
    exact (Nat.mod_eq_of_lt hlt).symm
  | cons d rest ih =>
    intro checksum _ h
    rw [checksumLoop, ChecksumCalculator_document cenv d checksum (h d (by simp)),
      ih _ (Nat.mod_lt _ (by decide)) (fun x hx => h x (by simp [hx]))]
    simp only [List.map_cons, List.sum_cons]
    rw [UINT32_eq]
    omega

/-- Without revisions the callback does not read the revision id. -/
theorem ChecksumCalculator_rid (cenv : ChecksumEnv) (WD : Bool) (mptr : MasterPointer)
    (rid : Nat) (checksum : Nat) :
    ChecksumCalculator cenv false WD { mptr with _rid := rid } checksum =
      ChecksumCalculator cenv false WD mptr checksum := by
  rfl

/-- Without data the callback does not read the document data. -/
theorem ChecksumCalculator_data (cenv : ChecksumEnv) (WR : Bool) (mptr : MasterPointer)
    (shaped : TRI_shaped_json_t) (checksum : Nat) :
    ChecksumCalculator cenv WR false { mptr with shaped := shaped } checksum =
      ChecksumCalculator cenv WR false mptr checksum := by
  rfl

/-- Without revisions the checksum is that of the documents with their revision ids
set to 0. -/
theorem checksumLoop_rid (cenv : ChecksumEnv) (WD : Bool) :
    ∀ (docs : List MasterPointer) (checksum : Nat),
      checksumLoop cenv false WD docs checksum =
        checksumLoop cenv false WD (docs.map (fun d => { d with _rid := 0 })) checksum := by
  intro docs
  induction docs with
  | nil => intro checksum; rfl
  | cons d rest ih =>
    intro checksum
    simp only [List.map_cons, checksumLoop]
    rw [ChecksumCalculator_rid cenv WD d 0 checksum]
    exact ih _

/-- Without data the checksum is that of the documents with their data replaced by a
fixed value. -/
theorem checksumLoop_data (cenv : ChecksumEnv) (WR : Bool) :
    ∀ (docs : List MasterPointer) (checksum : Nat),
      checksumLoop cenv WR false docs checksum =
        checksumLoop cenv WR false (docs.map (fun d => { d with shaped := ⟨0, []⟩ }))
          checksum := by
  intro docs
  induction docs with
  | nil => intro checksum; rfl
  | cons d rest ih =>
    intro checksum
    simp only [List.map_cons, checksumLoop]
    rw [ChecksumCalculator_data cenv WR d ⟨0, []⟩ checksum]
    exact ih _

/-- C22: for a collection whose markers are all plain documents, `collection.checksum`
with `withRevisions = false` and `withData = false` is the sum modulo `2^32` of the CRC32
of each document key and of nothing else: two collections with the same multiset of keys
have the same checksum, whatever their revision ids and document data. Revision ids enter
the checksum only when `withRevisions` is true (without them, two collections that differ
in revision ids only have the same checksum), and document data only when `withData` is
true. -/
theorem checksum_keys_only (env : Env) (cenv : ChecksumEnv) (argv : List JSVal) :
    ((∀ d ∈ cenv.documents, d.isDocument) → cenv.isCoordinator = false → env.col = true →
      env.sharding = none → env.trxBegin = TRI_ERROR_NO_ERROR → env.orderBarrier = true →
      (argv.length > 0 → cenv.TRI_ObjectToBoolean (argv.getD 0 .undefined) = false) →
      (argv.length > 1 → cenv.TRI_ObjectToBoolean (argv.getD 1 .undefined) = false) →
      JS_ChecksumCollection env cenv argv =
        .ok { checksum :=
                (cenv.documents.map (fun d => cenv.TRI_Crc32HashString d.key)).sum % UINT32,
              revision := cenv.revision }) ∧
    (∀ docs1 docs2 : List MasterPointer, (∀ d ∈ docs1, d.isDocument) →
      (∀ d ∈ docs2, d.isDocument) →
      (docs1.map (fun d => d.key)).Perm (docs2.map (fun d => d.key)) →
      checksumLoop cenv false false docs1 0 = checksumLoop cenv false false docs2 0) ∧
    (∀ (WD : Bool) (docs1 docs2 : List MasterPointer),
      docs1.map (fun d => { d with _rid := 0 }) = docs2.map (fun d => { d with _rid := 0 }) →
      checksumLoop cenv false WD docs1 0 = checksumLoop cenv false WD docs2 0) ∧
    (∀ (WR : Bool) (docs1 docs2 : List MasterPointer),
      docs1.map (fun d => { d with shaped := ⟨0, []⟩ }) =
        docs2.map (fun d => { d with shaped := ⟨0, []⟩ }) →
      checksumLoop cenv WR false docs1 0 = checksumLoop cenv WR false docs2 0) := by
  refine ⟨?_, ?_, ?_, ?_⟩
  · intro hdocs hcoord hcol hshard htrx hbarrier hWR hWD
    have h1 : (if argv.length > 0 then cenv.TRI_ObjectToBoolean (argv.getD 0 .undefined)
        else false) = false := by
      by_cases h : argv.length > 0
      · rw [if_pos h, hWR h]
      · rw [if_neg h]
    have h2 : (if argv.length > 1 then cenv.TRI_ObjectToBoolean (argv.getD 1 .undefined)
        else false) = false := by
      by_cases h : argv.length > 1
      · rw [if_pos h, hWD h]
      · rw [if_neg h]
    unfold JS_ChecksumCollection
    simp only [hcoord, hcol, hshard, htrx, hbarrier, h1, h2, Bool.not_true,
      Bool.false_eq_true, if_false, ne_eq, not_true_eq_false]
    rw [checksumLoop_documents cenv cenv.documents 0 (by decide) hdocs, Nat.zero_add]
  · intro docs1 docs2 h1 h2 hperm
    rw [checksumLoop_documents cenv docs1 0 (by decide) h1,
      checksumLoop_documents cenv docs2 0 (by decide) h2]
    have hsum : (docs1.map (fun d => cenv.TRI_Crc32HashString d.key)).sum =
        (docs2.map (fun d => cenv.TRI_Crc32HashString d.key)).sum := by
      have e1 : docs1.map (fun d => cenv.TRI_Crc32HashString d.key) =
          (docs1.map (fun d => d.key)).map cenv.TRI_Crc32HashString := by
        simp [List.map_map, Function.comp]
      have e2 : docs2.map (fun d => cenv.TRI_Crc32HashString d.key) =
          (docs2.map (fun d => d.key)).map cenv.TRI_Crc32HashString := by
        simp [List.map_map, Function.comp]
      rw [e1, e2]
      exact (hperm.map cenv.TRI_Crc32HashString).sum_eq
    rw [hsum]
  · intro WD docs1 docs2 h
    rw [checksumLoop_rid cenv WD docs1 0, checksumLoop_rid cenv WD docs2 0, h]
  · intro WR docs1 docs2 h
    rw [checksumLoop_data cenv WR docs1 0, checksumLoop_data cenv WR docs2 0, h]

/-- The documents of `sampleChecksumEnv` are plain documents. -/
theorem sampleChecksumEnv_documents :
    ∀ d ∈ sampleChecksumEnv.documents, d.isDocument := by
  intro d hd
  have hdocs : sampleChecksumEnv.documents =
      [⟨.TRI_DOC_MARKER_KEY_DOCUMENT, "ab", 5, 0, "", 0, "", ⟨1, []⟩⟩,
        ⟨.TRI_WAL_MARKER_DOCUMENT, "cde", 7, 0, "", 0, "", ⟨2, [1]⟩⟩] := rfl
  rw [hdocs] at hd
  simp only [List.mem_cons, List.mem_singleton, List.not_mem_nil, or_false] at hd
  rcases hd with h | h
  · subst h; exact Or.inl rfl
  · subst h; exact Or.inr rfl

/-- C22 on the collection of `sampleChecksumEnv`, with the keys `ab` and `cde`: the
checksum without revisions and data is 2 + 3 = 5, and it is the checksum of the
collection that holds the same keys in the other order, with other revision ids and
other data. -/
theorem checksum_keys_only_witness :
    JS_ChecksumCollection sampleEnv sampleChecksumEnv [] =
      .ok { checksum := 5, revision := "7" } ∧
    checksumLoop sampleChecksumEnv false false sampleChecksumEnv.documents 0 =
      checksumLoop sampleChecksumEnv false false
        [⟨.TRI_WAL_MARKER_DOCUMENT, "cde", 70, 0, "", 0, "", ⟨3, [4]⟩⟩,
          ⟨.TRI_DOC_MARKER_KEY_DOCUMENT, "ab", 50, 0, "", 0, "", ⟨5, [6]⟩⟩] 0 :=
  have h := checksum_keys_only sampleEnv sampleChecksumEnv []
  ⟨h.1 sampleChecksumEnv_documents rfl rfl rfl rfl rfl (by intro h0; cases h0)
      (by intro h0; cases h0),
    h.2.1 _ _ sampleChecksumEnv_documents
      (by
        intro d hd
        simp only [List.mem_cons, List.mem_singleton, List.not_mem_nil, or_false] at hd
        rcases hd with h | h
        · subst h; exact Or.inr rfl
        · subst h; exact Or.inl rfl)
      (List.Perm.swap "cde" "ab" [])⟩


end ArangoQuery
